import Mathlib

/-! # dbot_ros trackers: frame reconstruction and filter orchestration

A shallow embedding of `RobotTracker` (robot_tracker.cpp) and `MultiObjectTracker`
(object_tracker.cpp).

Modelling conventions.
* A floating-point number is `Scalar`: NaN or an exact rational.  Infinities are not
  represented.
* Two levels of arithmetic.  The first definitions compute exactly: no rounding, no
  narrowing of `double` to `float`, a division by zero yields NaN, and sizes and indices are
  natural numbers.  They carry the statements on control flow, calls and state.  The section
  "Machine arithmetic" embeds `publishPointCloud`, `Initialize` and `Filter` of `RobotTracker`
  again with the 32-bit size fields of the cloud message, the 64-bit index arithmetic and
  floating-point operations that round; it carries the statements that turn on sizes or on
  exact equality of floating-point values.
* The external recursive filter, the image decoder `ri::Ros2Eigen` and the clock are
  parameters: the trackers are verified against every implementation of them.
* A call whose C++ behaviour is undefined (out-of-range store or index, null pointer,
  integer division by zero, size mismatch of an Eigen assignment) or that terminates the
  process returns no result (`none`, or an `Except.error` telling the two apart).
-/

namespace DbotRos

/-! ## Scalars -/

/-- A floating-point value: NaN or an exact rational number. -/
inductive Scalar where
  | nan : Scalar
  | val (q : ℚ) : Scalar
deriving DecidableEq

namespace Scalar

/-- The test `std::isnan(x)`, also written `x != x` in the source. -/
def isnan : Scalar → Bool
  | nan => true
  | val _ => false

/-- Conversion of an index (`(float)u`). -/
def ofNat (n : Nat) : Scalar := val (n : ℚ)

/-- Subtraction; NaN is absorbing. -/
def sub : Scalar → Scalar → Scalar
  | val a, val b => val (a - b)
  | _, _ => nan

/-- Multiplication; NaN is absorbing. -/
def mul : Scalar → Scalar → Scalar
  | val a, val b => val (a * b)
  | _, _ => nan

/-- Division; NaN is absorbing and a zero divisor yields NaN. -/
def div : Scalar → Scalar → Scalar
  | val a, val b => if b = 0 then nan else val (a / b)
  | _, _ => nan

/-- The comparison `a > b`; false as soon as one side is NaN. -/
def gt : Scalar → Scalar → Bool
  | val a, val b => decide (b < a)
  | _, _ => false

end Scalar

/-! ## Matrices -/

/-- The type `Observation`: a dynamically sized depth matrix, addressed `image(v,u)`. -/
structure Observation where
  rows : Nat
  cols : Nat
  coeff : Nat → Nat → Scalar

/-- The expression `image / c`: coefficient-wise division by a scalar. -/
def Observation.divScalar (image : Observation) (c : Scalar) : Observation :=
  { rows := image.rows, cols := image.cols, coeff := fun v u => (image.coeff v u).div c }

/-- The type `Eigen::Matrix3d`, entry `mij` being `m(i,j)`. -/
structure Matrix3d where
  m00 : Scalar
  m01 : Scalar
  m02 : Scalar
  m10 : Scalar
  m11 : Scalar
  m12 : Scalar
  m20 : Scalar
  m21 : Scalar
  m22 : Scalar
deriving DecidableEq

/-- The statement `m.topLeftCorner(2,3) /= c`: the first two rows are divided by `c`. -/
def Matrix3d.topLeftCornerDiv (m : Matrix3d) (c : Scalar) : Matrix3d :=
  { m with
    m00 := m.m00.div c, m01 := m.m01.div c, m02 := m.m02.div c,
    m10 := m.m10.div c, m11 := m.m11.div c, m12 := m.m12.div c }

/-- The statement `m.topLeftCorner(2,3) *= c`: the first two rows are multiplied by `c`. -/
def Matrix3d.topLeftCornerMul (m : Matrix3d) (c : Scalar) : Matrix3d :=
  { m with
    m00 := m.m00.mul c, m01 := m.m01.mul c, m02 := m.m02.mul c,
    m10 := m.m10.mul c, m11 := m.m11.mul c, m12 := m.m12.mul c }

/-! ## The point cloud message and its byte buffer -/

/-- One byte of `points->data`: a value-initialised byte, or byte `k` of the four-byte
encoding of a float. -/
inductive Byte where
  | zero : Byte
  | part (x : Scalar) (k : Nat) : Byte
deriving DecidableEq

/-- The call `memcpy(&data[off], &x, sizeof(float))`; `none` when the four bytes do not lie
inside the buffer. -/
def memcpyFloat (data : List Byte) (off : Nat) (x : Scalar) : Option (List Byte) :=
  if off + 4 ≤ data.length then
    some ((((data.set off (Byte.part x 0)).set (off + 1) (Byte.part x 1)).set
      (off + 2) (Byte.part x 2)).set (off + 3) (Byte.part x 3))
  else none

/-- Decoding of the float stored at byte offset `off`, as a consumer of the message does. -/
def readFloat (data : List Byte) (off : Nat) : Option Scalar :=
  match data[off]? with
  | some (Byte.part x k) =>
    if k = 0 ∧ data[off + 1]? = some (Byte.part x 1) ∧ data[off + 2]? = some (Byte.part x 2)
        ∧ data[off + 3]? = some (Byte.part x 3) then some x else none
  | some Byte.zero =>
    if data[off + 1]? = some Byte.zero ∧ data[off + 2]? = some Byte.zero
        ∧ data[off + 3]? = some Byte.zero then some (Scalar.val 0) else none
  | none => none

/-- A `sensor_msgs::PointField`; every field of the cloud is one FLOAT32. -/
structure PointField where
  name : String
  offset : Nat
  count : Nat
deriving DecidableEq

/-- The message `sensor_msgs::PointCloud2` as far as `publishPointCloud` fills it. -/
structure PointCloud2 where
  stamp : ℚ
  width : Nat
  height : Nat
  is_dense : Bool
  is_bigendian : Bool
  fields : List PointField
  point_step : Nat
  row_step : Nat
  data : List Byte
deriving DecidableEq

/-- The loop over `points->fields` that assigns the field offsets: it returns the fields and
the final value of `offset`. -/
def initFields (names : List String) : List PointField × Nat :=
  names.foldl
    (fun acc nm => (acc.1 ++ [{ name := nm, offset := acc.2, count := 1 }], acc.2 + 4))
    ([], 0)

/-- The value `points->fields[d].offset`. -/
def fieldOffset (fields : List PointField) (d : Nat) : Nat :=
  match fields[d]? with
  | some f => f.offset
  | none => 0

/-- The constant `bad_point`. -/
def bad_point : Scalar := Scalar.nan

/-- Body of the pixel loop of `publishPointCloud` for pixel `(v,u)`: the three `memcpy`
calls of the branch selected by `depth != depth`. -/
def writePoint (camera_matrix_ : Matrix3d) (image : Observation) (fields : List PointField)
    (point_step row_step : Nat) (data : List Byte) (v u : Nat) : Option (List Byte) :=
  let depth := image.coeff v u
  if depth.isnan then
    (memcpyFloat data (v * row_step + u * point_step + fieldOffset fields 0) bad_point).bind
      fun d0 =>
    (memcpyFloat d0 (v * row_step + u * point_step + fieldOffset fields 1) bad_point).bind
      fun d1 =>
    memcpyFloat d1 (v * row_step + u * point_step + fieldOffset fields 2) bad_point
  else
    let x := (((Scalar.ofNat u).sub camera_matrix_.m02).mul depth).div camera_matrix_.m00
    let y := (((Scalar.ofNat v).sub camera_matrix_.m12).mul depth).div camera_matrix_.m11
    (memcpyFloat data (v * row_step + u * point_step + fieldOffset fields 0) x).bind
      fun d0 =>
    (memcpyFloat d0 (v * row_step + u * point_step + fieldOffset fields 1) y).bind
      fun d1 =>
    memcpyFloat d1 (v * row_step + u * point_step + fieldOffset fields 2) depth

/-- The message built by `RobotTracker::publishPointCloud(image, stamp)` with the cached
`camera_matrix_`: header, field layout, buffer allocation, then the loop over the columns `u`
with the inner loop over the rows `v`. -/
def publishPointCloud (camera_matrix_ : Matrix3d) (image : Observation) (stamp : ℚ) :
    Option PointCloud2 :=
  let width := image.cols
  let height := image.rows
  let fo := initFields ["x", "y", "z"]
  let point_step := fo.2
  let row_step := point_step * width
  let data0 := List.replicate (width * height * point_step) Byte.zero
  ((List.range image.cols).foldlM
    (fun data u =>
      (List.range image.rows).foldlM
        (fun data v => writePoint camera_matrix_ image fo.1 point_step row_step data v u) data)
    data0).map
    fun data =>
      { stamp := stamp, width := width, height := height, is_dense := false,
        is_bigendian := false, fields := fo.1, point_step := point_step,
        row_step := row_step, data := data }

/-- The three values the pixel loop stores for pixel `(v,u)`, in the order x, y, z. -/
def pointAt (camera_matrix_ : Matrix3d) (image : Observation) (v u : Nat) :
    Scalar × Scalar × Scalar :=
  let depth := image.coeff v u
  if depth.isnan then (bad_point, bad_point, bad_point)
  else
    ((((Scalar.ofNat u).sub camera_matrix_.m02).mul depth).div camera_matrix_.m00,
     (((Scalar.ofNat v).sub camera_matrix_.m12).mul depth).div camera_matrix_.m11,
     depth)

/-- Three consecutive `memcpy` calls of one point at byte offsets `base`, `base + 4` and
`base + 8`. -/
def write3 (data : List Byte) (base : Nat) (p : Scalar × Scalar × Scalar) :
    Option (List Byte) :=
  (memcpyFloat data base p.1).bind fun d0 =>
  (memcpyFloat d0 (base + 4) p.2.1).bind fun d1 =>
  memcpyFloat d1 (base + 8) p.2.2

/-- The three floats of the point that starts at byte offset `base`. -/
def read3 (data : List Byte) (base : Nat) : Option Scalar × Option Scalar × Option Scalar :=
  (readFloat data base, readFloat data (base + 4), readFloat data (base + 8))

/-- The pixels `(u, v)` in the order in which the loops of `publishPointCloud` visit them:
columns outside, rows inside. -/
def pixelOrder (image : Observation) : List (Nat × Nat) :=
  List.product (List.range image.cols) (List.range image.rows)

/-! ## Shared types of the trackers -/

/-- How a tracker call ends when it yields no result that the source defines: `exit(code)`,
or behaviour that C++ or a library precondition leaves undefined (null pointer, index out of
range, integer division by zero, out-of-range store, size mismatch of an Eigen assignment).
What the process does in the undefined case depends on the build and is not modelled. -/
inductive Failure where
  | exit (code : Int) : Failure
  | undefined : Failure
deriving DecidableEq

/-- A state vector (`Eigen::VectorXd`). -/
abbrev StateVec := List Scalar

/-- The message `sensor_msgs::Image` as far as the trackers look at it: the time stamp in
seconds (`header.stamp.toSec()`) and the still encoded frame. -/
structure Image where
  stamp : ℚ
  height : Nat
  width : Nat
  encoding : String
  bytes : List Nat

/-- The expression `double(downsampling_factor_)`. -/
def Scalar.ofInt (z : Int) : Scalar := Scalar.val (z : ℚ)

/-- The vector `Zero(n)`. -/
def zeroVec (n : Nat) : StateVec := List.replicate n (Scalar.val 0)

/-- The quotient `evaluation_count / sampling_blocks.size()`: the `int` is converted to
`size_t` (64 bit) before the unsigned division; a zero divisor is undefined behaviour. -/
def sampleTarget (evaluation_count : Int) (sampling_blocks : List (List Nat)) :
    Except Failure Nat :=
  if sampling_blocks.length = 0 then Except.error Failure.undefined
  else Except.ok ((evaluation_count % (2 : Int) ^ 64).toNat / sampling_blocks.length)

/-- The conversion to meters applied to a decoded frame: `if(!data_in_meters_) image =
image/1000.`. -/
def toMeters (data_in_meters_ : Bool) (image : Observation) : Observation :=
  if !data_in_meters_ then image.divScalar (Scalar.val 1000) else image

/-! ## RobotTracker -/

/-- The parameters `RobotTracker::Initialize` reads from the parameter server, and the
build and file-system facts its GPU branch depends on. -/
structure RobotParams where
  use_gpu : Bool
  max_sample_count : Int
  initial_occlusion_prob : Scalar
  p_occluded_visible : Scalar
  p_occluded_occluded : Scalar
  joint_angle_sigma : Scalar
  damping : Scalar
  tail_weight : Scalar
  model_sigma : Scalar
  sigma_factor : Scalar
  sampling_blocks : List (List Nat)
  joint_sigmas : List Scalar
  max_kl_divergence : Scalar
  BUILD_GPU : Bool
  fragment_shader_exists : Bool
  vertex_shader_exists : Bool

/-- What the process model of the robot is built from: `ProcessModel(dimension_)` followed
by `parameters(damping, joint_covariance)`. -/
structure RobotProcessModel where
  dimension : Nat
  damping : Scalar
  joint_covariance : List (List Scalar)

/-- What the observation model of the robot is built from. -/
structure RobotObservationModel where
  gpu : Bool
  camera_matrix : Matrix3d
  rows : Nat
  cols : Nat
  sample_count : Int
  initial_occlusion_prob : Scalar
  p_occluded_visible : Scalar
  p_occluded_occluded : Scalar
  tail_weight : Scalar
  model_sigma : Scalar
  sigma_factor : Scalar

/-- The external collaborators of `RobotTracker`: the decoder `ri::Ros2Eigen(image, factor)`
and the recursive filter (`FilterType`) with state space `σ`.  The observation model handed
to `create` is `none` for the pointer left null when `use_gpu` is set in a build without
`BUILD_GPU`. -/
structure RobotEnv (σ : Type) where
  Ros2Eigen : Image → Int → Observation
  create : RobotProcessModel → Option RobotObservationModel → List (List Nat) → Scalar → σ
  Samples : σ → List StateVec → σ
  Filter : σ → Observation → Scalar → StateVec → σ
  Resample : σ → Nat → σ
  mean : σ → StateVec

/-- What a `RobotTracker` call does to the outside, in program order. -/
inductive RobotEvent where
  | skippedFrame (delta_time : Scalar) : RobotEvent
  | render (state : StateVec) (camera : Matrix3d) (rows cols : Nat) : RobotEvent
  | filterCall (image : Observation) (delta_time : Scalar) (input : StateVec) : RobotEvent
  | resampleCall (count : Nat) : RobotEvent
  | publishTransforms (mean : StateVec) (t : ℚ) : RobotEvent
  | publishImage (t : ℚ) : RobotEvent
  | publishCloud (points : PointCloud2) : RobotEvent

/-- The member variables of `RobotTracker`; `filter_` and `mean_` are null pointers until
`Initialize` has run. -/
structure RobotTracker (σ : Type) where
  downsampling_factor_ : Int
  evaluation_count_ : Int
  data_in_meters_ : Bool
  last_measurement_time_ : Scalar
  camera_matrix_ : Matrix3d
  dimension_ : Nat
  mean_ : Option StateVec
  filter_ : Option σ

/-- The constructor `RobotTracker::RobotTracker()`: the parameters it reads, and
`last_measurement_time_` set to a quiet NaN. -/
def RobotTracker.new {σ : Type} (downsampling_factor evaluation_count : Int)
    (data_in_meters : Bool) (uninitialised_camera_matrix : Matrix3d) : RobotTracker σ :=
  { downsampling_factor_ := downsampling_factor
    evaluation_count_ := evaluation_count
    data_in_meters_ := data_in_meters
    last_measurement_time_ := Scalar.nan
    camera_matrix_ := uninitialised_camera_matrix
    dimension_ := 0
    mean_ := none
    filter_ := none }

/-- The matrix `joint_covariance`: `Zero(dimension_, dimension_)` whose diagonal entry `i`
is then set to `pow(joint_sigmas[i], 2)`. -/
def jointCovariance (dimension_ : Nat) (joint_sigmas : List Scalar) : List (List Scalar) :=
  (List.range dimension_).foldl
    (fun m i =>
      m.set i (((m[i]?).getD []).set i (((joint_sigmas[i]?).getD Scalar.nan).mul
        ((joint_sigmas[i]?).getD Scalar.nan))))
    (List.replicate dimension_ (List.replicate dimension_ (Scalar.val 0)))

/-- The observation model built by `RobotTracker::Initialize`; the GPU branch exits when a
shader file is missing and leaves the pointer null in a build without `BUILD_GPU`. -/
def robotObservationModel (P : RobotParams) (camera_matrix : Matrix3d) (image : Observation)
    (initial_sample_count : Nat) : Except Failure (Option RobotObservationModel) :=
  if !P.use_gpu then
    Except.ok (some
      { gpu := false, camera_matrix := camera_matrix, rows := image.rows, cols := image.cols,
        sample_count := initial_sample_count,
        initial_occlusion_prob := P.initial_occlusion_prob,
        p_occluded_visible := P.p_occluded_visible,
        p_occluded_occluded := P.p_occluded_occluded,
        tail_weight := P.tail_weight, model_sigma := P.model_sigma,
        sigma_factor := P.sigma_factor })
  else if P.BUILD_GPU then
    if !P.fragment_shader_exists then Except.error (Failure.exit (-1))
    else if !P.vertex_shader_exists then Except.error (Failure.exit (-1))
    else
      Except.ok (some
        { gpu := true, camera_matrix := camera_matrix, rows := image.rows, cols := image.cols,
          sample_count := P.max_sample_count,
          initial_occlusion_prob := P.initial_occlusion_prob,
          p_occluded_visible := P.p_occluded_visible,
          p_occluded_occluded := P.p_occluded_occluded,
          tail_weight := P.tail_weight, model_sigma := P.model_sigma,
          sigma_factor := P.sigma_factor })
  else Except.ok none

/-- The method `RobotTracker::Initialize(initial_samples_eigen, ros_image, camera_matrix,
urdf_kinematics)`, the kinematics entering through its joint count. -/
def RobotTracker.Initialize {σ : Type} (E : RobotEnv σ) (P : RobotParams) (T : RobotTracker σ)
    (initial_samples_eigen : List StateVec) (ros_image : Image) (camera_matrix : Matrix3d)
    (num_joints : Nat) : Except Failure (RobotTracker σ × List RobotEvent) := do
  let initial_samples := initial_samples_eigen
  -- convert camera matrix and image to desired format
  let camera_matrix := camera_matrix.topLeftCornerDiv (Scalar.ofInt T.downsampling_factor_)
  let image := toMeters T.data_in_meters_ (E.Ros2Eigen ros_image T.downsampling_factor_)
  let dimension_ := num_joints
  -- rendering of the first sample
  let first ← match initial_samples[0]? with
    | some s => Except.ok s
    | none => Except.error Failure.undefined
  let observation_model ← robotObservationModel P camera_matrix image initial_samples.length
  -- initialize process model
  if dimension_ ≠ P.joint_sigmas.length then Except.error (Failure.exit (-1))
  else
    let process : RobotProcessModel :=
      { dimension := dimension_, damping := P.damping,
        joint_covariance := jointCovariance dimension_ P.joint_sigmas }
    let filter := E.create process observation_model P.sampling_blocks P.max_kl_divergence
    -- we evaluate the initial particles and resample
    let filter := E.Samples filter initial_samples
    let filter := E.Filter filter image (Scalar.val 0) (zeroVec dimension_)
    let target ← sampleTarget T.evaluation_count_ P.sampling_blocks
    let filter := E.Resample filter target
    pure
      ({ T with camera_matrix_ := camera_matrix, dimension_ := dimension_,
                mean_ := some [], filter_ := some filter },
       [RobotEvent.render first camera_matrix image.rows image.cols,
        RobotEvent.filterCall image (Scalar.val 0) (zeroVec dimension_),
        RobotEvent.resampleCall target])

/-- The shared body of `RobotTracker::Filter` and `RobotTracker::FilterAndReturn` is written
out twice in the source; this is `RobotTracker::Filter(ros_image)`.  `now` is the value of
`ros::Time::now()` and `subscribers` the value of `getNumSubscribers()`. -/
def RobotTracker.Filter {σ : Type} (E : RobotEnv σ) (T : RobotTracker σ) (ros_image : Image)
    (now : ℚ) (subscribers : Nat) : Except Failure (RobotTracker σ × List RobotEvent) := do
  let delta_time :=
    if T.last_measurement_time_.isnan then Scalar.val 0
    else (Scalar.val ros_image.stamp).sub T.last_measurement_time_
  let last_measurement_time_ := Scalar.val ros_image.stamp
  let warning :=
    if delta_time.gt (Scalar.val (4 / 100)) then [RobotEvent.skippedFrame delta_time] else []
  -- convert image
  let image := toMeters T.data_in_meters_ (E.Ros2Eigen ros_image T.downsampling_factor_)
  -- filter
  let filter ← match T.filter_ with
    | some f => Except.ok (E.Filter f image delta_time (zeroVec T.dimension_))
    | none => Except.error Failure.undefined
  -- get the mean estimation for the robot joints
  let mean := E.mean filter
  -- publish point cloud
  let full_image := toMeters T.data_in_meters_ (E.Ros2Eigen ros_image 1)
  let temp := T.camera_matrix_
  let camera_matrix_ := T.camera_matrix_.topLeftCornerMul (Scalar.ofInt T.downsampling_factor_)
  let points ← match publishPointCloud camera_matrix_ full_image now with
    | some pc => Except.ok pc
    | none => Except.error Failure.undefined
  let camera_matrix_ := temp
  pure
    ({ T with last_measurement_time_ := last_measurement_time_, filter_ := some filter,
              mean_ := some mean, camera_matrix_ := camera_matrix_ },
     warning ++
      [RobotEvent.filterCall image delta_time (zeroVec T.dimension_),
       RobotEvent.render mean T.camera_matrix_ image.rows image.cols,
       RobotEvent.publishTransforms mean now,
       RobotEvent.publishImage now] ++
      (if subscribers > 0 then [RobotEvent.publishCloud points] else []))

/-- The method `RobotTracker::FilterAndReturn(ros_image)`: the same statements as `Filter`,
then `return *mean_`. -/
def RobotTracker.FilterAndReturn {σ : Type} (E : RobotEnv σ) (T : RobotTracker σ)
    (ros_image : Image) (now : ℚ) (subscribers : Nat) :
    Except Failure (RobotTracker σ × List RobotEvent × StateVec) := do
  let delta_time :=
    if T.last_measurement_time_.isnan then Scalar.val 0
    else (Scalar.val ros_image.stamp).sub T.last_measurement_time_
  let last_measurement_time_ := Scalar.val ros_image.stamp
  let warning :=
    if delta_time.gt (Scalar.val (4 / 100)) then [RobotEvent.skippedFrame delta_time] else []
  -- convert image
  let image := toMeters T.data_in_meters_ (E.Ros2Eigen ros_image T.downsampling_factor_)
  -- filter
  let filter ← match T.filter_ with
    | some f => Except.ok (E.Filter f image delta_time (zeroVec T.dimension_))
    | none => Except.error Failure.undefined
  -- get the mean estimation for the robot joints
  let mean := E.mean filter
  -- publish point cloud
  let full_image := toMeters T.data_in_meters_ (E.Ros2Eigen ros_image 1)
  let temp := T.camera_matrix_
  let camera_matrix_ := T.camera_matrix_.topLeftCornerMul (Scalar.ofInt T.downsampling_factor_)
  let points ← match publishPointCloud camera_matrix_ full_image now with
    | some pc => Except.ok pc
    | none => Except.error Failure.undefined
  let camera_matrix_ := temp
  pure
    ({ T with last_measurement_time_ := last_measurement_time_, filter_ := some filter,
              mean_ := some mean, camera_matrix_ := camera_matrix_ },
     warning ++
      [RobotEvent.filterCall image delta_time (zeroVec T.dimension_),
       RobotEvent.render mean T.camera_matrix_ image.rows image.cols,
       RobotEvent.publishTransforms mean now,
       RobotEvent.publishImage now] ++
      (if subscribers > 0 then [RobotEvent.publishCloud points] else []),
     mean)

/-- One call on a `RobotTracker` after its initialization; the arguments are the frame, the
value of `ros::Time::now()` and the number of subscribers of the cloud topic. -/
inductive RobotCall where
  | filter (ros_image : Image) (now : ℚ) (subscribers : Nat) : RobotCall
  | filterAndReturn (ros_image : Image) (now : ℚ) (subscribers : Nat) : RobotCall

/-- The frame handed to a call. -/
def RobotCall.image : RobotCall → Image
  | RobotCall.filter im _ _ => im
  | RobotCall.filterAndReturn im _ _ => im

/-- The value of `ros::Time::now()` during a call. -/
def RobotCall.now : RobotCall → ℚ
  | RobotCall.filter _ now _ => now
  | RobotCall.filterAndReturn _ now _ => now

/-- The number of subscribers of the cloud topic during a call. -/
def RobotCall.subscribers : RobotCall → Nat
  | RobotCall.filter _ _ subs => subs
  | RobotCall.filterAndReturn _ _ subs => subs

/-- One call: the tracker it leaves and what it did to the outside. -/
def RobotTracker.step {σ : Type} (E : RobotEnv σ) (T : RobotTracker σ) :
    RobotCall → Except Failure (RobotTracker σ × List RobotEvent)
  | RobotCall.filter im now subs => T.Filter E im now subs
  | RobotCall.filterAndReturn im now subs =>
    (T.FilterAndReturn E im now subs).map fun r => (r.1, r.2.1)

/-- Successive calls on one tracker: for every call, in order, the tracker it leaves and its
events. -/
def RobotTracker.run {σ : Type} (E : RobotEnv σ) :
    RobotTracker σ → List RobotCall → Except Failure (List (RobotTracker σ × List RobotEvent))
  | _, [] => Except.ok []
  | T, c :: cs =>
    match T.step E c with
    | Except.ok r =>
      match RobotTracker.run E r.1 cs with
      | Except.ok rs => Except.ok (r :: rs)
      | Except.error e => Except.error e
    | Except.error e => Except.error e

/-- Filter stand-in: it records the elapsed time of every `Filter` call. -/
def demoRobotEnv : RobotEnv (List Scalar) where
  Ros2Eigen := fun im _ =>
    { rows := im.height, cols := im.width, coeff := fun _ _ => Scalar.val 1500 }
  create := fun _ _ _ _ => []
  Samples := fun s _ => s
  Filter := fun s _ delta_time _ => s ++ [delta_time]
  Resample := fun s _ => s
  mean := fun s => s

/-- A 1 x 1 frame with the given time stamp. -/
def demoImage (stamp : ℚ) : Image :=
  { stamp := stamp, height := 1, width := 1, encoding := "16UC1", bytes := [] }

/-- Parameters of a robot with a single joint and a single sampling block. -/
def demoRobotParams : RobotParams where
  use_gpu := false
  max_sample_count := 10
  initial_occlusion_prob := Scalar.val 0
  p_occluded_visible := Scalar.val 0
  p_occluded_occluded := Scalar.val 0
  joint_angle_sigma := Scalar.val 1
  damping := Scalar.val 0
  tail_weight := Scalar.val 0
  model_sigma := Scalar.val 0
  sigma_factor := Scalar.val 0
  sampling_blocks := [[0]]
  joint_sigmas := [Scalar.val 1]
  max_kl_divergence := Scalar.val 1
  BUILD_GPU := false
  fragment_shader_exists := false
  vertex_shader_exists := false

/-- Intrinsics with `fx = fy = 2` and principal point `(1, 1)`. -/
def demoK : Matrix3d :=
  { m00 := Scalar.val 2, m01 := Scalar.val 0, m02 := Scalar.val 1,
    m10 := Scalar.val 0, m11 := Scalar.val 2, m12 := Scalar.val 1,
    m20 := Scalar.val 0, m21 := Scalar.val 0, m22 := Scalar.val 1 }

/-- A freshly constructed tracker with downsampling factor 2 and depth in millimeters. -/
def demoRobot : RobotTracker (List Scalar) := RobotTracker.new 2 100 false demoK

/-! ## MultiObjectTracker -/

/-- The parameters `MultiObjectTracker::Initialize` reads from the parameter server, and the
build and file-system facts its GPU branch depends on. -/
structure ObjectParams where
  use_gpu : Bool
  evaluation_count : Int
  sampling_blocks : List (List Nat)
  max_kl_divergence : Scalar
  max_sample_count : Int
  initial_occlusion_prob : Scalar
  p_occluded_visible : Scalar
  p_occluded_occluded : Scalar
  linear_acceleration_sigma : Scalar
  angular_acceleration_sigma : Scalar
  damping : Scalar
  tail_weight : Scalar
  model_sigma : Scalar
  sigma_factor : Scalar
  BUILD_GPU : Bool
  fragment_shader_exists : Bool
  vertex_shader_exists : Bool

/-- What the process model of the objects is built from: `ProcessModel(delta_time, count)`
and the values handed to `Parameters` for every object. -/
structure ObjectProcessModel where
  delta_time : Scalar
  count : Nat
  damping : Scalar
  linear_acceleration_variance : Scalar
  angular_acceleration_variance : Scalar

/-- What the observation model of the objects is built from. -/
structure ObjectObservationModel where
  gpu : Bool
  camera_matrix : Matrix3d
  rows : Nat
  cols : Nat
  sample_count : Int
  initial_occlusion_prob : Scalar
  delta_time : Scalar
  p_occluded_visible : Scalar
  p_occluded_occluded : Scalar
  tail_weight : Scalar
  model_sigma : Scalar
  sigma_factor : Scalar

/-- The external collaborators of `MultiObjectTracker`: the decoder, the size `BODY_SIZE` of
one body's block in a `FreeFloatingRigidBodiesState`, and the recursive filter with state
space `σ`.  `Samples` is the setter `filter_->Samples(x)` and `getSamples` the getter
`filter_->Samples()`; `Filter` takes the observation and the control input only. -/
structure ObjectEnv (σ : Type) where
  Ros2Eigen : Image → Int → Observation
  BODY_SIZE : Nat
  create : ObjectProcessModel → ObjectObservationModel → List (List Nat) → Scalar → σ
  SamplingBlocks : σ → List (List Nat) → σ
  Samples : σ → List StateVec → σ
  getSamples : σ → List StateVec
  Filter : σ → Observation → StateVec → σ
  Resample : σ → Nat → σ
  mean : σ → StateVec

/-- What a `MultiObjectTracker` call does to the outside, in program order. -/
inductive ObjectEvent where
  | create (process : ObjectProcessModel) (observation_model : ObjectObservationModel)
      (sampling_blocks : List (List Nat)) (max_kl_divergence : Scalar) : ObjectEvent
  | samplingBlocks (blocks : List (List Nat)) : ObjectEvent
  | samples (population : List StateVec) : ObjectEvent
  | filterCall (image : Observation) (input : StateVec) : ObjectEvent
  | resampleCall (count : Nat) : ObjectEvent
  | printDeltaTime (delta_time : Scalar) : ObjectEvent
  | publishMarker (mean : StateVec) (object_index : Nat) : ObjectEvent

/-- The member variables of `MultiObjectTracker`; `filter_` is null until `Initialize` has
run. -/
structure MultiObjectTracker (σ : Type) where
  last_measurement_time_ : Scalar
  filter_ : Option σ
  object_names_ : List String
  downsampling_factor_ : Int

/-- The constructor `MultiObjectTracker::MultiObjectTracker()`. -/
def MultiObjectTracker.new {σ : Type} (object_names : List String)
    (downsampling_factor : Int) : MultiObjectTracker σ :=
  { last_measurement_time_ := Scalar.nan
    filter_ := none
    object_names_ := object_names
    downsampling_factor_ := downsampling_factor }

/-- The block `state[body_index]` of a multi-body state: `BODY_SIZE` consecutive entries. -/
def body (BODY_SIZE : Nat) (state : StateVec) (body_index : Nat) : StateVec :=
  (state.drop (body_index * BODY_SIZE)).take BODY_SIZE

/-- The assignment `state[body_index] = x` of a vector to the fixed-size block of one body.
The source makes no size check; a vector of another size, or a block outside the state,
breaks a precondition of Eigen (a failed assertion in a debug build, an unchecked copy
otherwise), which the model leaves undefined. -/
def setBody (BODY_SIZE : Nat) (state : StateVec) (body_index : Nat) (x : StateVec) :
    Except Failure StateVec :=
  if x.length = BODY_SIZE ∧ (body_index + 1) * BODY_SIZE ≤ state.length then
    Except.ok (state.take (body_index * BODY_SIZE) ++ x ++
      state.drop ((body_index + 1) * BODY_SIZE))
  else Except.error Failure.undefined

/-- The assignment `state.position(object_index) = Vector3d(x, y, z)`: the first three
entries of the body's block. -/
def setPosition (BODY_SIZE : Nat) (state : StateVec) (object_index : Nat)
    (x y z : Scalar) : StateVec :=
  ((state.set (object_index * BODY_SIZE) x).set (object_index * BODY_SIZE + 1) y).set
    (object_index * BODY_SIZE + 2) z

/-- The state `default_state`: a zero state of `count` bodies whose positions are all set to
`(0, 0, 1.5)`. -/
def defaultState (BODY_SIZE count : Nat) : StateVec :=
  (List.range count).foldl
    (fun default_state object_index =>
      setPosition BODY_SIZE default_state object_index
        (Scalar.val 0) (Scalar.val 0) (Scalar.val (3 / 2)))
    (zeroVec (count * BODY_SIZE))

/-- The block list `dependent_sampling_blocks`: one block holding `0, ..., 6 * count - 1`. -/
def dependentSamplingBlocks (count : Nat) : List (List Nat) :=
  [(List.range (count * 6)).foldl (fun block i => block.set i i)
    (List.replicate (count * 6) 0)]

/-- Body of the loop over `state_index`: a copy of sample `state_index` gets the seed of the
same index assigned to its block `body_index` and is stored back. -/
def overwriteOne (BODY_SIZE body_index : Nat) (initial_states : List StateVec)
    (multi_body_samples : List StateVec) (state_index : Nat) :
    Except Failure (List StateVec) :=
  match multi_body_samples[state_index]?, initial_states[state_index]? with
  | some full_initial_state, some seed =>
    match setBody BODY_SIZE full_initial_state body_index seed with
    | Except.ok full_initial_state =>
      Except.ok (multi_body_samples.set state_index full_initial_state)
    | Except.error e => Except.error e
  | _, _ => Except.error Failure.undefined

/-- The loop over `state_index` inside the body loop: body `body_index` of every sample is
overwritten with the seed of the same index. -/
def overwriteBody (BODY_SIZE body_index : Nat) (initial_states : List StateVec)
    (multi_body_samples : List StateVec) : Except Failure (List StateVec) :=
  (List.range multi_body_samples.length).foldlM
    (overwriteOne BODY_SIZE body_index initial_states) multi_body_samples

/-- The loop state of the staged initialization: the filter, the working population
`multi_body_samples` and the calls made so far. -/
structure Staging (σ : Type) where
  filter : σ
  multi_body_samples : List StateVec
  events : List ObjectEvent

/-- One pass of the loop over `body_index`. -/
def stage {σ : Type} (E : ObjectEnv σ) (image : Observation) (count : Nat)
    (initial_states : List StateVec) (S : Staging σ) (body_index : Nat) :
    Except Failure (Staging σ) := do
  let multi_body_samples ←
    overwriteBody E.BODY_SIZE body_index initial_states S.multi_body_samples
  let filter := E.Samples S.filter multi_body_samples
  let filter := E.Filter filter image (zeroVec (count * 6))
  let filter := E.Resample filter multi_body_samples.length
  pure
    { filter := filter
      multi_body_samples := E.getSamples filter
      events := S.events ++
        [ObjectEvent.samples multi_body_samples,
         ObjectEvent.filterCall image (zeroVec (count * 6)),
         ObjectEvent.resampleCall multi_body_samples.length] }

/-- The loop over `body_index`, run over the given body indices in order. -/
def stagedLoop {σ : Type} (E : ObjectEnv σ) (image : Observation) (count : Nat)
    (initial_states : List StateVec) (bodies : List Nat) (S : Staging σ) :
    Except Failure (Staging σ) :=
  bodies.foldlM (stage E image count initial_states) S

/-- The population the `state_is_partial` branch starts from: one copy of `default_state`
per seed. -/
def initialPopulation (BODY_SIZE count : Nat) (initial_states : List StateVec) :
    List StateVec :=
  (List.range initial_states.length).foldl
    (fun multi_body_samples state_index =>
      multi_body_samples.set state_index (defaultState BODY_SIZE count))
    (List.replicate initial_states.length [])

/-- The population of the other branch: sample `i` is assigned `initial_states[i]`. -/
def fullPopulation (initial_states : List StateVec) : List StateVec :=
  (List.range initial_states.length).foldl
    (fun multi_body_samples i =>
      multi_body_samples.set i ((initial_states[i]?).getD []))
    (List.replicate initial_states.length [])

/-- The observation model built by `MultiObjectTracker::Initialize`; without `BUILD_GPU`
the flag `use_gpu` is forced to false. -/
def objectObservationModel (P : ObjectParams) (camera_matrix : Matrix3d) (image : Observation)
    (initial_state_count : Nat) (delta_time : Scalar) :
    Except Failure ObjectObservationModel :=
  let use_gpu := if P.BUILD_GPU then P.use_gpu else false
  if !use_gpu then
    Except.ok
      { gpu := false, camera_matrix := camera_matrix, rows := image.rows, cols := image.cols,
        sample_count := initial_state_count,
        initial_occlusion_prob := P.initial_occlusion_prob, delta_time := delta_time,
        p_occluded_visible := P.p_occluded_visible,
        p_occluded_occluded := P.p_occluded_occluded,
        tail_weight := P.tail_weight, model_sigma := P.model_sigma,
        sigma_factor := P.sigma_factor }
  else if !P.fragment_shader_exists then Except.error (Failure.exit (-1))
  else if !P.vertex_shader_exists then Except.error (Failure.exit (-1))
  else
    Except.ok
      { gpu := true, camera_matrix := camera_matrix, rows := image.rows, cols := image.cols,
        sample_count := P.max_sample_count,
        initial_occlusion_prob := P.initial_occlusion_prob, delta_time := delta_time,
        p_occluded_visible := P.p_occluded_visible,
        p_occluded_occluded := P.p_occluded_occluded,
        tail_weight := P.tail_weight, model_sigma := P.model_sigma,
        sigma_factor := P.sigma_factor }

/-- The method `MultiObjectTracker::Initialize` with its four arguments, the last one being
the flag `state_is_partial`. -/
def MultiObjectTracker.Initialize {σ : Type} (E : ObjectEnv σ) (P : ObjectParams)
    (T : MultiObjectTracker σ) (initial_states : List StateVec) (ros_image : Image)
    (camera_matrix : Matrix3d) ( state_is_partial : Bool) :
    Except Failure (MultiObjectTracker σ × List ObjectEvent) := do
  -- convert camera matrix and image to desired format
  let camera_matrix := camera_matrix.topLeftCornerDiv (Scalar.ofInt T.downsampling_factor_)
  let image := E.Ros2Eigen ros_image T.downsampling_factor_
  let delta_time := Scalar.val (33 / 1000)
  let count := T.object_names_.length
  let observation_model ←
    objectObservationModel P camera_matrix image initial_states.length delta_time
  let process : ObjectProcessModel :=
    { delta_time := delta_time, count := count, damping := P.damping,
      linear_acceleration_variance :=
        P.linear_acceleration_sigma.mul P.linear_acceleration_sigma,
      angular_acceleration_variance :=
        P.angular_acceleration_sigma.mul P.angular_acceleration_sigma }
  let filter := E.create process observation_model P.sampling_blocks P.max_kl_divergence
  -- for the initialization we do standard sampling
  let filter := E.SamplingBlocks filter (dependentSamplingBlocks count)
  let start : List ObjectEvent :=
    [ObjectEvent.create process observation_model P.sampling_blocks P.max_kl_divergence,
     ObjectEvent.samplingBlocks (dependentSamplingBlocks count)]
  let S ←
    if state_is_partial then
      stagedLoop E image count initial_states (List.range count)
        { filter := filter
          multi_body_samples := initialPopulation E.BODY_SIZE count initial_states
          events := start }
    else
      let multi_body_samples := fullPopulation initial_states
      let filter := E.Samples filter multi_body_samples
      let filter := E.Filter filter image (zeroVec (count * 6))
      pure
        { filter := filter
          multi_body_samples := multi_body_samples
          events := start ++
            [ObjectEvent.samples multi_body_samples,
             ObjectEvent.filterCall image (zeroVec (count * 6))] }
  let target ← sampleTarget P.evaluation_count P.sampling_blocks
  let filter := E.Resample S.filter target
  let filter := E.SamplingBlocks filter P.sampling_blocks
  pure
    ({ T with filter_ := some filter },
     S.events ++
      [ObjectEvent.resampleCall target, ObjectEvent.samplingBlocks P.sampling_blocks])

/-- The method `MultiObjectTracker::Filter(ros_image)`; it returns the mean read from the
filter. -/
def MultiObjectTracker.Filter {σ : Type} (E : ObjectEnv σ) (T : MultiObjectTracker σ)
    (ros_image : Image) :
    Except Failure (MultiObjectTracker σ × List ObjectEvent × StateVec) := do
  let last_measurement_time_ :=
    if T.last_measurement_time_.isnan then Scalar.val ros_image.stamp
    else T.last_measurement_time_
  let delta_time := (Scalar.val ros_image.stamp).sub last_measurement_time_
  -- convert image
  let image := E.Ros2Eigen ros_image T.downsampling_factor_
  -- filter
  let filter ← match T.filter_ with
    | some f => Except.ok (E.Filter f image (zeroVec (T.object_names_.length * 6)))
    | none => Except.error Failure.undefined
  -- visualize the mean state
  let mean := E.mean filter
  let markers := (List.range T.object_names_.length).map (ObjectEvent.publishMarker mean)
  let last_measurement_time_ := Scalar.val ros_image.stamp
  pure
    ({ T with last_measurement_time_ := last_measurement_time_, filter_ := some filter },
     [ObjectEvent.printDeltaTime delta_time,
      ObjectEvent.filterCall image (zeroVec (T.object_names_.length * 6))] ++ markers,
     E.mean filter)

/-- Successive `Filter` calls on one tracker: for every frame, in order, the tracker the call
leaves, its events and the mean it returns. -/
def MultiObjectTracker.run {σ : Type} (E : ObjectEnv σ) :
    MultiObjectTracker σ → List Image →
      Except Failure (List (MultiObjectTracker σ × List ObjectEvent × StateVec))
  | _, [] => Except.ok []
  | T, im :: ims =>
    match T.Filter E im with
    | Except.ok r =>
      match MultiObjectTracker.run E r.1 ims with
      | Except.ok rs => Except.ok (r :: rs)
      | Except.error e => Except.error e
    | Except.error e => Except.error e

/-- The arguments of the calls of the external filter among some events. -/
def objectFilterCalls : List ObjectEvent → List (Observation × StateVec)
  | [] => []
  | ObjectEvent.filterCall image input :: es => (image, input) :: objectFilterCalls es
  | _ :: es => objectFilterCalls es

/-- The elapsed times printed ("actual delta time") among some events. -/
def printedDeltaTimes : List ObjectEvent → List Scalar
  | [] => []
  | ObjectEvent.printDeltaTime delta_time :: es => delta_time :: printedDeltaTimes es
  | _ :: es => printedDeltaTimes es

/-- The time steps handed to the process model and to the observation model when the filter
is constructed, among some events. -/
def constructedTimeSteps : List ObjectEvent → List (Scalar × Scalar)
  | [] => []
  | ObjectEvent.create process observation_model _ _ :: es =>
    (process.delta_time, observation_model.delta_time) :: constructedTimeSteps es
  | _ :: es => constructedTimeSteps es

/-- The process model `MultiObjectTracker::Initialize` builds for `count` objects. -/
def objectProcessModel (P : ObjectParams) (count : Nat) : ObjectProcessModel :=
  { delta_time := Scalar.val (33 / 1000), count := count, damping := P.damping,
    linear_acceleration_variance :=
      P.linear_acceleration_sigma.mul P.linear_acceleration_sigma,
    angular_acceleration_variance :=
      P.angular_acceleration_sigma.mul P.angular_acceleration_sigma }

/-- The filter `MultiObjectTracker::Initialize` holds when it reaches the test of
`state_is_partial`: constructed with the configured blocks, then given the single block of
all dimensions. -/
def initialFilter {σ : Type} (E : ObjectEnv σ) (P : ObjectParams) (count : Nat)
    (observation_model : ObjectObservationModel) : σ :=
  E.SamplingBlocks
    (E.create (objectProcessModel P count) observation_model P.sampling_blocks
      P.max_kl_divergence)
    (dependentSamplingBlocks count)

/-- The two calls `MultiObjectTracker::Initialize` has made when it reaches the test of
`state_is_partial`. -/
def startEvents (P : ObjectParams) (count : Nat) (observation_model : ObjectObservationModel) :
    List ObjectEvent :=
  [ObjectEvent.create (objectProcessModel P count) observation_model P.sampling_blocks
      P.max_kl_divergence,
   ObjectEvent.samplingBlocks (dependentSamplingBlocks count)]

/-- The partition active in the filter at each of its `Filter` calls among some events,
starting from the partition `active`: the constructor and `SamplingBlocks` install one. -/
def blocksAtFilterCalls :
    Option (List (List Nat)) → List ObjectEvent → List (Option (List (List Nat)))
  | _, [] => []
  | _, ObjectEvent.create _ _ blocks _ :: es => blocksAtFilterCalls (some blocks) es
  | _, ObjectEvent.samplingBlocks blocks :: es => blocksAtFilterCalls (some blocks) es
  | active, ObjectEvent.filterCall _ _ :: es => active :: blocksAtFilterCalls active es
  | active, ObjectEvent.samples _ :: es => blocksAtFilterCalls active es
  | active, ObjectEvent.resampleCall _ :: es => blocksAtFilterCalls active es
  | active, ObjectEvent.printDeltaTime _ :: es => blocksAtFilterCalls active es
  | active, ObjectEvent.publishMarker _ _ :: es => blocksAtFilterCalls active es

/-- The partition active in the filter after some events, starting from `active`. -/
def activeBlocks : Option (List (List Nat)) → List ObjectEvent → Option (List (List Nat))
  | active, [] => active
  | _, ObjectEvent.create _ _ blocks _ :: es => activeBlocks (some blocks) es
  | _, ObjectEvent.samplingBlocks blocks :: es => activeBlocks (some blocks) es
  | active, ObjectEvent.filterCall _ _ :: es => activeBlocks active es
  | active, ObjectEvent.samples _ :: es => activeBlocks active es
  | active, ObjectEvent.resampleCall _ :: es => activeBlocks active es
  | active, ObjectEvent.printDeltaTime _ :: es => activeBlocks active es
  | active, ObjectEvent.publishMarker _ _ :: es => activeBlocks active es

/-- The target counts of the `Resample` calls among some events. -/
def resampleCounts : List ObjectEvent → List Nat
  | [] => []
  | ObjectEvent.resampleCall count :: es => count :: resampleCounts es
  | _ :: es => resampleCounts es

/-- The populations handed to the filter by `Samples(x)` among some events. -/
def populationsSet : List ObjectEvent → List (List StateVec)
  | [] => []
  | ObjectEvent.samples population :: es => population :: populationsSet es
  | _ :: es => populationsSet es

/-- The events of the stages of the body loop that handed the populations `pops` to the
filter, one stage per population. -/
def stageEvents (image : Observation) (count : Nat) : List (List StateVec) → List ObjectEvent
  | [] => []
  | pop :: pops =>
    [ObjectEvent.samples pop, ObjectEvent.filterCall image (zeroVec (count * 6)),
      ObjectEvent.resampleCall pop.length] ++ stageEvents image count pops

/-- The target counts of the `Resample` calls of a `RobotTracker` among some events. -/
def robotResampleCounts : List RobotEvent → List Nat
  | [] => []
  | RobotEvent.resampleCall count :: es => count :: robotResampleCounts es
  | _ :: es => robotResampleCounts es

/-- The value `state.position(object_index)`: the first three entries of the body's block. -/
def position (BODY_SIZE : Nat) (state : StateVec) (object_index : Nat) :
    Option Scalar × Option Scalar × Option Scalar :=
  (state[object_index * BODY_SIZE]?, state[object_index * BODY_SIZE + 1]?,
    state[object_index * BODY_SIZE + 2]?)

/-! ### A small instance of the object tracker

A deterministic filter that respects its sampling blocks: a `Filter` call moves, in every
sample, the pose coordinates named by the active blocks (noise dimension `6 * b + k` drives
entry `k` of body `b`) by one unit, and `Resample(n)` keeps `n` samples. -/

/-- State of the filter stand-in: the active blocks and the population. -/
structure DemoFilter where
  blocks : List (List Nat)
  population : List StateVec

/-- Whether entry `i` of a state is driven by a noise dimension of an active block. -/
def demoMoved (BODY_SIZE : Nat) (blocks : List (List Nat)) (i : Nat) : Bool :=
  decide (i % BODY_SIZE < 6) && blocks.any fun block => block.contains (6 * (i / BODY_SIZE) + i % BODY_SIZE)

/-- The prediction of the filter stand-in on one sample. -/
def demoPredict (BODY_SIZE : Nat) (blocks : List (List Nat)) (state : StateVec) : StateVec :=
  (List.range state.length).map fun i =>
    if demoMoved BODY_SIZE blocks i then ((state[i]?).getD Scalar.nan).sub (Scalar.val (-1))
    else (state[i]?).getD Scalar.nan

/-- The filter stand-in with bodies of 12 entries and a decoder that yields a constant frame. -/
def demoObjectEnv : ObjectEnv DemoFilter where
  Ros2Eigen := fun im _ =>
    { rows := im.height, cols := im.width, coeff := fun _ _ => Scalar.val 1 }
  BODY_SIZE := 12
  create := fun _ _ blocks _ => { blocks := blocks, population := [] }
  SamplingBlocks := fun s blocks => { s with blocks := blocks }
  Samples := fun s population => { s with population := population }
  getSamples := fun s => s.population
  Filter := fun s _ _ => { s with population := s.population.map (demoPredict 12 s.blocks) }
  Resample := fun s n =>
    { s with population := (List.range n).map fun k =>
        (s.population[k % s.population.length]?).getD [] }
  mean := fun s => (s.population[0]?).getD []

/-- A filter stand-in that leaves every sample where it is: `Filter` does nothing and
`Resample(n)` keeps the first `n` samples. -/
def stillObjectEnv : ObjectEnv DemoFilter :=
  { demoObjectEnv with
    Filter := fun s _ _ => s
    Resample := fun s n => { s with population := s.population.take n } }

/-- Parameters of the object tracker with one steady-state block per body. -/
def demoObjectParams : ObjectParams where
  use_gpu := false
  evaluation_count := 4
  sampling_blocks := [[0, 1, 2, 3, 4, 5], [6, 7, 8, 9, 10, 11]]
  max_kl_divergence := Scalar.val 1
  max_sample_count := 10
  initial_occlusion_prob := Scalar.val 0
  p_occluded_visible := Scalar.val 0
  p_occluded_occluded := Scalar.val 0
  linear_acceleration_sigma := Scalar.val 1
  angular_acceleration_sigma := Scalar.val 1
  damping := Scalar.val 0
  tail_weight := Scalar.val 0
  model_sigma := Scalar.val 0
  sigma_factor := Scalar.val 0
  BUILD_GPU := false
  fragment_shader_exists := false
  vertex_shader_exists := false

/-- A freshly constructed tracker of two objects. -/
def demoObjectTracker : MultiObjectTracker DemoFilter :=
  MultiObjectTracker.new ["box", "cup"] 1

/-- A seed for one body: a pose at depth 1 with zero velocities. -/
def demoSeed : StateVec :=
  [Scalar.val 0, Scalar.val 0, Scalar.val 1, Scalar.val 0, Scalar.val 0, Scalar.val 0,
   Scalar.val 0, Scalar.val 0, Scalar.val 0, Scalar.val 0, Scalar.val 0, Scalar.val 0]

/-! ## Machine arithmetic

The definitions so far compute with exact rationals and unbounded sizes.  This section embeds
`publishPointCloud`, `Initialize` and `Filter` of `RobotTracker` once more, with the
arithmetic of the machine: the 32-bit size fields of the cloud message, the 64-bit index
arithmetic, the narrowing of a `double` to a `float`, and `double` operations that round.
The floating-point operations are a parameter, `Arith`; `exactArith` gives back the exact
model and `ieeeArith` is round-to-nearest-even in binary64 and binary32. -/

/-- The value a `uint32` holds after the assignment of `n` (the fields `width`, `height`,
`point_step` and `row_step` of `sensor_msgs::PointCloud2`). -/
def uint32 (n : Nat) : Nat := n % 2 ^ 32

/-- The value a `size_t` holds after the assignment of `n`. -/
def size_t (n : Nat) : Nat := n % 2 ^ 64

/-- The floating-point arithmetic of a build: the conversion of a value to `float`
(`float x = ...`, `(float)u`), the `double` denoted by a decimal literal, the `double`
operations `-`, `*`, `/`, and `pow(x, 2)`. -/
structure Arith where
  toFloat : Scalar → Scalar
  literal : ℚ → Scalar
  sub : Scalar → Scalar → Scalar
  mul : Scalar → Scalar → Scalar
  div : Scalar → Scalar → Scalar
  pow2 : Scalar → Scalar

/-- Arithmetic without rounding: the operations of `Scalar`. -/
def exactArith : Arith where
  toFloat := fun x => x
  literal := Scalar.val
  sub := Scalar.sub
  mul := Scalar.mul
  div := Scalar.div
  pow2 := fun x => x.mul x

/-- The integer nearest to `x`, the even one of the two when `x` lies halfway. -/
def roundHalfEven (x : ℚ) : ℤ :=
  if x - ⌊x⌋ < 1 / 2 then ⌊x⌋
  else if 1 / 2 < x - ⌊x⌋ then ⌊x⌋ + 1
  else if ⌊x⌋ % 2 = 0 then ⌊x⌋ else ⌊x⌋ + 1

/-- Round-to-nearest-even to a binary floating-point format with `p` significand bits and
an unbounded exponent: the unit in the last place of `q` is `2 ^ (⌊log₂ |q|⌋ - (p - 1))`. -/
def roundToPrecision (p : ℕ) (q : ℚ) : ℚ :=
  if q = 0 then 0
  else (roundHalfEven (q / 2 ^ (Int.log 2 |q| - (p - 1))) : ℚ) * 2 ^ (Int.log 2 |q| - (p - 1))

/-- A rounding applied to a floating-point value; NaN stays NaN. -/
def Scalar.round (r : ℚ → ℚ) : Scalar → Scalar
  | Scalar.nan => Scalar.nan
  | Scalar.val q => Scalar.val (r q)

/-- IEEE 754 arithmetic with round-to-nearest-even: `double` is binary64 (53 significand
bits), `float` is binary32 (24 bits).  Results are those of the normal range: overflow,
subnormal numbers and the infinities are not represented, and a division by zero yields
NaN. -/
def ieeeArith : Arith where
  toFloat := Scalar.round (roundToPrecision 24)
  literal := fun q => Scalar.val (roundToPrecision 53 q)
  sub := fun a b => (a.sub b).round (roundToPrecision 53)
  mul := fun a b => (a.mul b).round (roundToPrecision 53)
  div := fun a b => (a.div b).round (roundToPrecision 53)
  pow2 := fun a => (a.mul a).round (roundToPrecision 53)

/-- The three values the pixel loop stores for pixel `(v,u)`: `float depth = image(v,u)`
narrows the matrix entry, `(float)u` and `(float)v` convert the indices, the `double`
operations with the entries of `camera_matrix_` round, and `float x`, `float y` narrow the
results. -/
def Machine.pointAt (A : Arith) (camera_matrix_ : Matrix3d) (image : Observation)
    (v u : Nat) : Scalar × Scalar × Scalar :=
  let depth := A.toFloat (image.coeff v u)
  if depth.isnan then (bad_point, bad_point, bad_point)
  else
    (A.toFloat (A.div (A.mul (A.sub (A.toFloat (Scalar.ofNat u)) camera_matrix_.m02) depth)
        camera_matrix_.m00),
     A.toFloat (A.div (A.mul (A.sub (A.toFloat (Scalar.ofNat v)) camera_matrix_.m12) depth)
        camera_matrix_.m11),
     depth)

/-- Body of the pixel loop of `publishPointCloud` for pixel `(v,u)`: the three `memcpy`
calls of the branch selected by `depth != depth`, the byte index being computed in
`size_t`. -/
def Machine.writePoint (A : Arith) (camera_matrix_ : Matrix3d) (image : Observation)
    (fields : List PointField) (point_step row_step : Nat) (data : List Byte) (v u : Nat) :
    Option (List Byte) :=
  let depth := A.toFloat (image.coeff v u)
  if depth.isnan then
    (memcpyFloat data (size_t (v * row_step + u * point_step + fieldOffset fields 0))
      bad_point).bind fun d0 =>
    (memcpyFloat d0 (size_t (v * row_step + u * point_step + fieldOffset fields 1))
      bad_point).bind fun d1 =>
    memcpyFloat d1 (size_t (v * row_step + u * point_step + fieldOffset fields 2)) bad_point
  else
    let x := A.toFloat (A.div (A.mul (A.sub (A.toFloat (Scalar.ofNat u)) camera_matrix_.m02)
      depth) camera_matrix_.m00)
    let y := A.toFloat (A.div (A.mul (A.sub (A.toFloat (Scalar.ofNat v)) camera_matrix_.m12)
      depth) camera_matrix_.m11)
    (memcpyFloat data (size_t (v * row_step + u * point_step + fieldOffset fields 0))
      x).bind fun d0 =>
    (memcpyFloat d0 (size_t (v * row_step + u * point_step + fieldOffset fields 1))
      y).bind fun d1 =>
    memcpyFloat d1 (size_t (v * row_step + u * point_step + fieldOffset fields 2)) depth

/-- The message of `publishPointCloud` when the pixel loop starts: the header, the field
layout and the buffer allocated by `data.resize(width * height * point_step)`, every size
being a `uint32`, a product of two of them as well. -/
def Machine.emptyCloud (image : Observation) (stamp : ℚ) : PointCloud2 :=
  let width := uint32 image.cols
  let height := uint32 image.rows
  let fo := initFields ["x", "y", "z"]
  let point_step := uint32 fo.2
  let row_step := uint32 (point_step * width)
  { stamp := stamp, width := width, height := height, is_dense := false,
    is_bigendian := false, fields := fo.1, point_step := point_step, row_step := row_step,
    data := List.replicate (uint32 (uint32 (width * height) * point_step)) Byte.zero }

/-- The message built by `RobotTracker::publishPointCloud(image, stamp)`: the loop over the
columns `u < image.cols()` with the inner loop over the rows `v < image.rows()` fills the
buffer of `Machine.emptyCloud`; `none` when a `memcpy` falls outside the buffer. -/
def Machine.publishPointCloud (A : Arith) (camera_matrix_ : Matrix3d) (image : Observation)
    (stamp : ℚ) : Option PointCloud2 :=
  let points := Machine.emptyCloud image stamp
  ((List.range image.cols).foldlM
    (fun data u =>
      (List.range image.rows).foldlM
        (fun data v =>
          Machine.writePoint A camera_matrix_ image points.fields points.point_step
            points.row_step data v u) data)
    points.data).map
    fun data => { points with data := data }

/-- The byte offsets touched by the three `memcpy` calls of pixel `(v, u)`: four bytes from
each of the three indices, which are computed in `size_t`. -/
def Machine.bytesWritten (fields : List PointField) (point_step row_step v u : Nat) :
    List Nat :=
  (List.range 3).flatMap fun d =>
    (List.range 4).map fun k =>
      size_t (v * row_step + u * point_step + fieldOffset fields d) + k

/-- The statement `m.topLeftCorner(2,3) /= c` in `double` arithmetic. -/
def Machine.topLeftCornerDiv (A : Arith) (m : Matrix3d) (c : Scalar) : Matrix3d :=
  { m with
    m00 := A.div m.m00 c, m01 := A.div m.m01 c, m02 := A.div m.m02 c,
    m10 := A.div m.m10 c, m11 := A.div m.m11 c, m12 := A.div m.m12 c }

/-- The statement `m.topLeftCorner(2,3) *= c` in `double` arithmetic. -/
def Machine.topLeftCornerMul (A : Arith) (m : Matrix3d) (c : Scalar) : Matrix3d :=
  { m with
    m00 := A.mul m.m00 c, m01 := A.mul m.m01 c, m02 := A.mul m.m02 c,
    m10 := A.mul m.m10 c, m11 := A.mul m.m11 c, m12 := A.mul m.m12 c }

/-- The conversion to meters in `double` arithmetic: `if(!data_in_meters_) image =
image/1000.`. -/
def Machine.toMeters (A : Arith) (data_in_meters_ : Bool) (image : Observation) :
    Observation :=
  if !data_in_meters_ then
    { rows := image.rows, cols := image.cols,
      coeff := fun v u => A.div (image.coeff v u) (A.literal 1000) }
  else image

/-- The matrix `joint_covariance` in `double` arithmetic: `Zero(dimension_, dimension_)`
whose diagonal entry `i` is then set to `pow(joint_sigmas[i], 2)`. -/
def Machine.jointCovariance (A : Arith) (dimension_ : Nat) (joint_sigmas : List Scalar) :
    List (List Scalar) :=
  (List.range dimension_).foldl
    (fun m i =>
      m.set i (((m[i]?).getD []).set i (A.pow2 ((joint_sigmas[i]?).getD Scalar.nan))))
    (List.replicate dimension_ (List.replicate dimension_ (Scalar.val 0)))

/-- The method `RobotTracker::Initialize` in machine arithmetic. -/
def Machine.Initialize {σ : Type} (A : Arith) (E : RobotEnv σ) (P : RobotParams)
    (T : RobotTracker σ) (initial_samples_eigen : List StateVec) (ros_image : Image)
    (camera_matrix : Matrix3d) (num_joints : Nat) :
    Except Failure (RobotTracker σ × List RobotEvent) := do
  let initial_samples := initial_samples_eigen
  -- convert camera matrix and image to desired format
  let camera_matrix :=
    Machine.topLeftCornerDiv A camera_matrix (Scalar.ofInt T.downsampling_factor_)
  let image :=
    Machine.toMeters A T.data_in_meters_ (E.Ros2Eigen ros_image T.downsampling_factor_)
  let dimension_ := num_joints
  -- rendering of the first sample
  let first ← match initial_samples[0]? with
    | some s => Except.ok s
    | none => Except.error Failure.undefined
  let observation_model ← robotObservationModel P camera_matrix image initial_samples.length
  -- initialize process model
  if dimension_ ≠ P.joint_sigmas.length then Except.error (Failure.exit (-1))
  else
    let process : RobotProcessModel :=
      { dimension := dimension_, damping := P.damping,
        joint_covariance := Machine.jointCovariance A dimension_ P.joint_sigmas }
    let filter := E.create process observation_model P.sampling_blocks P.max_kl_divergence
    -- we evaluate the initial particles and resample
    let filter := E.Samples filter initial_samples
    let filter := E.Filter filter image (Scalar.val 0) (zeroVec dimension_)
    let target ← sampleTarget T.evaluation_count_ P.sampling_blocks
    let filter := E.Resample filter target
    pure
      ({ T with camera_matrix_ := camera_matrix, dimension_ := dimension_,
                mean_ := some [], filter_ := some filter },
       [RobotEvent.render first camera_matrix image.rows image.cols,
        RobotEvent.filterCall image (Scalar.val 0) (zeroVec dimension_),
        RobotEvent.resampleCall target])

/-- The method `RobotTracker::Filter(ros_image)` in machine arithmetic. -/
def Machine.Filter {σ : Type} (A : Arith) (E : RobotEnv σ) (T : RobotTracker σ)
    (ros_image : Image) (now : ℚ) (subscribers : Nat) :
    Except Failure (RobotTracker σ × List RobotEvent) := do
  let delta_time :=
    if T.last_measurement_time_.isnan then Scalar.val 0
    else A.sub (Scalar.val ros_image.stamp) T.last_measurement_time_
  let last_measurement_time_ := Scalar.val ros_image.stamp
  let warning :=
    if delta_time.gt (A.literal (4 / 100)) then [RobotEvent.skippedFrame delta_time] else []
  -- convert image
  let image :=
    Machine.toMeters A T.data_in_meters_ (E.Ros2Eigen ros_image T.downsampling_factor_)
  -- filter
  let filter ← match T.filter_ with
    | some f => Except.ok (E.Filter f image delta_time (zeroVec T.dimension_))
    | none => Except.error Failure.undefined
  -- get the mean estimation for the robot joints
  let mean := E.mean filter
  -- publish point cloud
  let full_image := Machine.toMeters A T.data_in_meters_ (E.Ros2Eigen ros_image 1)
  let temp := T.camera_matrix_
  let camera_matrix_ :=
    Machine.topLeftCornerMul A T.camera_matrix_ (Scalar.ofInt T.downsampling_factor_)
  let points ← match Machine.publishPointCloud A camera_matrix_ full_image now with
    | some pc => Except.ok pc
    | none => Except.error Failure.undefined
  let camera_matrix_ := temp
  pure
    ({ T with last_measurement_time_ := last_measurement_time_, filter_ := some filter,
              mean_ := some mean, camera_matrix_ := camera_matrix_ },
     warning ++
      [RobotEvent.filterCall image delta_time (zeroVec T.dimension_),
       RobotEvent.render mean T.camera_matrix_ image.rows image.cols,
       RobotEvent.publishTransforms mean now,
       RobotEvent.publishImage now] ++
      (if subscribers > 0 then [RobotEvent.publishCloud points] else []))

/-! ## Vocabulary of the later theorems -/

/-- The stages of `RobotTracker::Initialize` that construct or evaluate something, in program
order: the rendering of `initial_samples[0]`, the observation-model branch, the process
model, `new FilterType(...)`, `Samples(initial_samples)`, the `Filter` call that evaluates
the samples, and `Resample`. -/
inductive InitStep where
  | renderFirst : InitStep
  | observationModel : InitStep
  | processModel : InitStep
  | filterConstructed : InitStep
  | samplesSet : InitStep
  | samplesEvaluated : InitStep
  | resampled : InitStep
deriving DecidableEq

/-- The method `RobotTracker::Initialize` once more, now together with the stages it has
completed when it returns or fails. -/
def RobotTracker.InitializeTrace {σ : Type} (E : RobotEnv σ) (P : RobotParams)
    (T : RobotTracker σ) (initial_samples_eigen : List StateVec) (ros_image : Image)
    (camera_matrix : Matrix3d) (num_joints : Nat) :
    List InitStep × Except Failure (RobotTracker σ × List RobotEvent) :=
  let initial_samples := initial_samples_eigen
  let camera_matrix := camera_matrix.topLeftCornerDiv (Scalar.ofInt T.downsampling_factor_)
  let image := toMeters T.data_in_meters_ (E.Ros2Eigen ros_image T.downsampling_factor_)
  let dimension_ := num_joints
  match initial_samples[0]? with
  | none => ([], Except.error Failure.undefined)
  | some first =>
    match robotObservationModel P camera_matrix image initial_samples.length with
    | Except.error e => ([InitStep.renderFirst], Except.error e)
    | Except.ok observation_model =>
      if dimension_ ≠ P.joint_sigmas.length then
        ([InitStep.renderFirst, InitStep.observationModel], Except.error (Failure.exit (-1)))
      else
        let process : RobotProcessModel :=
          { dimension := dimension_, damping := P.damping,
            joint_covariance := jointCovariance dimension_ P.joint_sigmas }
        let filter := E.create process observation_model P.sampling_blocks P.max_kl_divergence
        let filter := E.Samples filter initial_samples
        let filter := E.Filter filter image (Scalar.val 0) (zeroVec dimension_)
        match sampleTarget T.evaluation_count_ P.sampling_blocks with
        | Except.error e =>
          ([InitStep.renderFirst, InitStep.observationModel, InitStep.processModel,
            InitStep.filterConstructed, InitStep.samplesSet, InitStep.samplesEvaluated],
           Except.error e)
        | Except.ok target =>
          let filter := E.Resample filter target
          ([InitStep.renderFirst, InitStep.observationModel, InitStep.processModel,
            InitStep.filterConstructed, InitStep.samplesSet, InitStep.samplesEvaluated,
            InitStep.resampled],
           Except.ok
            ({ T with camera_matrix_ := camera_matrix, dimension_ := dimension_,
                      mean_ := some [], filter_ := some filter },
             [RobotEvent.render first camera_matrix image.rows image.cols,
              RobotEvent.filterCall image (Scalar.val 0) (zeroVec dimension_),
              RobotEvent.resampleCall target]))

/-- The condition under which the GPU branch of `RobotTracker::Initialize` calls `exit(-1)`:
the GPU model is requested in a build with `BUILD_GPU` and a shader file is missing. -/
def shaderMissing (P : RobotParams) : Bool :=
  P.use_gpu && P.BUILD_GPU && (!P.fragment_shader_exists || !P.vertex_shader_exists)

/-- A list of blocks is a partition of `[0, totalDim)`: the blocks are pairwise disjoint,
every index they hold is below `totalDim`, and every index below `totalDim` is held. -/
def IsPartition (blocks : List (List Nat)) (totalDim : Nat) : Prop :=
  blocks.Pairwise (fun a b => ∀ i ∈ a, i ∉ b) ∧
    (∀ block ∈ blocks, ∀ i ∈ block, i < totalDim) ∧
    (∀ i ∈ List.range totalDim, ∃ block ∈ blocks, i ∈ block)

instance (blocks : List (List Nat)) (totalDim : Nat) : Decidable (IsPartition blocks totalDim) := by
  unfold IsPartition; infer_instance

/-- The partitions handed to the filter among some events, by its constructor and by
`SamplingBlocks`, in program order. -/
def partitionsInstalled : List ObjectEvent → List (List (List Nat))
  | [] => []
  | ObjectEvent.create _ _ blocks _ :: es => blocks :: partitionsInstalled es
  | ObjectEvent.samplingBlocks blocks :: es => blocks :: partitionsInstalled es
  | _ :: es => partitionsInstalled es

/-- The matrix entry `m(i, j)`. -/
def entry (m : List (List Scalar)) (i j : Nat) : Option Scalar :=
  (m[i]?).bind fun row => row[j]?

/-- The slot of pixel `(v, u)` in a buffer of `width` points per row: the index of the
12-byte point that starts at byte `v * row_step + u * point_step`. -/
def slotOf (width v u : Nat) : Nat := v * width + u

/-- The condition under which the GPU branch of `MultiObjectTracker::Initialize` calls
`exit(-1)`: the GPU model is selected (`use_gpu` in a build with `BUILD_GPU`) and a shader
file is missing. -/
def objectShaderMissing (P : ObjectParams) : Bool :=
  (if P.BUILD_GPU then P.use_gpu else false) &&
    (!P.fragment_shader_exists || !P.vertex_shader_exists)

/-- The single-joint parameters with the GPU model requested in a build with `BUILD_GPU`
where no shader file is installed; the sigma vector still has one entry. -/
def demoRobotParamsGpu : RobotParams :=
  { demoRobotParams with use_gpu := true, BUILD_GPU := true }

/-- The single-joint parameters with two sigmas configured. -/
def demoRobotParamsLong : RobotParams :=
  { demoRobotParams with joint_sigmas := [Scalar.val 1, Scalar.val 2] }

/-- Parameters of the object tracker whose two blocks overlap in index 1, leave the indices
2 to 11 out and name the index 12, which no noise dimension of two objects has. -/
def demoObjectParamsBad : ObjectParams :=
  { demoObjectParams with sampling_blocks := [[0, 1], [1, 12]] }

/-! # Theorems -/

/-! ## The byte buffer -/

theorem memcpyFloat_isSome (data : List Byte) (off : Nat) (x : Scalar)
    (h : off + 4 ≤ data.length) : ∃ d, memcpyFloat data off x = some d := by
  simp [memcpyFloat, h]

theorem memcpyFloat_length {data d : List Byte} {off : Nat} {x : Scalar}
    (h : memcpyFloat data off x = some d) : d.length = data.length := by
  unfold memcpyFloat at h
  split at h
  · cases h; simp
  · cases h

theorem memcpyFloat_frame {data d : List Byte} {off : Nat} {x : Scalar}
    (h : memcpyFloat data off x = some d) (i : Nat) (hi : i < off ∨ off + 4 ≤ i) :
    d[i]? = data[i]? := by
  unfold memcpyFloat at h
  split at h
  · cases h
    rw [List.getElem?_set_ne (by omega), List.getElem?_set_ne (by omega),
      List.getElem?_set_ne (by omega), List.getElem?_set_ne (by omega)]
  · cases h

theorem memcpyFloat_read {data d : List Byte} {off : Nat} {x : Scalar}
    (h : memcpyFloat data off x = some d) : readFloat d off = some x := by
  unfold memcpyFloat at h
  split at h
  · next hle =>
    cases h
    have h0 : ((((data.set off (Byte.part x 0)).set (off + 1) (Byte.part x 1)).set
        (off + 2) (Byte.part x 2)).set (off + 3) (Byte.part x 3))[off]? = some (Byte.part x 0) := by
      rw [List.getElem?_set_ne (by omega), List.getElem?_set_ne (by omega),
        List.getElem?_set_ne (by omega), List.getElem?_set_self (by omega)]
    have h1 : ((((data.set off (Byte.part x 0)).set (off + 1) (Byte.part x 1)).set
        (off + 2) (Byte.part x 2)).set (off + 3) (Byte.part x 3))[off + 1]?
          = some (Byte.part x 1) := by
      rw [List.getElem?_set_ne (by omega), List.getElem?_set_ne (by omega),
        List.getElem?_set_self (by simp; omega)]
    have h2 : ((((data.set off (Byte.part x 0)).set (off + 1) (Byte.part x 1)).set
        (off + 2) (Byte.part x 2)).set (off + 3) (Byte.part x 3))[off + 2]?
          = some (Byte.part x 2) := by
      rw [List.getElem?_set_ne (by omega), List.getElem?_set_self (by simp; omega)]
    have h3 : ((((data.set off (Byte.part x 0)).set (off + 1) (Byte.part x 1)).set
        (off + 2) (Byte.part x 2)).set (off + 3) (Byte.part x 3))[off + 3]?
          = some (Byte.part x 3) := by
      rw [List.getElem?_set_self (by simp; omega)]
    unfold readFloat
    rw [h0, h1, h2, h3]
    simp
  · cases h

theorem readFloat_congr (d d' : List Byte) (off : Nat)
    (h : ∀ i, off ≤ i → i < off + 4 → d'[i]? = d[i]?) : readFloat d' off = readFloat d off := by
  unfold readFloat
  rw [h off (by omega) (by omega), h (off + 1) (by omega) (by omega),
    h (off + 2) (by omega) (by omega), h (off + 3) (by omega) (by omega)]

theorem write3_spec (data : List Byte) (base : Nat) (p : Scalar × Scalar × Scalar)
    (h : base + 12 ≤ data.length) :
    ∃ d, write3 data base p = some d ∧ d.length = data.length ∧
      (∀ i, i < base ∨ base + 12 ≤ i → d[i]? = data[i]?) ∧
      read3 d base = (some p.1, some p.2.1, some p.2.2) := by
  obtain ⟨d0, h0⟩ := memcpyFloat_isSome data base p.1 (by omega)
  have l0 := memcpyFloat_length h0
  obtain ⟨d1, h1⟩ := memcpyFloat_isSome d0 (base + 4) p.2.1 (by omega)
  have l1 := memcpyFloat_length h1
  obtain ⟨d2, h2⟩ := memcpyFloat_isSome d1 (base + 8) p.2.2 (by omega)
  have l2 := memcpyFloat_length h2
  refine ⟨d2, ?_, by omega, ?_, ?_⟩
  · simp [write3, h0, h1, h2]
  · intro i hi
    rw [memcpyFloat_frame h2 i (by omega), memcpyFloat_frame h1 i (by omega),
      memcpyFloat_frame h0 i (by omega)]
  · have r0 : readFloat d2 base = some p.1 := by
      rw [readFloat_congr d1 _ _ (fun i _ _ => memcpyFloat_frame h2 i (by omega)),
        readFloat_congr d0 _ _ (fun i _ _ => memcpyFloat_frame h1 i (by omega))]
      exact memcpyFloat_read h0
    have r1 : readFloat d2 (base + 4) = some p.2.1 := by
      rw [readFloat_congr d1 _ _ (fun i _ _ => memcpyFloat_frame h2 i (by omega))]
      exact memcpyFloat_read h1
    have r2 : readFloat d2 (base + 8) = some p.2.2 := memcpyFloat_read h2
    simp [read3, r0, r1, r2]

theorem read3_congr {d d' : List Byte} {base : Nat}
    (h : ∀ i, base ≤ i → i < base + 12 → d'[i]? = d[i]?) : read3 d' base = read3 d base := by
  unfold read3
  rw [readFloat_congr d d' base (fun i h1 h2 => h i (by omega) (by omega)),
    readFloat_congr d d' (base + 4)
      (fun i h1 h2 => h i (by omega) (by omega)),
    readFloat_congr d d' (base + 8)
      (fun i h1 h2 => h i (by omega) (by omega))]

/-- A sequence of point writes into pairwise distinct 12-byte slots: every write succeeds,
each written slot holds its point at the end, and the bytes outside the slots are kept. -/
theorem foldlM_write3 {α : Type} (f : List Byte → α → Option (List Byte)) (slot : α → Nat)
    (pt : α → Scalar × Scalar × Scalar)
    (hf : ∀ data a, f data a = write3 data (12 * slot a) (pt a)) :
    ∀ (l : List α) (data : List Byte), (l.map slot).Nodup →
      (∀ a ∈ l, 12 * slot a + 12 ≤ data.length) →
      ∃ d, l.foldlM f data = some d ∧ d.length = data.length ∧
        (∀ a ∈ l, read3 d (12 * slot a) = (some (pt a).1, some (pt a).2.1, some (pt a).2.2)) ∧
        (∀ i, (∀ a ∈ l, i < 12 * slot a ∨ 12 * slot a + 12 ≤ i) → d[i]? = data[i]?) := by
  intro l
  induction l with
  | nil =>
    intro data _ _
    exact ⟨data, rfl, rfl, by simp, fun _ _ => rfl⟩
  | cons a l ih =>
    intro data hnd hb
    rw [List.map_cons, List.nodup_cons] at hnd
    obtain ⟨d1, hw, hl1, hfr1, hr1⟩ :=
      write3_spec data (12 * slot a) (pt a) (hb a (List.mem_cons_self _ _))
    obtain ⟨d, hfold, hl, hr, hfr⟩ := ih d1 hnd.2
      (fun b hb' => by rw [hl1]; exact hb b (List.mem_cons_of_mem _ hb'))
    refine ⟨d, ?_, by omega, ?_, ?_⟩
    · rw [List.foldlM_cons, hf, hw]; exact hfold
    · intro b hb'
      rcases List.mem_cons.1 hb' with rfl | hb''
      · rw [← hr1]
        apply read3_congr
        intro i h1 h2
        apply hfr
        intro c hc
        have hne : slot c ≠ slot b := fun e => hnd.1 (e ▸ List.mem_map_of_mem slot hc)
        omega
      · exact hr b hb''
    · intro i hi
      rw [hfr i (fun c hc => hi c (List.mem_cons_of_mem _ hc)),
        hfr1 i (hi a (List.mem_cons_self _ _))]

theorem foldlM_nested {α β γ : Type} (g : β → α → γ → Option β) (as : List α) (cs : List γ) :
    ∀ b : β, as.foldlM (fun b a => cs.foldlM (fun b c => g b a c) b) b =
      (List.product as cs).foldlM (fun b p => g b p.1 p.2) b := by
  induction as with
  | nil => intro b; rfl
  | cons a as ih =>
    intro b
    have hp : List.product (a :: as) cs = cs.map (Prod.mk a) ++ List.product as cs := rfl
    rw [List.foldlM_cons, hp, List.foldlM_append, List.foldlM_map]
    congr 1
    funext b'
    exact ih b'

theorem initFields_xyz :
    initFields ["x", "y", "z"] =
      ([{ name := "x", offset := 0, count := 1 }, { name := "y", offset := 4, count := 1 },
        { name := "z", offset := 8, count := 1 }], 12) := by
  decide

theorem slot_lt {width height v u : Nat} (hv : v < height) (hu : u < width) :
    12 * (v * width + u) + 12 ≤ width * height * 12 := by
  have h1 : v * width + u + 1 ≤ (v + 1) * width := by
    rw [Nat.add_mul]; omega
  have h2 : (v + 1) * width ≤ height * width := Nat.mul_le_mul_right _ hv
  have h3 : width * height = height * width := Nat.mul_comm _ _
  omega

theorem slot_inj {width v u v' u' : Nat} (hu : u < width) (hu' : u' < width)
    (h : v * width + u = v' * width + u') : v = v' ∧ u = u' := by
  have hw : 0 < width := by omega
  have e1 : (v * width + u) / width = v := by
    rw [Nat.add_comm, Nat.add_mul_div_right _ _ hw, Nat.div_eq_of_lt hu, Nat.zero_add]
  have e2 : (v' * width + u') / width = v' := by
    rw [Nat.add_comm, Nat.add_mul_div_right _ _ hw, Nat.div_eq_of_lt hu', Nat.zero_add]
  have hv : v = v' := by rw [← e1, ← e2, h]
  subst hv
  exact ⟨rfl, by omega⟩

theorem mem_pixelOrder (image : Observation) (u v : Nat) :
    (u, v) ∈ pixelOrder image ↔ u < image.cols ∧ v < image.rows := by
  simp [pixelOrder, List.mem_product]

theorem demoRobot_Initialize :
    ∃ r, demoRobot.Initialize demoRobotEnv demoRobotParams [[Scalar.val 0]] (demoImage 0)
      demoK 1 = Except.ok r :=
  ⟨_, rfl⟩

theorem getElem?_body (BS : Nat) (s : StateVec) (j i : Nat) :
    (body BS s j)[i]? = if i < BS then s[j * BS + i]? else none := by
  unfold body
  rw [List.getElem?_take, List.getElem?_drop]

theorem getElem?_setBody {BS : Nat} {s s' x : StateVec} {b : Nat}
    (h : setBody BS s b x = Except.ok s') (k : Nat) (hk : k < b * BS ∨ (b + 1) * BS ≤ k) :
    s'[k]? = s[k]? := by
  unfold setBody at h
  split at h
  · next hc =>
    obtain ⟨hx, hlen⟩ := hc
    cases h
    have hb : b * BS + BS = (b + 1) * BS := by rw [Nat.add_mul, Nat.one_mul]
    have hlt : b * BS ≤ s.length := by omega
    rcases hk with hk | hk
    · rw [List.append_assoc, List.getElem?_append, List.length_take, Nat.min_eq_left hlt,
        if_pos hk, List.getElem?_take, if_pos hk]
    · rw [List.getElem?_append, List.length_append, List.length_take, Nat.min_eq_left hlt, hx,
        if_neg (by omega), List.getElem?_drop]
      congr 1
      omega
  · cases h

/-- The assignment to one body's block leaves the blocks of all other bodies as they are. -/
theorem body_setBody_ne {BS : Nat} {s s' x : StateVec} {b j : Nat}
    (h : setBody BS s b x = Except.ok s') (hj : j ≠ b) : body BS s' j = body BS s j := by
  apply List.ext_getElem?
  intro i
  rw [getElem?_body, getElem?_body]
  split
  · next hi =>
    apply getElem?_setBody h
    rcases Nat.lt_or_gt_of_ne hj with hlt | hgt
    · left
      have : (j + 1) * BS ≤ b * BS := Nat.mul_le_mul_right _ hlt
      rw [Nat.add_mul, Nat.one_mul] at this
      omega
    · right
      have : (b + 1) * BS ≤ j * BS := Nat.mul_le_mul_right _ hgt
      omega
  · rfl

theorem overwriteOne_ok {BS b : Nat} {seeds samples samples' : List StateVec} {k : Nat}
    (h : overwriteOne BS b seeds samples k = Except.ok samples') :
    ∃ s seed s', samples[k]? = some s ∧ seeds[k]? = some seed ∧
      setBody BS s b seed = Except.ok s' ∧ samples' = samples.set k s' := by
  unfold overwriteOne at h
  split at h
  · next s seed hs hseed =>
    split at h
    · next s' hset =>
      cases h
      exact ⟨s, seed, s', hs, hseed, hset, rfl⟩
    · cases h
  · cases h

/-- The loop over `state_index`, run over the first `m` indices. -/
theorem overwrite_fold (BS b : Nat) (seeds pop : List StateVec) :
    ∀ (m : Nat) (pop' : List StateVec),
      (List.range m).foldlM (overwriteOne BS b seeds) pop = Except.ok pop' →
      pop'.length = pop.length ∧
      (∀ k, k < m → ∃ s seed s', pop[k]? = some s ∧ seeds[k]? = some seed ∧
        setBody BS s b seed = Except.ok s' ∧ pop'[k]? = some s') ∧
      (∀ k, m ≤ k → pop'[k]? = pop[k]?) := by
  intro m
  induction m with
  | zero =>
    intro pop' h
    cases h
    exact ⟨rfl, fun k hk => absurd hk (Nat.not_lt_zero k), fun _ _ => rfl⟩
  | succ m ih =>
    intro pop' h
    rw [List.range_succ, List.foldlM_append] at h
    cases hm : (List.range m).foldlM (overwriteOne BS b seeds) pop with
    | error e => rw [hm] at h; cases h
    | ok mid =>
      rw [hm] at h
      obtain ⟨hlen, hlow, hhigh⟩ := ih mid hm
      have h1 : overwriteOne BS b seeds mid m = Except.ok pop' := by
        cases ho : overwriteOne BS b seeds mid m with
        | error e => simp [List.foldlM, bind, Except.bind, ho] at h
        | ok v => simpa [List.foldlM, bind, Except.bind, pure, Except.pure, ho] using h
      obtain ⟨s, seed, s', hs, hseed, hset, rfl⟩ := overwriteOne_ok h1
      have hmlt : m < mid.length := by
        rcases Nat.lt_or_ge m mid.length with hlt | hge
        · exact hlt
        · rw [List.getElem?_eq_none hge] at hs; cases hs
      refine ⟨by rw [List.length_set, hlen], ?_, ?_⟩
      · intro k hk
        rcases Nat.lt_or_ge k m with hlt | hge
        · obtain ⟨s0, seed0, s0', a1, a2, a3, a4⟩ := hlow k hlt
          exact ⟨s0, seed0, s0', a1, a2, a3, by
            rw [List.getElem?_set_ne (by omega)]; exact a4⟩
        · have hkm : k = m := by omega
          subst hkm
          exact ⟨s, seed, s', by rw [← hhigh k (Nat.le_refl _)]; exact hs, hseed, hset,
            List.getElem?_set_self hmlt⟩
      · intro k hk
        rw [List.getElem?_set_ne (by omega)]
        exact hhigh k (by omega)

/-- After the overwrite of body `b`, every sample differs from the sample of the same index
before it in the block of body `b` only. -/
theorem overwriteBody_frame {BS b : Nat} {seeds pop pop' : List StateVec}
    (h : overwriteBody BS b seeds pop = Except.ok pop') :
    pop'.length = pop.length ∧
    ∀ s', s' ∈ pop' → ∃ s, s ∈ pop ∧ ∀ j, j ≠ b → body BS s' j = body BS s j := by
  obtain ⟨hlen, hlow, -⟩ := overwrite_fold BS b seeds pop pop.length pop' h
  refine ⟨hlen, ?_⟩
  intro s' hs'
  obtain ⟨k, hk, hget⟩ := List.getElem_of_mem hs'
  obtain ⟨s, seed, s0', a1, -, a3, a4⟩ := hlow k (by omega)
  rw [List.getElem?_eq_getElem hk, hget] at a4
  cases a4
  exact ⟨s, List.mem_iff_getElem?.2 ⟨k, a1⟩, fun j hj => body_setBody_ne a3 hj⟩

theorem foldl_set_range {α : Type} (g : Nat → α) (l0 : List α) :
    ∀ m, ∀ a, a ∈ (List.range m).foldl (fun l i => l.set i (g i)) l0 →
      a ∈ l0 ∨ ∃ i, a = g i := by
  intro m
  induction m with
  | zero => intro a h; exact Or.inl h
  | succ m ih =>
    intro a h
    rw [List.range_succ, List.foldl_append] at h
    simp only [List.foldl_cons, List.foldl_nil] at h
    rcases List.mem_or_eq_of_mem_set h with h1 | h1
    · exact ih a h1
    · exact Or.inr ⟨m, h1⟩

theorem foldl_set_range_getElem? {α : Type} (g : Nat → α) (l0 : List α) :
    ∀ m k, ((List.range m).foldl (fun l i => l.set i (g i)) l0)[k]? =
      if k < m ∧ k < l0.length then some (g k) else l0[k]? := by
  intro m
  induction m with
  | zero => intro k; simp
  | succ m ih =>
    intro k
    rw [List.range_succ, List.foldl_append]
    simp only [List.foldl_cons, List.foldl_nil]
    rw [List.getElem?_set, ih]
    have hlen : ((List.range m).foldl (fun l i => l.set i (g i)) l0).length = l0.length := by
      clear ih
      induction m with
      | zero => rfl
      | succ m ih2 =>
        rw [List.range_succ, List.foldl_append]
        simp only [List.foldl_cons, List.foldl_nil, List.length_set]
        exact ih2
    rw [hlen]
    by_cases h1 : m = k
    · subst h1
      by_cases h2 : m < l0.length
      · simp [h2]
      · simp [h2, List.getElem?_eq_none (Nat.le_of_not_lt h2)]
    · by_cases h2 : k < l0.length
      · by_cases h3 : k < m
        · simp [h1, h2, h3, Nat.lt_succ_of_lt h3]
        · have : ¬ k < m + 1 := by omega
          simp [h1, h3, this]
      · simp [h1, h2]

/-- Every sample of the initial population of the staged branch is the default state. -/
theorem mem_initialPopulation {BS count : Nat} {seeds : List StateVec} {s : StateVec}
    (h : s ∈ initialPopulation BS count seeds) : s = defaultState BS count := by
  obtain ⟨k, hk, hget⟩ := List.getElem_of_mem h
  have h2 := foldl_set_range_getElem? (fun _ => defaultState BS count)
    (List.replicate seeds.length []) seeds.length k
  unfold initialPopulation at hk hget
  rw [List.getElem?_eq_getElem hk, hget] at h2
  split at h2
  · cases h2; rfl
  · next hc =>
    exfalso
    apply hc
    have hl := (List.getElem?_eq_some.1 h2.symm).1
    rw [List.length_replicate] at hl
    exact ⟨hl, by rw [List.length_replicate]; exact hl⟩

theorem stage_ok {σ : Type} {E : ObjectEnv σ} {image : Observation} {count : Nat}
    {seeds : List StateVec} {S S' : Staging σ} {b : Nat}
    (h : stage E image count seeds S b = Except.ok S') :
    ∃ pop, overwriteBody E.BODY_SIZE b seeds S.multi_body_samples = Except.ok pop ∧
      S'.filter = E.Resample (E.Filter (E.Samples S.filter pop) image (zeroVec (count * 6)))
        pop.length ∧
      S'.multi_body_samples = E.getSamples S'.filter ∧
      S'.events = S.events ++
        [ObjectEvent.samples pop, ObjectEvent.filterCall image (zeroVec (count * 6)),
          ObjectEvent.resampleCall pop.length] := by
  unfold stage at h
  cases ho : overwriteBody E.BODY_SIZE b seeds S.multi_body_samples with
  | error e => simp [ho, bind, Except.bind] at h
  | ok pop =>
    simp only [ho, bind, Except.bind, pure, Except.pure, Except.ok.injEq] at h
    subst h
    exact ⟨pop, rfl, rfl, rfl, rfl⟩

/-- A body that no stage of the loop overwrites keeps a sub-state shared by the whole
population, provided the filter keeps such a sub-state. -/
theorem stagedLoop_keeps {σ : Type} (E : ObjectEnv σ) (image : Observation) (count : Nat)
    (seeds : List StateVec)
    (hE : ∀ (f : σ) (pop : List StateVec) (n j : Nat) (x : StateVec),
      (∀ s ∈ pop, body E.BODY_SIZE s j = x) →
      ∀ s ∈ E.getSamples (E.Resample (E.Filter (E.Samples f pop) image (zeroVec (count * 6))) n),
        body E.BODY_SIZE s j = x)
    (j : Nat) (x : StateVec) :
    ∀ (bodies : List Nat) (S S' : Staging σ), j ∉ bodies →
      stagedLoop E image count seeds bodies S = Except.ok S' →
      (∀ s ∈ S.multi_body_samples, body E.BODY_SIZE s j = x) →
      ∀ s ∈ S'.multi_body_samples, body E.BODY_SIZE s j = x := by
  intro bodies
  induction bodies with
  | nil =>
    intro S S' _ h hS
    cases h
    exact hS
  | cons b bs ih =>
    intro S S' hj h hS
    unfold stagedLoop at h
    rw [List.foldlM_cons] at h
    cases hst : stage E image count seeds S b with
    | error e => simp [hst, bind, Except.bind] at h
    | ok S1 =>
      simp only [hst, bind, Except.bind] at h
      obtain ⟨pop, hpop, hfil, hsam, -⟩ := stage_ok hst
      obtain ⟨-, hframe⟩ := overwriteBody_frame hpop
      have hjb : j ≠ b := fun e => hj (e ▸ List.mem_cons_self _ _)
      have hjbs : j ∉ bs := fun e => hj (List.mem_cons_of_mem _ e)
      apply ih S1 S' hjbs h
      intro s hs
      rw [hsam, hfil] at hs
      apply hE S.filter pop pop.length j x _ s hs
      intro s' hs'
      obtain ⟨s0, hs0, hbody⟩ := hframe s' hs'
      rw [hbody j hjb]
      exact hS s0 hs0

/-- C10 (amended): in the staged branch of `MultiObjectTracker::Initialize`, if the external
filter keeps every body sub-state on which the whole population it is given agrees, then
after bodies `0..b` have been processed every sample of the working population has, for each
body index greater than `b`, exactly the sub-state of the default state. -/
theorem staged_order_invariant {σ : Type} (E : ObjectEnv σ) (image : Observation)
    (count : Nat) (seeds : List StateVec) (filter0 : σ) (events0 : List ObjectEvent)
    (hE : ∀ (f : σ) (pop : List StateVec) (n j : Nat) (x : StateVec),
      (∀ s ∈ pop, body E.BODY_SIZE s j = x) →
      ∀ s ∈ E.getSamples (E.Resample (E.Filter (E.Samples f pop) image (zeroVec (count * 6))) n),
        body E.BODY_SIZE s j = x)
    (b : Nat) (S : Staging σ)
    (hrun : stagedLoop E image count seeds (List.range (b + 1))
      { filter := filter0
        multi_body_samples := initialPopulation E.BODY_SIZE count seeds
        events := events0 } = Except.ok S) :
    ∀ s ∈ S.multi_body_samples, ∀ j, b < j →
      body E.BODY_SIZE s j = body E.BODY_SIZE (defaultState E.BODY_SIZE count) j := by
  intro s hs j hj
  refine stagedLoop_keeps E image count seeds hE j _ (List.range (b + 1)) _ S ?_ hrun ?_ s hs
  · rw [List.mem_range]; omega
  · intro s0 hs0
    rw [mem_initialPopulation hs0]

theorem stillObjectEnv_keeps (image : Observation) (input : StateVec)
    (f : DemoFilter) (pop : List StateVec) (n j : Nat) (x : StateVec)
    (h : ∀ s ∈ pop, body stillObjectEnv.BODY_SIZE s j = x) :
    ∀ s ∈ stillObjectEnv.getSamples
        (stillObjectEnv.Resample (stillObjectEnv.Filter (stillObjectEnv.Samples f pop) image input) n),
      body stillObjectEnv.BODY_SIZE s j = x := by
  intro s hs
  exact h s (List.mem_of_mem_take hs)

/-- Witness of C10 (amended): two bodies, one seed and a filter that leaves the samples
where they are; after stage 0 the block of body 1 is still the default one. -/
theorem staged_order_invariant_witness :
    ∃ S, stagedLoop stillObjectEnv (stillObjectEnv.Ros2Eigen (demoImage 0) 1) 2 [demoSeed]
        (List.range (0 + 1))
        { filter := { blocks := dependentSamplingBlocks 2, population := [] }
          multi_body_samples := initialPopulation stillObjectEnv.BODY_SIZE 2 [demoSeed]
          events := [] } = Except.ok S ∧
      ∀ s ∈ S.multi_body_samples, ∀ j, 0 < j →
        body stillObjectEnv.BODY_SIZE s j
          = body stillObjectEnv.BODY_SIZE (defaultState stillObjectEnv.BODY_SIZE 2) j :=
  ⟨_, rfl, staged_order_invariant stillObjectEnv _ 2 [demoSeed] _ []
    (stillObjectEnv_keeps _ _) 0 _ rfl⟩

/-- C10 (as stated) fails: with two bodies, one seed and a filter that moves the pose
coordinates of its active sampling block by one unit, the staged loop returns after body 0
with a sample whose sub-state for body 1 is not the default one, because the block active
during staging covers every body. -/
theorem staged_order_counterexample :
    ∃ S, stagedLoop demoObjectEnv (demoObjectEnv.Ros2Eigen (demoImage 0) 1) 2 [demoSeed]
        (List.range (0 + 1))
        { filter := demoObjectEnv.SamplingBlocks
            (demoObjectEnv.create
              { delta_time := Scalar.val (33 / 1000), count := 2, damping := Scalar.val 0,
                linear_acceleration_variance := Scalar.val 1,
                angular_acceleration_variance := Scalar.val 1 }
              { gpu := false, camera_matrix := demoK, rows := 1, cols := 1, sample_count := 1,
                initial_occlusion_prob := Scalar.val 0, delta_time := Scalar.val (33 / 1000),
                p_occluded_visible := Scalar.val 0, p_occluded_occluded := Scalar.val 0,
                tail_weight := Scalar.val 0, model_sigma := Scalar.val 0,
                sigma_factor := Scalar.val 0 }
              demoObjectParams.sampling_blocks demoObjectParams.max_kl_divergence)
            (dependentSamplingBlocks 2)
          multi_body_samples := initialPopulation demoObjectEnv.BODY_SIZE 2 [demoSeed]
          events := [] } = Except.ok S ∧
      ¬ ∀ s ∈ S.multi_body_samples, ∀ j, 0 < j →
        body demoObjectEnv.BODY_SIZE s j
          = body demoObjectEnv.BODY_SIZE (defaultState demoObjectEnv.BODY_SIZE 2) j := by
  refine ⟨_, rfl, ?_⟩
  intro h
  have h1 := h _ (List.mem_cons_self _ _) 1 (by decide)
  have h2 := congrArg (fun l : StateVec => l[0]?) h1
  have h3 : (Scalar.val 0).sub (Scalar.val (-1)) = Scalar.val 0 := by
    have h4 : some ((Scalar.val 0).sub (Scalar.val (-1))) = some (Scalar.val 0) := h2
    exact Option.some.inj h4
  simp [Scalar.sub] at h3

/-! ## MultiObjectTracker: the per-frame call -/

theorem constructedTimeSteps_append (a b : List ObjectEvent) :
    constructedTimeSteps (a ++ b) = constructedTimeSteps a ++ constructedTimeSteps b := by
  induction a with
  | nil => rfl
  | cons e es ih => cases e <;> simp [constructedTimeSteps, ih]

theorem stagedLoop_events {σ : Type} (E : ObjectEnv σ) (image : Observation) (count : Nat)
    (seeds : List StateVec) :
    ∀ (bodies : List Nat) (S S' : Staging σ),
      stagedLoop E image count seeds bodies S = Except.ok S' →
      ∃ extra, S'.events = S.events ++ extra ∧ constructedTimeSteps extra = [] := by
  intro bodies
  induction bodies with
  | nil =>
    intro S S' h
    cases h
    exact ⟨[], by simp, rfl⟩
  | cons b bs ih =>
    intro S S' h
    unfold stagedLoop at h
    rw [List.foldlM_cons] at h
    cases hst : stage E image count seeds S b with
    | error e => simp [hst, bind, Except.bind] at h
    | ok S1 =>
      simp only [hst, bind, Except.bind] at h
      obtain ⟨pop, -, -, -, hev⟩ := stage_ok hst
      obtain ⟨extra, hex, hct⟩ := ih S1 S' h
      refine ⟨[ObjectEvent.samples pop, ObjectEvent.filterCall image (zeroVec (count * 6)),
          ObjectEvent.resampleCall pop.length] ++ extra,
        by rw [hex, hev, List.append_assoc], ?_⟩
      rw [constructedTimeSteps_append, hct]
      rfl

/-- What `MultiObjectTracker::Initialize` leaves behind when it returns. -/
theorem object_Initialize_ok {σ : Type} (E : ObjectEnv σ) (P : ObjectParams)
    (T T1 : MultiObjectTracker σ) (seeds : List StateVec) (im : Image) (K : Matrix3d)
    ( state_is_partial : Bool) (ev : List ObjectEvent)
    (h : T.Initialize E P seeds im K state_is_partial = Except.ok (T1, ev)) :
    T1.last_measurement_time_ = T.last_measurement_time_ ∧
    T1.object_names_ = T.object_names_ ∧
    T1.downsampling_factor_ = T.downsampling_factor_ ∧
    (∃ f, T1.filter_ = some f) ∧
    constructedTimeSteps ev = [(Scalar.val (33 / 1000), Scalar.val (33 / 1000))] := by
  unfold MultiObjectTracker.Initialize at h
  cases ho : objectObservationModel P (K.topLeftCornerDiv (Scalar.ofInt T.downsampling_factor_))
      (E.Ros2Eigen im T.downsampling_factor_) seeds.length (Scalar.val (33 / 1000)) with
  | error e => simp [ho, bind, Except.bind] at h
  | ok om =>
    have hom : om.delta_time = Scalar.val (33 / 1000) := by
      unfold objectObservationModel at ho
      cases hb : P.BUILD_GPU <;> cases hu : P.use_gpu <;>
        cases hfs : P.fragment_shader_exists <;> cases hvs : P.vertex_shader_exists <;>
        simp [hb, hu, hfs, hvs] at ho <;> rw [← ho]
    cases ht : sampleTarget P.evaluation_count P.sampling_blocks with
    | error e =>
      cases state_is_partial
      · simp [ho, ht, bind, Except.bind, pure, Except.pure] at h
      · simp only [ho, ht, bind, Except.bind, if_true] at h
        split at h <;> cases h
    | ok n =>
      cases state_is_partial
      · simp only [ho, ht, bind, Except.bind, pure, Except.pure, Bool.false_eq_true, if_false,
          Except.ok.injEq, Prod.mk.injEq] at h
        obtain ⟨h1, h2⟩ := h
        subst h1 h2
        refine ⟨rfl, rfl, rfl, ⟨_, rfl⟩, ?_⟩
        simp [constructedTimeSteps, hom]
      · simp only [ho, ht, bind, Except.bind, if_true] at h
        split at h
        · cases h
        · next S hS =>
          simp only [pure, Except.pure, Except.ok.injEq, Prod.mk.injEq] at h
          obtain ⟨h1, h2⟩ := h
          subst h1 h2
          obtain ⟨extra, hex, hct⟩ := stagedLoop_events E _ _ seeds _ _ S hS
          refine ⟨rfl, rfl, rfl, ⟨_, rfl⟩, ?_⟩
          rw [hex]
          simp [constructedTimeSteps_append, constructedTimeSteps, hct, hom]

/-- One `Filter` call on an initialised object tracker. -/
theorem object_Filter_spec {σ : Type} (E : ObjectEnv σ) (T : MultiObjectTracker σ) (f : σ)
    (hf : T.filter_ = some f) (im : Image) :
    ∃ r, T.Filter E im = Except.ok r ∧
      r.1.last_measurement_time_ = Scalar.val im.stamp ∧
      r.1.object_names_ = T.object_names_ ∧
      r.1.downsampling_factor_ = T.downsampling_factor_ ∧
      r.1.filter_ = some (E.Filter f (E.Ros2Eigen im T.downsampling_factor_)
        (zeroVec (T.object_names_.length * 6))) ∧
      r.2.2 = E.mean (E.Filter f (E.Ros2Eigen im T.downsampling_factor_)
        (zeroVec (T.object_names_.length * 6))) ∧
      printedDeltaTimes r.2.1 =
        [(Scalar.val im.stamp).sub
          (if T.last_measurement_time_.isnan then Scalar.val im.stamp
            else T.last_measurement_time_)] ∧
      objectFilterCalls r.2.1 =
        [(E.Ros2Eigen im T.downsampling_factor_, zeroVec (T.object_names_.length * 6))] := by
  have hm : ∀ (m : StateVec) (l : List Nat),
      printedDeltaTimes (l.map (ObjectEvent.publishMarker m)) = [] ∧
      objectFilterCalls (l.map (ObjectEvent.publishMarker m)) = [] := by
    intro m l
    induction l with
    | nil => exact ⟨rfl, rfl⟩
    | cons a l ih => exact ⟨by simp [printedDeltaTimes, ih.1], by simp [objectFilterCalls, ih.2]⟩
  unfold MultiObjectTracker.Filter
  simp only [hf, bind, Except.bind, pure, Except.pure]
  refine ⟨_, rfl, rfl, rfl, rfl, rfl, rfl, ?_, ?_⟩
  · simp [printedDeltaTimes, (hm _ _).1]
  · simp [objectFilterCalls, (hm _ _).2]

theorem object_run_spec {σ : Type} (E : ObjectEnv σ) (frames : List Image) :
    ∀ (T : MultiObjectTracker σ) (f : σ), T.filter_ = some f →
    ∃ res, MultiObjectTracker.run E T frames = Except.ok res ∧
      res.map (fun r => printedDeltaTimes r.2.1) =
        List.zipWith
          (fun last im =>
            [(Scalar.val im.stamp).sub (if last.isnan then Scalar.val im.stamp else last)])
          (T.last_measurement_time_ :: frames.map (fun im => Scalar.val im.stamp)) frames ∧
      res.map (fun r => objectFilterCalls r.2.1) =
        frames.map (fun im =>
          [(E.Ros2Eigen im T.downsampling_factor_, zeroVec (T.object_names_.length * 6))]) ∧
      res.map (fun r => r.1.last_measurement_time_)
        = frames.map (fun im => Scalar.val im.stamp) := by
  induction frames with
  | nil => intro T f _; exact ⟨[], rfl, rfl, rfl, rfl⟩
  | cons im ims ih =>
    intro T f hf
    obtain ⟨r, hstep, hlast, hnames, hds, hfil, -, hprint, hcalls⟩ :=
      object_Filter_spec E T f hf im
    obtain ⟨rs, hrs, hd, hc, hl⟩ := ih r.1 _ hfil
    refine ⟨r :: rs, by simp [MultiObjectTracker.run, hstep, hrs], ?_, ?_, ?_⟩
    · rw [List.map_cons, hd, hprint, hlast]
      simp
    · rw [List.map_cons, hc, hcalls, hnames, hds]
      simp
    · rw [List.map_cons, hl, hlast]
      simp

theorem demoObject_Initialize :
    ∃ r, demoObjectTracker.Initialize demoObjectEnv demoObjectParams [demoSeed] (demoImage 0)
      demoK true = Except.ok r :=
  ⟨_, rfl⟩

/-- C7 (amended): `MultiObjectTracker::Initialize` constructs the process model and the
observation model with the fixed time step 0.033; on a freshly constructed and then
initialised tracker every `Filter` call returns, computes and prints the elapsed time (0 for
the first frame, `t_i - t_(i-1)` afterwards) and stores the frame's stamp, but the single
call it makes to the external filter carries the decoded observation and the zero input
only. -/
theorem object_filter_time_step {σ : Type} (E : ObjectEnv σ) (P : ObjectParams)
    (object_names : List String) (downsampling_factor : Int) (T1 : MultiObjectTracker σ)
    (seeds : List StateVec) (im0 : Image) (K : Matrix3d) ( state_is_partial : Bool)
    (ev0 : List ObjectEvent)
    (hinit : (MultiObjectTracker.new object_names downsampling_factor).Initialize E P seeds im0
      K state_is_partial = Except.ok (T1, ev0))
    (frames : List Image) :
    constructedTimeSteps ev0 = [(Scalar.val (33 / 1000), Scalar.val (33 / 1000))] ∧
    ∃ res, MultiObjectTracker.run E T1 frames = Except.ok res ∧
      res.map (fun r => printedDeltaTimes r.2.1) =
        (match frames with
          | [] => []
          | f0 :: fs =>
            [Scalar.val 0] ::
              List.zipWith (fun p c => [Scalar.val (c.stamp - p.stamp)]) (f0 :: fs) fs) ∧
      res.map (fun r => objectFilterCalls r.2.1) =
        frames.map (fun im =>
          [(E.Ros2Eigen im downsampling_factor, zeroVec (object_names.length * 6))]) ∧
      res.map (fun r => r.1.last_measurement_time_)
        = frames.map (fun im => Scalar.val im.stamp) := by
  obtain ⟨hlast, hnames, hds, ⟨f1, hf1⟩, hct⟩ :=
    object_Initialize_ok E P _ T1 seeds im0 K state_is_partial ev0 hinit
  refine ⟨hct, ?_⟩
  obtain ⟨res, hrun, hd, hc, hl⟩ := object_run_spec E frames T1 f1 hf1
  refine ⟨res, hrun, ?_, ?_, hl⟩
  · rw [hd, hlast]
    cases frames with
    | nil => rfl
    | cons f0 fs =>
      have hm : Scalar.val f0.stamp :: List.map (fun im => Scalar.val im.stamp) fs
          = List.map (fun im : Image => Scalar.val im.stamp) (f0 :: fs) := rfl
      simp only [List.map_cons, List.zipWith_cons_cons]
      congr 1
      · simp [MultiObjectTracker.new, Scalar.isnan, Scalar.sub]
      · rw [hm, List.zipWith_map_left]
        simp [Scalar.isnan, Scalar.sub]
  · rw [hc, hnames, hds]
    rfl

/-- Witness of C7 (amended): the demo object tracker, initialised and fed two frames. -/
theorem object_filter_time_step_witness :
    ∃ r, demoObjectTracker.Initialize demoObjectEnv demoObjectParams [demoSeed] (demoImage 0)
        demoK true = Except.ok r ∧
      constructedTimeSteps r.2 = [(Scalar.val (33 / 1000), Scalar.val (33 / 1000))] ∧
      ∃ res, MultiObjectTracker.run demoObjectEnv r.1 [demoImage 3, demoImage 5]
          = Except.ok res ∧
        res.map (fun r => printedDeltaTimes r.2.1) =
          [[Scalar.val 0], [Scalar.val ((demoImage 5).stamp - (demoImage 3).stamp)]] :=
  let ⟨r, h⟩ := demoObject_Initialize
  let ⟨h0, res, h1, h2, _⟩ := object_filter_time_step demoObjectEnv demoObjectParams
    ["box", "cup"] 1 r.1 [demoSeed] (demoImage 0) demoK true r.2 h [demoImage 3, demoImage 5]
  ⟨r, h, h0, res, h1, h2⟩

/-- C7 (as stated) fails: there is no way to read the elapsed time off the call that
`MultiObjectTracker::Filter` makes to the external filter.  On the initialised demo tracker,
frames stamped 0, 1 and frames stamped 0, 2 lead to the same filter calls, so no function
of the call's arguments is `t1 - t0` in both runs. -/
theorem object_filter_call_counterexample :
    ¬ ∃ received : Observation × StateVec → Scalar,
      ∀ t0 t1 : ℚ, t0 < t1 →
        ∀ r, demoObjectTracker.Initialize demoObjectEnv demoObjectParams [demoSeed]
            (demoImage 0) demoK true = Except.ok r →
          ∀ res, MultiObjectTracker.run demoObjectEnv r.1 [demoImage t0, demoImage t1]
              = Except.ok res →
            res.map (fun s => (objectFilterCalls s.2.1).map received)
              = [[Scalar.val 0], [Scalar.val (t1 - t0)]] := by
  rintro ⟨received, hrec⟩
  obtain ⟨r, hinit⟩ := demoObject_Initialize
  obtain ⟨-, -, -, ⟨f1, hf1⟩, -⟩ := object_Initialize_ok _ _ _ r.1 _ _ _ _ r.2 hinit
  obtain ⟨resA, hrunA, -, hcA, -⟩ :=
    object_run_spec demoObjectEnv [demoImage 0, demoImage 1] r.1 f1 hf1
  obtain ⟨resB, hrunB, -, hcB, -⟩ :=
    object_run_spec demoObjectEnv [demoImage 0, demoImage 2] r.1 f1 hf1
  have hA := hrec 0 1 (by norm_num) r hinit resA hrunA
  have hB := hrec 0 2 (by norm_num) r hinit resB hrunB
  have hAB : resA.map (fun s => objectFilterCalls s.2.1)
      = resB.map (fun s => objectFilterCalls s.2.1) := by
    rw [hcA, hcB]; rfl
  have hmap : ∀ res : List (MultiObjectTracker DemoFilter × List ObjectEvent × StateVec),
      res.map (fun s => (objectFilterCalls s.2.1).map received)
        = (res.map (fun s => objectFilterCalls s.2.1)).map (fun l => l.map received) := by
    intro res; simp [List.map_map]
  rw [hmap, hAB, ← hmap, hB] at hA
  simp at hA

/-! ## MultiObjectTracker: the calls of `Initialize` -/

theorem getElem?_range_ite (n k : Nat) :
    (List.range n)[k]? = if k < n then some k else none := by
  split
  · next h => exact List.getElem?_range h
  · next h => exact List.getElem?_eq_none (by rw [List.length_range]; omega)

theorem dependentSamplingBlocks_eq (count : Nat) :
    dependentSamplingBlocks count = [List.range (count * 6)] := by
  unfold dependentSamplingBlocks
  congr 1
  apply List.ext_getElem?
  intro k
  rw [foldl_set_range_getElem? (fun i => i), getElem?_range_ite, List.length_replicate,
    List.getElem?_replicate]
  by_cases h : k < count * 6 <;> simp [h]

theorem initialPopulation_eq (BS count : Nat) (seeds : List StateVec) :
    initialPopulation BS count seeds = List.replicate seeds.length (defaultState BS count) := by
  unfold initialPopulation
  apply List.ext_getElem?
  intro k
  rw [foldl_set_range_getElem? (fun _ => defaultState BS count), List.length_replicate,
    List.getElem?_replicate, List.getElem?_replicate]
  by_cases h : k < seeds.length <;> simp [h]

theorem fullPopulation_eq (seeds : List StateVec) : fullPopulation seeds = seeds := by
  unfold fullPopulation
  apply List.ext_getElem?
  intro k
  rw [foldl_set_range_getElem? (fun i => (seeds[i]?).getD []), List.length_replicate,
    List.getElem?_replicate]
  by_cases h : k < seeds.length
  · simp [h, List.getElem?_eq_getElem h]
  · simp [h, List.getElem?_eq_none (Nat.le_of_not_lt h)]

theorem blocksAtFilterCalls_append (a b : List ObjectEvent) :
    ∀ active, blocksAtFilterCalls active (a ++ b) =
      blocksAtFilterCalls active a ++ blocksAtFilterCalls (activeBlocks active a) b := by
  induction a with
  | nil => intro active; rfl
  | cons e es ih => intro active; cases e <;> simp [blocksAtFilterCalls, activeBlocks, ih]

theorem activeBlocks_append (a b : List ObjectEvent) :
    ∀ active, activeBlocks active (a ++ b) = activeBlocks (activeBlocks active a) b := by
  induction a with
  | nil => intro active; rfl
  | cons e es ih => intro active; cases e <;> simp [activeBlocks, ih]

theorem objectFilterCalls_append (a b : List ObjectEvent) :
    objectFilterCalls (a ++ b) = objectFilterCalls a ++ objectFilterCalls b := by
  induction a with
  | nil => rfl
  | cons e es ih => cases e <;> simp [objectFilterCalls, ih]

theorem resampleCounts_append (a b : List ObjectEvent) :
    resampleCounts (a ++ b) = resampleCounts a ++ resampleCounts b := by
  induction a with
  | nil => rfl
  | cons e es ih => cases e <;> simp [resampleCounts, ih]

theorem populationsSet_append (a b : List ObjectEvent) :
    populationsSet (a ++ b) = populationsSet a ++ populationsSet b := by
  induction a with
  | nil => rfl
  | cons e es ih => cases e <;> simp [populationsSet, ih]

theorem stageEvents_append (image : Observation) (count : Nat) (p q : List (List StateVec)) :
    stageEvents image count (p ++ q) = stageEvents image count p ++ stageEvents image count q := by
  induction p with
  | nil => rfl
  | cons a p ih => simp [stageEvents, ih]

/-- What the extraction functions see in the events of some stages. -/
theorem stageEvents_calls (image : Observation) (count : Nat) (pops : List (List StateVec)) :
    (∀ active, blocksAtFilterCalls active (stageEvents image count pops)
      = List.replicate pops.length active) ∧
    (∀ active, activeBlocks active (stageEvents image count pops) = active) ∧
    objectFilterCalls (stageEvents image count pops)
      = List.replicate pops.length (image, zeroVec (count * 6)) ∧
    resampleCounts (stageEvents image count pops) = pops.map List.length ∧
    populationsSet (stageEvents image count pops) = pops := by
  induction pops with
  | nil => exact ⟨fun _ => rfl, fun _ => rfl, rfl, rfl, rfl⟩
  | cons p ps ih =>
    obtain ⟨h1, h2, h3, h4, h5⟩ := ih
    refine ⟨fun a => ?_, fun a => ?_, ?_, ?_, ?_⟩
    · simp [stageEvents, blocksAtFilterCalls, h1, List.replicate_succ]
    · simp [stageEvents, activeBlocks, h2]
    · simp [stageEvents, objectFilterCalls, h3, List.replicate_succ]
    · simp [stageEvents, resampleCounts, h4]
    · simp [stageEvents, populationsSet, h5]

/-- Shape of the staged loop: one stage per body index, each stage handing a population to
the filter, evaluating it and resampling to its size; with a filter whose `Resample(n)`
leaves `n` samples every population has the size of the first one. -/
theorem stagedLoop_shape {σ : Type} (E : ObjectEnv σ) (image : Observation) (count : Nat)
    (seeds : List StateVec) :
    ∀ (bodies : List Nat) (S S' : Staging σ),
      stagedLoop E image count seeds bodies S = Except.ok S' →
      ∃ pops, pops.length = bodies.length ∧
        S'.events = S.events ++ stageEvents image count pops ∧
        ((∀ f n, (E.getSamples (E.Resample f n)).length = n) →
          S'.multi_body_samples.length = S.multi_body_samples.length ∧
          ∀ pop ∈ pops, pop.length = S.multi_body_samples.length) := by
  intro bodies
  induction bodies with
  | nil =>
    intro S S' h
    cases h
    exact ⟨[], rfl, by simp [stageEvents], fun _ => ⟨rfl, by simp⟩⟩
  | cons b bs ih =>
    intro S S' h
    unfold stagedLoop at h
    rw [List.foldlM_cons] at h
    cases hst : stage E image count seeds S b with
    | error e => simp [hst, bind, Except.bind] at h
    | ok S1 =>
      simp only [hst, bind, Except.bind] at h
      obtain ⟨pop, hpop, hfil, hsam, hev⟩ := stage_ok hst
      obtain ⟨hlen, -⟩ := overwriteBody_frame hpop
      obtain ⟨pops, hpl, hex, hsz⟩ := ih S1 S' h
      refine ⟨pop :: pops, by simp [hpl], ?_, ?_⟩
      · rw [hex, hev, List.append_assoc]; rfl
      · intro hR
        obtain ⟨h1, h2⟩ := hsz hR
        have hS1 : S1.multi_body_samples.length = S.multi_body_samples.length := by
          rw [hsam, hfil, hR, hlen]
        refine ⟨h1.trans hS1, ?_⟩
        intro q hq
        rcases List.mem_cons.1 hq with rfl | hq'
        · exact hlen
        · exact (h2 q hq').trans hS1

/-- `MultiObjectTracker::Initialize` taken apart: when it returns, the observation model was
built, the branch selected by `state_is_partial` returned the loop state `S`, the target of
the final resample is defined, and the call ends with `Resample(target)` and
`SamplingBlocks(sampling_blocks)`. -/
theorem object_Initialize_inv {σ : Type} (E : ObjectEnv σ) (P : ObjectParams)
    (T T1 : MultiObjectTracker σ) (seeds : List StateVec) (im : Image) (K : Matrix3d)
    ( state_is_partial : Bool) (ev : List ObjectEvent)
    (h : T.Initialize E P seeds im K state_is_partial = Except.ok (T1, ev)) :
    ∃ om target S,
      objectObservationModel P (K.topLeftCornerDiv (Scalar.ofInt T.downsampling_factor_))
        (E.Ros2Eigen im T.downsampling_factor_) seeds.length (Scalar.val (33 / 1000))
          = Except.ok om ∧
      sampleTarget P.evaluation_count P.sampling_blocks = Except.ok target ∧
      ( state_is_partial = true →
        stagedLoop E (E.Ros2Eigen im T.downsampling_factor_) T.object_names_.length seeds
          (List.range T.object_names_.length)
          { filter := initialFilter E P T.object_names_.length om,
            multi_body_samples := initialPopulation E.BODY_SIZE T.object_names_.length seeds,
            events := startEvents P T.object_names_.length om } = Except.ok S) ∧
      ( state_is_partial = false →
        S =
          { filter :=
              E.Filter
                (E.Samples (initialFilter E P T.object_names_.length om) (fullPopulation seeds))
                (E.Ros2Eigen im T.downsampling_factor_) (zeroVec (T.object_names_.length * 6)),
            multi_body_samples := fullPopulation seeds,
            events :=
              startEvents P T.object_names_.length om ++
                [ObjectEvent.samples (fullPopulation seeds),
                 ObjectEvent.filterCall (E.Ros2Eigen im T.downsampling_factor_)
                   (zeroVec (T.object_names_.length * 6))] }) ∧
      T1 =
        { T with
          filter_ := some (E.SamplingBlocks (E.Resample S.filter target) P.sampling_blocks) } ∧
      ev = S.events ++
        [ObjectEvent.resampleCall target, ObjectEvent.samplingBlocks P.sampling_blocks] := by
  unfold MultiObjectTracker.Initialize at h
  cases ho : objectObservationModel P (K.topLeftCornerDiv (Scalar.ofInt T.downsampling_factor_))
      (E.Ros2Eigen im T.downsampling_factor_) seeds.length (Scalar.val (33 / 1000)) with
  | error e => simp [ho, bind, Except.bind] at h
  | ok om =>
    cases ht : sampleTarget P.evaluation_count P.sampling_blocks with
    | error e =>
      cases state_is_partial
      · simp [ho, ht, bind, Except.bind, pure, Except.pure] at h
      · simp only [ho, ht, bind, Except.bind, if_true] at h
        split at h <;> cases h
    | ok n =>
      cases state_is_partial
      · simp only [ho, ht, bind, Except.bind, pure, Except.pure, Bool.false_eq_true, if_false,
          Except.ok.injEq, Prod.mk.injEq] at h
        obtain ⟨h1, h2⟩ := h
        subst h1 h2
        exact ⟨om, n, _, rfl, rfl, (fun hc => Bool.noConfusion hc), (fun _ => rfl), rfl, rfl⟩
      · simp only [ho, ht, bind, Except.bind, if_true] at h
        split at h
        · cases h
        · next S hS =>
          simp only [pure, Except.pure, Except.ok.injEq, Prod.mk.injEq] at h
          obtain ⟨h1, h2⟩ := h
          subst h1 h2
          exact ⟨om, n, S, rfl, rfl, (fun _ => hS), (fun hc => Bool.noConfusion hc), rfl, rfl⟩

/-- The calls of the staged branch of `Initialize`, in order: construction, the block of all
dimensions, one stage per body, the final resample, the configured blocks. -/
theorem object_Initialize_staged {σ : Type} (E : ObjectEnv σ) (P : ObjectParams)
    (T T1 : MultiObjectTracker σ) (seeds : List StateVec) (im : Image) (K : Matrix3d)
    (ev : List ObjectEvent)
    (h : T.Initialize E P seeds im K true = Except.ok (T1, ev)) :
    ∃ om target S pops,
      sampleTarget P.evaluation_count P.sampling_blocks = Except.ok target ∧
      stagedLoop E (E.Ros2Eigen im T.downsampling_factor_) T.object_names_.length seeds
        (List.range T.object_names_.length)
        { filter := initialFilter E P T.object_names_.length om,
          multi_body_samples := initialPopulation E.BODY_SIZE T.object_names_.length seeds,
          events := startEvents P T.object_names_.length om } = Except.ok S ∧
      pops.length = T.object_names_.length ∧
      ev = startEvents P T.object_names_.length om ++
        stageEvents (E.Ros2Eigen im T.downsampling_factor_) T.object_names_.length pops ++
        [ObjectEvent.resampleCall target, ObjectEvent.samplingBlocks P.sampling_blocks] ∧
      ((∀ f n, (E.getSamples (E.Resample f n)).length = n) →
        S.multi_body_samples.length = seeds.length ∧
        ∀ pop ∈ pops, pop.length = seeds.length) := by
  obtain ⟨om, target, S, -, ht, hS, -, -, hev⟩ := object_Initialize_inv E P T T1 seeds im K true ev h
  have hrun := hS rfl
  obtain ⟨pops, hpl, hex, hsz⟩ := stagedLoop_shape E _ _ seeds _ _ S hrun
  refine ⟨om, target, S, pops, ht, hrun, by rw [hpl, List.length_range], ?_, ?_⟩
  · rw [hev, hex]
  · intro hR
    have hK : (initialPopulation E.BODY_SIZE T.object_names_.length seeds).length
        = seeds.length := by
      rw [initialPopulation_eq, List.length_replicate]
    obtain ⟨h1, h2⟩ := hsz hR
    exact ⟨h1.trans hK, fun pop hp => (h2 pop hp).trans hK⟩

/-- C11 (amended): in the staged branch of `MultiObjectTracker::Initialize` exactly one
`Filter` call is made per body, and the partition active in the filter at each of them is
the single block that holds every index `0, ..., 6 * N - 1`, installed once before the loop;
no stage installs a block of its own body. -/
theorem staging_uses_full_block {σ : Type} (E : ObjectEnv σ) (P : ObjectParams)
    (T T1 : MultiObjectTracker σ) (seeds : List StateVec) (im : Image) (K : Matrix3d)
    (ev : List ObjectEvent)
    (hinit : T.Initialize E P seeds im K true = Except.ok (T1, ev)) :
    blocksAtFilterCalls none ev =
      List.replicate T.object_names_.length
        (some [List.range (T.object_names_.length * 6)]) := by
  obtain ⟨om, target, S, pops, -, -, hpl, hev, -⟩ :=
    object_Initialize_staged E P T T1 seeds im K ev hinit
  obtain ⟨h1, h2, -⟩ :=
    stageEvents_calls (E.Ros2Eigen im T.downsampling_factor_) T.object_names_.length pops
  rw [hev, blocksAtFilterCalls_append, blocksAtFilterCalls_append, h1, hpl]
  simp [startEvents, blocksAtFilterCalls, activeBlocks, dependentSamplingBlocks_eq]

/-- Witness of C11 (amended): the demo tracker of two objects. -/
theorem staging_uses_full_block_witness :
    ∃ r, demoObjectTracker.Initialize demoObjectEnv demoObjectParams [demoSeed] (demoImage 0)
        demoK true = Except.ok r ∧
      blocksAtFilterCalls none r.2 =
        List.replicate demoObjectTracker.object_names_.length
          (some [List.range (demoObjectTracker.object_names_.length * 6)]) :=
  let ⟨r, h⟩ := demoObject_Initialize
  ⟨r, h, staging_uses_full_block demoObjectEnv demoObjectParams demoObjectTracker r.1 _ _ _
    r.2 h⟩

/-- C11 (as stated) fails: on the demo tracker of two objects the partition active at the
update of stage 1 contains index 0, which belongs to body 0 and not to the sub-range
`6, ..., 11` of body 1. -/
theorem staging_block_counterexample :
    ∃ r, demoObjectTracker.Initialize demoObjectEnv demoObjectParams [demoSeed] (demoImage 0)
        demoK true = Except.ok r ∧
      ¬ ∀ b blocks, (blocksAtFilterCalls none r.2)[b]? = some (some blocks) →
        ∀ i, i ∈ blocks.flatten ↔ 6 * b ≤ i ∧ i < 6 * b + 6 := by
  refine ⟨_, rfl, ?_⟩
  intro h
  have h1 := (h 1 [List.range 12] rfl 0).1 (by decide)
  omega

/-- C12 (amended): in the staged branch of `MultiObjectTracker::Initialize` with `N` bodies
the filter receives exactly `N` predict/update calls, one per stage; the last stage's
resample is followed directly by the final resample and by the installation of the
configured blocks, with no further predict/update in between. -/
theorem staged_update_count {σ : Type} (E : ObjectEnv σ) (P : ObjectParams)
    (T T1 : MultiObjectTracker σ) (seeds : List StateVec) (im : Image) (K : Matrix3d)
    (ev : List ObjectEvent)
    (hinit : T.Initialize E P seeds im K true = Except.ok (T1, ev)) :
    objectFilterCalls ev =
      List.replicate T.object_names_.length
        (E.Ros2Eigen im T.downsampling_factor_, zeroVec (T.object_names_.length * 6)) ∧
    ∃ om target pops, pops.length = T.object_names_.length ∧
      ev = startEvents P T.object_names_.length om ++
        stageEvents (E.Ros2Eigen im T.downsampling_factor_) T.object_names_.length pops ++
        [ObjectEvent.resampleCall target, ObjectEvent.samplingBlocks P.sampling_blocks] := by
  obtain ⟨om, target, S, pops, -, -, hpl, hev, -⟩ :=
    object_Initialize_staged E P T T1 seeds im K ev hinit
  obtain ⟨-, -, h3, -⟩ :=
    stageEvents_calls (E.Ros2Eigen im T.downsampling_factor_) T.object_names_.length pops
  refine ⟨?_, om, target, pops, hpl, hev⟩
  rw [hev, objectFilterCalls_append, objectFilterCalls_append, h3, hpl]
  simp [startEvents, objectFilterCalls]

/-- Witness of C12 (amended): the demo tracker of two objects. -/
theorem staged_update_count_witness :
    ∃ r, demoObjectTracker.Initialize demoObjectEnv demoObjectParams [demoSeed] (demoImage 0)
        demoK true = Except.ok r ∧
      objectFilterCalls r.2 =
        List.replicate demoObjectTracker.object_names_.length
          (demoObjectEnv.Ros2Eigen (demoImage 0) demoObjectTracker.downsampling_factor_,
            zeroVec (demoObjectTracker.object_names_.length * 6)) :=
  let ⟨r, h⟩ := demoObject_Initialize
  ⟨r, h, (staged_update_count demoObjectEnv demoObjectParams demoObjectTracker r.1 _ _ _
    r.2 h).1⟩

/-- C12 (as stated) fails: on the demo tracker of two objects the staged initialization
makes two predict/update calls, not three. -/
theorem staged_update_count_counterexample :
    ∃ r, demoObjectTracker.Initialize demoObjectEnv demoObjectParams [demoSeed] (demoImage 0)
        demoK true = Except.ok r ∧
      ¬ (objectFilterCalls r.2).length = demoObjectTracker.object_names_.length + 1 :=
  ⟨_, rfl, by decide⟩

/-- C13 (evaluation at the failing input): with two objects every body of the default state
sits at `(0, 0, 1.5)`; for intrinsics with principal point `(1, 1)` and a 3 x 3 frame this is
the point the tracker's own reconstruction assigns to pixel `(1, 1)` at depth 1.5, in front
of the camera, so the position is inside the view. -/
theorem default_position_in_view :
    position 12 (defaultState 12 2) 0
      = (some (Scalar.val 0), some (Scalar.val 0), some (Scalar.val (3 / 2))) ∧
    position 12 (defaultState 12 2) 1
      = (some (Scalar.val 0), some (Scalar.val 0), some (Scalar.val (3 / 2))) ∧
    (1 < 3 ∧ (0 : ℚ) < 3 / 2) ∧
    pointAt demoK { rows := 3, cols := 3, coeff := fun _ _ => Scalar.val (3 / 2) } 1 1
      = (Scalar.val 0, Scalar.val 0, Scalar.val (3 / 2)) := by
  refine ⟨rfl, rfl, ⟨by decide, by norm_num⟩, ?_⟩
  simp [pointAt, demoK, Scalar.isnan, Scalar.ofNat, Scalar.sub, Scalar.mul, Scalar.div]

theorem body_setBody_self {BS : Nat} {s s' x : StateVec} {b : Nat}
    (h : setBody BS s b x = Except.ok s') : body BS s' b = x := by
  unfold setBody at h
  split at h
  · next hc =>
    obtain ⟨hx, hlen⟩ := hc
    cases h
    have hb : b * BS + BS = (b + 1) * BS := by rw [Nat.add_mul, Nat.one_mul]
    have hlt : b * BS ≤ s.length := by omega
    apply List.ext_getElem?
    intro i
    rw [getElem?_body]
    split
    · next hi =>
      rw [List.getElem?_append, List.length_append, List.length_take, Nat.min_eq_left hlt, hx,
        if_pos (by omega), List.getElem?_append, List.length_take, Nat.min_eq_left hlt,
        if_neg (by omega)]
      congr 1
      omega
    · next hi => exact (List.getElem?_eq_none (by omega)).symm
  · cases h

theorem setBody_isOk {BS : Nat} {s x : StateVec} {b : Nat}
    (hx : x.length = BS) (hs : (b + 1) * BS ≤ s.length) :
    ∃ s', setBody BS s b x = Except.ok s' := by
  unfold setBody
  rw [if_pos ⟨hx, hs⟩]
  exact ⟨_, rfl⟩

/-- The loop over `state_index` runs through when every sample holds the block of the body
and has a seed of the size of one block. -/
theorem overwrite_fold_total (BS b : Nat) (seeds pop : List StateVec)
    (hwf : ∀ (k : Nat) (s : StateVec), pop[k]? = some s →
      (b + 1) * BS ≤ s.length ∧ ∃ seed, seeds[k]? = some seed ∧ seed.length = BS) :
    ∀ m, m ≤ pop.length →
      ∃ pop', (List.range m).foldlM (overwriteOne BS b seeds) pop = Except.ok pop' := by
  intro m
  induction m with
  | zero => intro _; exact ⟨pop, rfl⟩
  | succ m ih =>
    intro hm
    obtain ⟨mid, hmid⟩ := ih (by omega)
    obtain ⟨-, -, hhigh⟩ := overwrite_fold BS b seeds pop m mid hmid
    have hget : pop[m]? = some pop[m] := List.getElem?_eq_getElem (by omega)
    obtain ⟨hs, seed, hseed, hsl⟩ := hwf m _ hget
    obtain ⟨s', hset⟩ := setBody_isOk (b := b) hsl hs
    refine ⟨mid.set m s', ?_⟩
    rw [List.range_succ, List.foldlM_append, hmid]
    have h1 : overwriteOne BS b seeds mid m = Except.ok (mid.set m s') := by
      unfold overwriteOne
      rw [hhigh m (Nat.le_refl _), hget, hseed]
      simp only [hset]
    simp [List.foldlM, bind, Except.bind, pure, Except.pure, h1]

/-- C14: the seed overwrite of a stage, whenever it runs through, keeps the number of
samples and changes in sample `k` the sub-state of body `b` only: afterwards that sub-state
is seed `k`, and the sub-state of every other body is what it was; and it runs through as
soon as every sample holds the block of body `b` and has a seed of one body's size. -/
theorem seed_overwrite_touches_one_body {σ : Type} (E : ObjectEnv σ) (image : Observation)
    (count : Nat) (seeds : List StateVec) (S : Staging σ) (b : Nat) :
    (∀ S', stage E image count seeds S b = Except.ok S' →
      ∃ pop, overwriteBody E.BODY_SIZE b seeds S.multi_body_samples = Except.ok pop ∧
        S'.events = S.events ++ stageEvents image count [pop] ∧
        pop.length = S.multi_body_samples.length ∧
        ∀ k, k < S.multi_body_samples.length →
          ∃ s seed s', S.multi_body_samples[k]? = some s ∧ seeds[k]? = some seed ∧
            pop[k]? = some s' ∧ body E.BODY_SIZE s' b = seed ∧
            ∀ j, j ≠ b → body E.BODY_SIZE s' j = body E.BODY_SIZE s j) ∧
    ((∀ (k : Nat) (s : StateVec), S.multi_body_samples[k]? = some s →
        (b + 1) * E.BODY_SIZE ≤ s.length ∧
          ∃ seed, seeds[k]? = some seed ∧ seed.length = E.BODY_SIZE) →
      ∃ S', stage E image count seeds S b = Except.ok S') := by
  constructor
  · intro S' hst
    obtain ⟨pop, hpop, -, -, hev⟩ := stage_ok hst
    obtain ⟨hlen, hlow, -⟩ :=
      overwrite_fold E.BODY_SIZE b seeds S.multi_body_samples _ pop hpop
    refine ⟨pop, hpop, by rw [hev]; simp [stageEvents], hlen, ?_⟩
    intro k hk
    obtain ⟨s, seed, s', a1, a2, a3, a4⟩ := hlow k hk
    exact ⟨s, seed, s', a1, a2, a4, body_setBody_self a3, fun j hj => body_setBody_ne a3 hj⟩
  · intro hwf
    obtain ⟨pop, hpop⟩ :=
      overwrite_fold_total E.BODY_SIZE b seeds S.multi_body_samples hwf _ (Nat.le_refl _)
    have hpop' : overwriteBody E.BODY_SIZE b seeds S.multi_body_samples = Except.ok pop := hpop
    unfold stage
    simp only [hpop', bind, Except.bind, pure, Except.pure]
    exact ⟨_, rfl⟩

/-- Witness of C14: stage 0 on the initial population of the demo tracker. -/
theorem seed_overwrite_touches_one_body_witness :
    ∃ S', stage demoObjectEnv (demoObjectEnv.Ros2Eigen (demoImage 0) 1) 2 [demoSeed]
        { filter := { blocks := dependentSamplingBlocks 2, population := [] }
          multi_body_samples := initialPopulation 12 2 [demoSeed]
          events := [] } 0 = Except.ok S' ∧
      ∃ pop, overwriteBody 12 0 [demoSeed] (initialPopulation 12 2 [demoSeed]) = Except.ok pop ∧
        pop.length = (initialPopulation 12 2 [demoSeed]).length :=
  let ⟨pop, h1, _, h3, _⟩ := (seed_overwrite_touches_one_body demoObjectEnv
    (demoObjectEnv.Ros2Eigen (demoImage 0) 1) 2 [demoSeed]
    { filter := { blocks := dependentSamplingBlocks 2, population := [] }
      multi_body_samples := initialPopulation 12 2 [demoSeed]
      events := [] } 0).1 _ rfl
  ⟨_, rfl, pop, h1, h3⟩

/-- C15: the staged branch of `MultiObjectTracker::Initialize` starts its loop from a
population of exactly `K` samples, `K` being the number of seeds, each of which is the
default state. -/
theorem initial_population_is_default {σ : Type} (E : ObjectEnv σ) (P : ObjectParams)
    (T T1 : MultiObjectTracker σ) (seeds : List StateVec) (im : Image) (K : Matrix3d)
    (ev : List ObjectEvent)
    (hinit : T.Initialize E P seeds im K true = Except.ok (T1, ev)) :
    initialPopulation E.BODY_SIZE T.object_names_.length seeds
      = List.replicate seeds.length (defaultState E.BODY_SIZE T.object_names_.length) ∧
    (initialPopulation E.BODY_SIZE T.object_names_.length seeds).length = seeds.length ∧
    (∀ s ∈ initialPopulation E.BODY_SIZE T.object_names_.length seeds,
      s = defaultState E.BODY_SIZE T.object_names_.length) ∧
    ∃ om S,
      stagedLoop E (E.Ros2Eigen im T.downsampling_factor_) T.object_names_.length seeds
        (List.range T.object_names_.length)
        { filter := initialFilter E P T.object_names_.length om,
          multi_body_samples :=
            List.replicate seeds.length (defaultState E.BODY_SIZE T.object_names_.length),
          events := startEvents P T.object_names_.length om } = Except.ok S ∧
      ev = S.events ++
        [ObjectEvent.resampleCall
          ((P.evaluation_count % (2 : Int) ^ 64).toNat / P.sampling_blocks.length),
         ObjectEvent.samplingBlocks P.sampling_blocks] := by
  refine ⟨initialPopulation_eq _ _ _, by rw [initialPopulation_eq, List.length_replicate],
    fun s hs => mem_initialPopulation hs, ?_⟩
  obtain ⟨om, target, S, -, ht, hS, -, -, hev⟩ :=
    object_Initialize_inv E P T T1 seeds im K true ev hinit
  refine ⟨om, S, ?_, ?_⟩
  · rw [← initialPopulation_eq]; exact hS rfl
  · rw [hev]
    unfold sampleTarget at ht
    split at ht
    · cases ht
    · cases ht; rfl

/-- Witness of C15: the demo tracker of two objects with one seed. -/
theorem initial_population_is_default_witness :
    ∃ r, demoObjectTracker.Initialize demoObjectEnv demoObjectParams [demoSeed] (demoImage 0)
        demoK true = Except.ok r ∧
      initialPopulation demoObjectEnv.BODY_SIZE demoObjectTracker.object_names_.length
          [demoSeed]
        = List.replicate [demoSeed].length
            (defaultState demoObjectEnv.BODY_SIZE demoObjectTracker.object_names_.length) :=
  let ⟨r, h⟩ := demoObject_Initialize
  ⟨r, h, (initial_population_is_default demoObjectEnv demoObjectParams demoObjectTracker r.1 _
    _ _ r.2 h).1⟩

theorem demoObjectEnv_resample (f : DemoFilter) (n : Nat) :
    (demoObjectEnv.getSamples (demoObjectEnv.Resample f n)).length = n := by
  simp [demoObjectEnv]

/-- C16: for an external filter whose `Resample(n)` leaves exactly `n` samples, every stage
of the staged initialization hands the filter a population of exactly `K` samples, `K`
being the number of seeds, and requests a resample to exactly `K`; every sample index used
by the overwrite has a seed; and the working population has `K` samples when the loop
ends. -/
theorem staged_population_size {σ : Type} (E : ObjectEnv σ) (P : ObjectParams)
    (T T1 : MultiObjectTracker σ) (seeds : List StateVec) (im : Image) (K : Matrix3d)
    (ev : List ObjectEvent)
    (hR : ∀ f n, (E.getSamples (E.Resample f n)).length = n)
    (hinit : T.Initialize E P seeds im K true = Except.ok (T1, ev)) :
    (∃ target,
      resampleCounts ev = List.replicate T.object_names_.length seeds.length ++ [target]) ∧
    (populationsSet ev).length = T.object_names_.length ∧
    (∀ pop ∈ populationsSet ev, pop.length = seeds.length ∧
      ∀ k, k < pop.length → ∃ seed, seeds[k]? = some seed) ∧
    (initialPopulation E.BODY_SIZE T.object_names_.length seeds).length = seeds.length ∧
    ∃ om S,
      stagedLoop E (E.Ros2Eigen im T.downsampling_factor_) T.object_names_.length seeds
        (List.range T.object_names_.length)
        { filter := initialFilter E P T.object_names_.length om,
          multi_body_samples := initialPopulation E.BODY_SIZE T.object_names_.length seeds,
          events := startEvents P T.object_names_.length om } = Except.ok S ∧
      S.multi_body_samples.length = seeds.length := by
  obtain ⟨om, target, S, pops, -, hS, hpl, hev, hsz⟩ :=
    object_Initialize_staged E P T T1 seeds im K ev hinit
  obtain ⟨hSlen, hpops⟩ := hsz hR
  obtain ⟨-, -, -, h4, h5⟩ :=
    stageEvents_calls (E.Ros2Eigen im T.downsampling_factor_) T.object_names_.length pops
  have hps : populationsSet ev = pops := by
    rw [hev, populationsSet_append, populationsSet_append, h5]
    simp [startEvents, populationsSet]
  refine ⟨⟨target, ?_⟩, by rw [hps, hpl], ?_,
    by rw [initialPopulation_eq, List.length_replicate], om, S, hS, hSlen⟩
  · rw [hev, resampleCounts_append, resampleCounts_append, h4]
    have hmap : pops.map List.length = List.replicate T.object_names_.length seeds.length := by
      rw [List.eq_replicate_iff]
      refine ⟨by rw [List.length_map, hpl], ?_⟩
      intro n hn
      obtain ⟨pop, hp, rfl⟩ := List.mem_map.1 hn
      exact hpops pop hp
    rw [hmap]
    simp [startEvents, resampleCounts]
  · intro pop hp
    rw [hps] at hp
    refine ⟨hpops pop hp, ?_⟩
    intro k hk
    rw [hpops pop hp] at hk
    exact ⟨seeds[k], List.getElem?_eq_getElem hk⟩

/-- Witness of C16: the demo tracker, whose filter resamples to the requested count. -/
theorem staged_population_size_witness :
    ∃ r, demoObjectTracker.Initialize demoObjectEnv demoObjectParams [demoSeed] (demoImage 0)
        demoK true = Except.ok r ∧
      (populationsSet r.2).length = demoObjectTracker.object_names_.length ∧
      ∀ pop ∈ populationsSet r.2, pop.length = [demoSeed].length ∧
        ∀ k, k < pop.length → ∃ seed, [demoSeed][k]? = some seed :=
  let ⟨r, h⟩ := demoObject_Initialize
  let ⟨_, h2, h3, _⟩ := staged_population_size demoObjectEnv demoObjectParams
    demoObjectTracker r.1 [demoSeed] (demoImage 0) demoK r.2 demoObjectEnv_resample h
  ⟨r, h, h2, h3⟩

/-! ## The final resample -/

theorem sampleTarget_eq (evaluation_count : Int) (blocks : List (List Nat))
    (h0 : 0 ≤ evaluation_count) (h1 : evaluation_count < 2 ^ 31) (target : Nat)
    (h : sampleTarget evaluation_count blocks = Except.ok target) :
    blocks ≠ [] ∧ target = evaluation_count.toNat / blocks.length ∧
      blocks.length * target ≤ evaluation_count.toNat ∧
      evaluation_count.toNat < blocks.length * (target + 1) := by
  unfold sampleTarget at h
  split at h
  · cases h
  · next hne =>
    cases h
    have hmod : evaluation_count % (2 : Int) ^ 64 = evaluation_count :=
      Int.emod_eq_of_lt h0 (by omega)
    have hpos : 0 < blocks.length := Nat.pos_of_ne_zero hne
    rw [hmod]
    refine ⟨?_, rfl, Nat.mul_div_le _ _, Nat.lt_mul_div_succ _ hpos⟩
    intro hb
    rw [hb] at hne
    exact hne rfl

/-- `RobotTracker::Initialize` taken apart: what was checked and which calls were made when
it returns. -/
theorem Initialize_inv {σ : Type} (E : RobotEnv σ) (P : RobotParams) (T T1 : RobotTracker σ)
    (samples : List StateVec) (im : Image) (K : Matrix3d) (nj : Nat) (ev : List RobotEvent)
    (h : T.Initialize E P samples im K nj = Except.ok (T1, ev)) :
    ∃ s0 om target,
      samples[0]? = some s0 ∧
      robotObservationModel P (K.topLeftCornerDiv (Scalar.ofInt T.downsampling_factor_))
        (toMeters T.data_in_meters_ (E.Ros2Eigen im T.downsampling_factor_)) samples.length
          = Except.ok om ∧
      nj = P.joint_sigmas.length ∧
      sampleTarget T.evaluation_count_ P.sampling_blocks = Except.ok target ∧
      ev =
        [RobotEvent.render s0 (K.topLeftCornerDiv (Scalar.ofInt T.downsampling_factor_))
          (toMeters T.data_in_meters_ (E.Ros2Eigen im T.downsampling_factor_)).rows
          (toMeters T.data_in_meters_ (E.Ros2Eigen im T.downsampling_factor_)).cols,
         RobotEvent.filterCall
          (toMeters T.data_in_meters_ (E.Ros2Eigen im T.downsampling_factor_)) (Scalar.val 0)
          (zeroVec nj),
         RobotEvent.resampleCall target] ∧
      T1.filter_ = some (E.Resample (E.Filter (E.Samples
        (E.create
          { dimension := nj, damping := P.damping,
            joint_covariance := jointCovariance nj P.joint_sigmas }
          om P.sampling_blocks P.max_kl_divergence) samples)
        (toMeters T.data_in_meters_ (E.Ros2Eigen im T.downsampling_factor_)) (Scalar.val 0)
        (zeroVec nj)) target) := by
  unfold RobotTracker.Initialize at h
  cases hs : samples[0]? with
  | none => simp [hs, bind, Except.bind] at h
  | some s0 =>
    cases ho : robotObservationModel P
        (K.topLeftCornerDiv (Scalar.ofInt T.downsampling_factor_))
        (toMeters T.data_in_meters_ (E.Ros2Eigen im T.downsampling_factor_)) samples.length with
    | error e => simp [hs, ho, bind, Except.bind] at h
    | ok om =>
      by_cases hdim : nj = P.joint_sigmas.length
      · cases ht : sampleTarget T.evaluation_count_ P.sampling_blocks with
        | error e => simp [hs, ho, hdim, ht, bind, Except.bind] at h
        | ok n =>
          simp only [hs, ho, ht, bind, Except.bind, hdim, ne_eq, not_true_eq_false,
            if_false, pure, Except.pure, Except.ok.injEq, Prod.mk.injEq] at h
          obtain ⟨h1, h2⟩ := h
          subst h1 h2
          exact ⟨s0, om, n, rfl, rfl, hdim, rfl, by rw [hdim], by rw [hdim]⟩
      · simp [hs, ho, hdim, bind, Except.bind] at h

/-- C17: for an evaluation count `E` with `0 <= E` (an `int`) both
`RobotTracker::Initialize` and `MultiObjectTracker::Initialize`, when they return, have a
non-empty configured partition of `n` blocks and request as their final resample exactly
`floor(E / n)` samples, so that `n * target <= E < n * (target + 1)`. -/
theorem final_resample_target {σ τ : Type} (E : RobotEnv σ) (P : RobotParams)
    (T T1 : RobotTracker σ) (samples : List StateVec) (im : Image) (K : Matrix3d) (nj : Nat)
    (ev : List RobotEvent) (F : ObjectEnv τ) (Q : ObjectParams) (U U1 : MultiObjectTracker τ)
    (seeds : List StateVec) (im' : Image) (K' : Matrix3d) ( state_is_partial : Bool)
    (ev' : List ObjectEvent)
    (hrobot : T.Initialize E P samples im K nj = Except.ok (T1, ev))
    (hcount : 0 ≤ T.evaluation_count_ ∧ T.evaluation_count_ < 2 ^ 31)
    (hobject : U.Initialize F Q seeds im' K' state_is_partial = Except.ok (U1, ev'))
    (hcount' : 0 ≤ Q.evaluation_count ∧ Q.evaluation_count < 2 ^ 31) :
    (P.sampling_blocks ≠ [] ∧
      robotResampleCounts ev = [T.evaluation_count_.toNat / P.sampling_blocks.length] ∧
      P.sampling_blocks.length * (T.evaluation_count_.toNat / P.sampling_blocks.length)
        ≤ T.evaluation_count_.toNat ∧
      T.evaluation_count_.toNat
        < P.sampling_blocks.length *
          (T.evaluation_count_.toNat / P.sampling_blocks.length + 1)) ∧
    (Q.sampling_blocks ≠ [] ∧
      (∃ earlier, resampleCounts ev'
        = earlier ++ [Q.evaluation_count.toNat / Q.sampling_blocks.length]) ∧
      (∃ before, ev' = before ++
        [ObjectEvent.resampleCall (Q.evaluation_count.toNat / Q.sampling_blocks.length),
         ObjectEvent.samplingBlocks Q.sampling_blocks]) ∧
      Q.sampling_blocks.length * (Q.evaluation_count.toNat / Q.sampling_blocks.length)
        ≤ Q.evaluation_count.toNat ∧
      Q.evaluation_count.toNat
        < Q.sampling_blocks.length *
          (Q.evaluation_count.toNat / Q.sampling_blocks.length + 1)) := by
  constructor
  · obtain ⟨s0, om, target, -, -, -, ht, hev, -⟩ := Initialize_inv E P T T1 samples im K nj ev hrobot
    obtain ⟨hne, heq, hle, hlt⟩ := sampleTarget_eq _ _ hcount.1 hcount.2 target ht
    subst heq
    refine ⟨hne, ?_, hle, hlt⟩
    rw [hev]
    rfl
  · obtain ⟨om, target, S, -, ht, -, -, -, hev⟩ :=
      object_Initialize_inv F Q U U1 seeds im' K' state_is_partial ev' hobject
    obtain ⟨hne, heq, hle, hlt⟩ := sampleTarget_eq _ _ hcount'.1 hcount'.2 target ht
    subst heq
    refine ⟨hne, ⟨resampleCounts S.events, ?_⟩, ⟨S.events, hev⟩, hle, hlt⟩
    rw [hev, resampleCounts_append]
    rfl

/-- Witness of C17: the demo robot tracker (count 100, one block) and the demo object
tracker (count 4, two blocks). -/
theorem final_resample_target_witness :
    ∃ r r', demoRobot.Initialize demoRobotEnv demoRobotParams [[Scalar.val 0]] (demoImage 0)
        demoK 1 = Except.ok r ∧
      demoObjectTracker.Initialize demoObjectEnv demoObjectParams [demoSeed] (demoImage 0)
        demoK true = Except.ok r' ∧
      robotResampleCounts r.2
        = [demoRobot.evaluation_count_.toNat / demoRobotParams.sampling_blocks.length] ∧
      ∃ earlier, resampleCounts r'.2 = earlier ++
        [demoObjectParams.evaluation_count.toNat / demoObjectParams.sampling_blocks.length] :=
  let ⟨r, h⟩ := demoRobot_Initialize
  let ⟨r', h'⟩ := demoObject_Initialize
  let ⟨⟨_, a, _⟩, ⟨_, b, _⟩⟩ := final_resample_target demoRobotEnv demoRobotParams demoRobot
    r.1 _ _ demoK 1 r.2 demoObjectEnv demoObjectParams demoObjectTracker r'.1 [demoSeed]
    (demoImage 0) demoK true r'.2 h (by decide) h' (by decide)
  ⟨r, r', h, h', a, b⟩

theorem demoObject_Initialize_full :
    ∃ r, demoObjectTracker.Initialize demoObjectEnv demoObjectParams [demoSeed ++ demoSeed]
      (demoImage 0) demoK false = Except.ok r :=
  ⟨_, rfl⟩

/-- C18: when `MultiObjectTracker::Initialize` returns, for either value of
`state_is_partial`, it has first installed the block of all dimensions and its last call on
the filter installs the configured partition `sampling_blocks`, which is therefore the one
active in the filter it leaves. -/
theorem steady_state_blocks_restored {σ : Type} (E : ObjectEnv σ) (P : ObjectParams)
    (T T1 : MultiObjectTracker σ) (seeds : List StateVec) (im : Image) (K : Matrix3d)
    ( state_is_partial : Bool) (ev : List ObjectEvent)
    (hinit : T.Initialize E P seeds im K state_is_partial = Except.ok (T1, ev)) :
    activeBlocks none ev = some P.sampling_blocks ∧
    (∃ f, T1.filter_ = some (E.SamplingBlocks f P.sampling_blocks)) ∧
    (∃ before, ev = before ++ [ObjectEvent.samplingBlocks P.sampling_blocks]) ∧
    (∃ om rest, ev = startEvents P T.object_names_.length om ++ rest) := by
  obtain ⟨om, target, S, -, -, hp, hf, hT, hev⟩ :=
    object_Initialize_inv E P T T1 seeds im K state_is_partial ev hinit
  refine ⟨?_, ⟨_, by rw [hT]⟩, ⟨S.events ++ [ObjectEvent.resampleCall target], ?_⟩, ?_⟩
  · rw [hev, activeBlocks_append]
    rfl
  · rw [hev]; simp
  · cases state_is_partial
    · have hS := hf rfl
      exact ⟨om, _, by rw [hev, hS, List.append_assoc]⟩
    · obtain ⟨pops, -, hex, -⟩ := stagedLoop_shape E _ _ seeds _ _ S (hp rfl)
      exact ⟨om, _, by rw [hev, hex, List.append_assoc]⟩

/-- Witness of C18: the demo tracker in the staged branch. -/
theorem steady_state_blocks_restored_witness :
    ∃ r, demoObjectTracker.Initialize demoObjectEnv demoObjectParams [demoSeed] (demoImage 0)
        demoK true = Except.ok r ∧
      activeBlocks none r.2 = some demoObjectParams.sampling_blocks :=
  let ⟨r, h⟩ := demoObject_Initialize
  ⟨r, h, (steady_state_blocks_restored demoObjectEnv demoObjectParams demoObjectTracker r.1 _
    _ _ true r.2 h).1⟩

/-- C19: with `state_is_partial` false `MultiObjectTracker::Initialize`, when it returns,
has made exactly these calls: construction, the block of all dimensions, `Samples` with the
seed list itself, one `Filter`, the final `Resample`, the configured blocks; no default
state is built and no stage is run. -/
theorem full_state_initialization {σ : Type} (E : ObjectEnv σ) (P : ObjectParams)
    (T T1 : MultiObjectTracker σ) (seeds : List StateVec) (im : Image) (K : Matrix3d)
    (ev : List ObjectEvent)
    (hinit : T.Initialize E P seeds im K false = Except.ok (T1, ev)) :
    ∃ om target,
      sampleTarget P.evaluation_count P.sampling_blocks = Except.ok target ∧
      ev = startEvents P T.object_names_.length om ++
        [ObjectEvent.samples seeds,
         ObjectEvent.filterCall (E.Ros2Eigen im T.downsampling_factor_)
          (zeroVec (T.object_names_.length * 6)),
         ObjectEvent.resampleCall target,
         ObjectEvent.samplingBlocks P.sampling_blocks] ∧
      populationsSet ev = [seeds] ∧
      objectFilterCalls ev =
        [(E.Ros2Eigen im T.downsampling_factor_, zeroVec (T.object_names_.length * 6))] ∧
      resampleCounts ev = [target] ∧
      T1.filter_ = some (E.SamplingBlocks (E.Resample (E.Filter
        (E.Samples (initialFilter E P T.object_names_.length om) seeds)
        (E.Ros2Eigen im T.downsampling_factor_) (zeroVec (T.object_names_.length * 6)))
        target) P.sampling_blocks) := by
  obtain ⟨om, target, S, -, ht, -, hf, hT, hev⟩ :=
    object_Initialize_inv E P T T1 seeds im K false ev hinit
  have hS := hf rfl
  rw [fullPopulation_eq] at hS
  subst hS
  have hev' : ev = startEvents P T.object_names_.length om ++
      [ObjectEvent.samples seeds,
       ObjectEvent.filterCall (E.Ros2Eigen im T.downsampling_factor_)
        (zeroVec (T.object_names_.length * 6)),
       ObjectEvent.resampleCall target,
       ObjectEvent.samplingBlocks P.sampling_blocks] := by
    rw [hev]; simp
  refine ⟨om, target, ht, hev', ?_, ?_, ?_, by rw [hT]⟩
  · rw [hev']; rfl
  · rw [hev']; rfl
  · rw [hev']; rfl

/-- Witness of C19: the demo tracker given one seed that is a full state of two bodies. -/
theorem full_state_initialization_witness :
    ∃ r, demoObjectTracker.Initialize demoObjectEnv demoObjectParams [demoSeed ++ demoSeed]
        (demoImage 0) demoK false = Except.ok r ∧
      populationsSet r.2 = [[demoSeed ++ demoSeed]] :=
  let ⟨r, h⟩ := demoObject_Initialize_full
  let ⟨_, _, _, _, hp, _⟩ := full_state_initialization demoObjectEnv demoObjectParams
    demoObjectTracker r.1 [demoSeed ++ demoSeed] (demoImage 0) demoK r.2 h
  ⟨r, h, hp⟩

/-! ## Seeds of the wrong dimension -/

theorem setBody_ok_length {BS : Nat} {s s' x : StateVec} {b : Nat}
    (h : setBody BS s b x = Except.ok s') : x.length = BS := by
  unfold setBody at h
  split at h
  · next hc => exact hc.1
  · cases h

theorem setBody_error {BS : Nat} {s x : StateVec} {b : Nat} {e : Failure}
    (h : setBody BS s b x = Except.error e) : e = Failure.undefined := by
  unfold setBody at h
  split at h
  · cases h
  · cases h; rfl

theorem overwriteOne_error {BS b : Nat} {seeds samples : List StateVec} {k : Nat} {e : Failure}
    (h : overwriteOne BS b seeds samples k = Except.error e) : e = Failure.undefined := by
  unfold overwriteOne at h
  split at h
  · next s seed hs hseed =>
    split at h
    · cases h
    · next e' hset => cases h; exact setBody_error hset
  · cases h; rfl

theorem overwrite_fold_error (BS b : Nat) (seeds : List StateVec) :
    ∀ (l : List Nat) (pop : List StateVec) (e : Failure),
      l.foldlM (overwriteOne BS b seeds) pop = Except.error e → e = Failure.undefined := by
  intro l
  induction l with
  | nil => intro pop e h; cases h
  | cons k l ih =>
    intro pop e h
    rw [List.foldlM_cons] at h
    cases ho : overwriteOne BS b seeds pop k with
    | error e' =>
      simp only [ho, bind, Except.bind] at h
      cases h
      exact overwriteOne_error ho
    | ok mid =>
      simp only [ho, bind, Except.bind] at h
      exact ih mid e h

/-- The overwrite of a stage runs through only if every sample has a seed of the size of one
body's block. -/
theorem overwriteBody_ok_seeds {BS b : Nat} {seeds pop pop' : List StateVec}
    (h : overwriteBody BS b seeds pop = Except.ok pop') :
    ∀ k, k < pop.length → ∃ seed, seeds[k]? = some seed ∧ seed.length = BS := by
  intro k hk
  obtain ⟨-, hlow, -⟩ := overwrite_fold BS b seeds pop pop.length pop' h
  obtain ⟨s, seed, s', -, a2, a3, -⟩ := hlow k hk
  exact ⟨seed, a2, setBody_ok_length a3⟩

/-- With a seed of the wrong size in reach, the overwrite of a stage is undefined. -/
theorem overwriteBody_bad_seed {BS b : Nat} {seeds pop : List StateVec} {k : Nat}
    {seed : StateVec} (hk : k < pop.length) (hseed : seeds[k]? = some seed)
    (hbad : seed.length ≠ BS) :
    overwriteBody BS b seeds pop = Except.error Failure.undefined := by
  cases h : overwriteBody BS b seeds pop with
  | ok pop' =>
    obtain ⟨seed', h1, h2⟩ := overwriteBody_ok_seeds h k hk
    rw [hseed] at h1
    cases h1
    exact absurd h2 hbad
  | error e =>
    rw [overwrite_fold_error BS b seeds _ pop e h]

theorem stagedLoop_range_succ {σ : Type} (E : ObjectEnv σ) (image : Observation) (count : Nat)
    (seeds : List StateVec) (n : Nat) (S : Staging σ) :
    stagedLoop E image count seeds (List.range (n + 1)) S =
      match stage E image count seeds S 0 with
      | Except.ok S1 =>
        stagedLoop E image count seeds ((List.range n).map Nat.succ) S1
      | Except.error e => Except.error e := by
  unfold stagedLoop
  rw [List.range_succ_eq_map, List.foldlM_cons]
  cases stage E image count seeds S 0 <;> rfl

theorem stage_bad_seed {σ : Type} (E : ObjectEnv σ) (image : Observation) (count : Nat)
    (seeds : List StateVec) (S : Staging σ) (b k : Nat) (seed : StateVec)
    (hk : k < S.multi_body_samples.length) (hseed : seeds[k]? = some seed)
    (hbad : seed.length ≠ E.BODY_SIZE) :
    stage E image count seeds S b = Except.error Failure.undefined := by
  unfold stage
  rw [overwriteBody_bad_seed hk hseed hbad]
  rfl

/-- C20 (as stated) fails: given the seeds `[demoSeed, [0]]`, the second of dimension 1, the
demo tracker does not end in a configuration error but in the undefined behaviour of a
block assignment, and by then the overwrite of sample 0 has been carried out. -/
theorem seed_dimension_counterexample :
    (¬ ∃ code, demoObjectTracker.Initialize demoObjectEnv demoObjectParams
        [demoSeed, [Scalar.val 0]] (demoImage 0) demoK true
          = Except.error (Failure.exit code)) ∧
    ∃ pop1, overwriteOne 12 0 [demoSeed, [Scalar.val 0]]
        (initialPopulation 12 2 [demoSeed, [Scalar.val 0]]) 0 = Except.ok pop1 ∧
      pop1 ≠ initialPopulation 12 2 [demoSeed, [Scalar.val 0]] ∧
      overwriteOne 12 0 [demoSeed, [Scalar.val 0]] pop1 1
        = Except.error Failure.undefined := by
  have hI : demoObjectTracker.Initialize demoObjectEnv demoObjectParams
      [demoSeed, [Scalar.val 0]] (demoImage 0) demoK true
        = Except.error Failure.undefined := rfl
  refine ⟨?_, _, rfl, ?_, rfl⟩
  · rintro ⟨code, h⟩
    rw [hI] at h
    cases h
  · intro heq
    have h2 := congrArg (fun p : List StateVec => (p[0]?).bind fun s => s[2]?) heq
    have h3 : some (Scalar.val 1) = some (Scalar.val (3 / 2)) := h2
    have h4 : (1 : ℚ) = 3 / 2 := by
      injection h3 with h5
      injection h5
    norm_num at h4

/-! ## Zero depth -/

theorem jointCovariance_fold (n : Nat) (joint_sigmas : List Scalar) :
    ∀ k, k ≤ n → ∀ i,
      ((List.range k).foldl
        (fun m i =>
          m.set i (((m[i]?).getD []).set i (((joint_sigmas[i]?).getD Scalar.nan).mul
            ((joint_sigmas[i]?).getD Scalar.nan))))
        (List.replicate n (List.replicate n (Scalar.val 0))))[i]? =
      if i < k then
        some ((List.replicate n (Scalar.val 0)).set i
          (((joint_sigmas[i]?).getD Scalar.nan).mul ((joint_sigmas[i]?).getD Scalar.nan)))
      else if i < n then some (List.replicate n (Scalar.val 0)) else none := by
  intro k
  induction k with
  | zero =>
    intro _ i
    simp only [List.range_zero, List.foldl_nil, Nat.not_lt_zero, if_false]
    by_cases hi : i < n
    · simp [hi, List.getElem?_replicate]
    · simp [hi, List.getElem?_replicate]
  | succ k ih =>
    intro hk i
    have ih' := ih (by omega)
    rw [List.range_succ, List.foldl_append]
    simp only [List.foldl_cons, List.foldl_nil]
    have hkk := ih' k
    have hkn : k < n := by omega
    simp only [Nat.lt_irrefl, if_false, hkn, if_true] at hkk
    have hlen : k < ((List.range k).foldl
        (fun m i =>
          m.set i (((m[i]?).getD []).set i (((joint_sigmas[i]?).getD Scalar.nan).mul
            ((joint_sigmas[i]?).getD Scalar.nan))))
        (List.replicate n (List.replicate n (Scalar.val 0)))).length := by
      by_contra hc
      rw [List.getElem?_eq_none (by omega)] at hkk
      cases hkk
    rw [List.getElem?_set, hkk]
    by_cases hik : k = i
    · subst hik
      simp [hlen]
    · simp only [hik, if_false]
      rw [ih' i]
      by_cases h1 : i < k
      · have h2 : i < k + 1 := by omega
        simp [h1, h2]
      · have h2 : ¬ i < k + 1 := by omega
        simp [h1, h2]

theorem jointCovariance_getElem? (n : Nat) (joint_sigmas : List Scalar) (i : Nat) :
    (jointCovariance n joint_sigmas)[i]? =
      if i < n then
        some ((List.replicate n (Scalar.val 0)).set i
          (((joint_sigmas[i]?).getD Scalar.nan).mul ((joint_sigmas[i]?).getD Scalar.nan)))
      else none := by
  unfold jointCovariance
  rw [jointCovariance_fold n joint_sigmas n (Nat.le_refl n) i]
  by_cases hi : i < n <;> simp [hi]

theorem jointCovariance_entry (n : Nat) (joint_sigmas : List Scalar) (i j : Nat) :
    entry (jointCovariance n joint_sigmas) i j =
      if i < n ∧ j < n then
        some (if i = j then
          ((joint_sigmas[i]?).getD Scalar.nan).mul ((joint_sigmas[i]?).getD Scalar.nan)
        else Scalar.val 0)
      else none := by
  unfold entry
  rw [jointCovariance_getElem?]
  by_cases hi : i < n
  · simp only [hi, if_true, Option.some_bind, true_and]
    rw [List.getElem?_set]
    by_cases hij : i = j
    · subst hij
      simp [hi]
    · by_cases hj : j < n
      · simp [hij, hj, List.getElem?_replicate]
      · simp [hij, hj, List.getElem?_replicate]
  · simp [hi]

theorem jointCovariance_length (n : Nat) (joint_sigmas : List Scalar) :
    (jointCovariance n joint_sigmas).length = n := by
  have h1 := jointCovariance_getElem? n joint_sigmas n
  have h2 : ∀ i, i < n → i < (jointCovariance n joint_sigmas).length := by
    intro i hi
    by_contra hc
    have h3 := jointCovariance_getElem? n joint_sigmas i
    rw [List.getElem?_eq_none (by omega)] at h3
    simp [hi] at h3
  simp only [Nat.lt_irrefl, if_false] at h1
  have h4 : (jointCovariance n joint_sigmas).length ≤ n := by
    by_contra hc
    have h5 : n < (jointCovariance n joint_sigmas).length := by omega
    rw [List.getElem?_eq_getElem h5] at h1
    cases h1
  cases n with
  | zero => omega
  | succ m =>
    have := h2 m (by omega)
    omega

/-- C29: for a sigma vector of length `n`, the covariance `RobotTracker::Initialize` builds
and hands to the process model is an `n x n` matrix whose entry `(i, i)` is `joint_sigmas[i]`
squared and whose entries off the diagonal are 0; it is symmetric, and the diagonal entry of
a finite sigma is a non-negative number. -/
theorem joint_covariance_diagonal {σ : Type} (E : RobotEnv σ) (P : RobotParams)
    (T : RobotTracker σ) (samples : List StateVec) (im : Image) (K : Matrix3d) (n : Nat)
    (h : P.joint_sigmas.length = n) :
    (∀ T1 ev, T.Initialize E P samples im K n = Except.ok (T1, ev) →
      ∃ om target, T1.filter_ = some (E.Resample (E.Filter (E.Samples
        (E.create
          { dimension := n, damping := P.damping,
            joint_covariance := jointCovariance n P.joint_sigmas }
          om P.sampling_blocks P.max_kl_divergence) samples)
        (toMeters T.data_in_meters_ (E.Ros2Eigen im T.downsampling_factor_)) (Scalar.val 0)
        (zeroVec n)) target)) ∧
    (jointCovariance n P.joint_sigmas).length = n ∧
    (∀ row ∈ jointCovariance n P.joint_sigmas, row.length = n) ∧
    (∀ i j, i < n → j < n → ∃ sigma, P.joint_sigmas[i]? = some sigma ∧
      entry (jointCovariance n P.joint_sigmas) i j =
        some (if i = j then sigma.mul sigma else Scalar.val 0)) ∧
    (∀ i (s : ℚ), P.joint_sigmas[i]? = some (Scalar.val s) →
      entry (jointCovariance n P.joint_sigmas) i i = some (Scalar.val (s * s)) ∧ 0 ≤ s * s) ∧
    (∀ i j, entry (jointCovariance n P.joint_sigmas) i j
      = entry (jointCovariance n P.joint_sigmas) j i) := by
  refine ⟨?_, jointCovariance_length n P.joint_sigmas, ?_, ?_, ?_, ?_⟩
  · intro T1 ev hI
    obtain ⟨_, om, target, -, -, -, -, -, hfil⟩ := Initialize_inv E P T T1 samples im K n ev hI
    exact ⟨om, target, hfil⟩
  · intro row hrow
    obtain ⟨i, hi⟩ := List.mem_iff_getElem?.1 hrow
    rw [jointCovariance_getElem?] at hi
    by_cases hin : i < n
    · simp only [hin, if_true, Option.some.injEq] at hi
      rw [← hi]
      simp
    · simp [hin] at hi
  · intro i j hi hj
    have hs : i < P.joint_sigmas.length := by omega
    refine ⟨P.joint_sigmas[i], List.getElem?_eq_getElem hs, ?_⟩
    rw [jointCovariance_entry]
    simp [hi, hj, List.getElem?_eq_getElem hs]
  · intro i s hs
    have hi : i < n := by
      rw [← h]
      by_contra hc
      rw [List.getElem?_eq_none (by omega)] at hs
      cases hs
    refine ⟨?_, mul_self_nonneg s⟩
    rw [jointCovariance_entry]
    simp [hi, hs, Scalar.mul]
  · intro i j
    rw [jointCovariance_entry, jointCovariance_entry]
    by_cases hij : i = j
    · subst hij; rfl
    · have hji : ¬ j = i := fun e => hij e.symm
      simp only [hij, hji, if_false]
      by_cases h1 : i < n ∧ j < n
      · have h2 : j < n ∧ i < n := ⟨h1.2, h1.1⟩
        simp [h1, h2]
      · have h2 : ¬ (j < n ∧ i < n) := fun e => h1 ⟨e.2, e.1⟩
        simp [h1, h2]

/-- Witness of C29: the sigmas 1 and 2 of a robot with two joints give the matrix with
diagonal 1 and 4. -/
theorem joint_covariance_diagonal_witness :
    entry (jointCovariance 2 demoRobotParamsLong.joint_sigmas) 0 0
        = some (Scalar.val (1 * 1)) ∧
      entry (jointCovariance 2 demoRobotParamsLong.joint_sigmas) 1 1
        = some (Scalar.val (2 * 2)) ∧
      entry (jointCovariance 2 demoRobotParamsLong.joint_sigmas) 0 1
        = entry (jointCovariance 2 demoRobotParamsLong.joint_sigmas) 1 0 :=
  let t := joint_covariance_diagonal demoRobotEnv demoRobotParamsLong demoRobot
    [[Scalar.val 0, Scalar.val 0]] (demoImage 0) demoK 2 rfl
  ⟨(t.2.2.2.2.1 0 1 rfl).1, (t.2.2.2.2.1 1 2 rfl).1, t.2.2.2.2.2 0 1⟩

/-! ## The slots of the cloud buffer -/

theorem slotOf_lt {width height v u : Nat} (hv : v < height) (hu : u < width) :
    slotOf width v u < width * height := by
  have := slot_lt hv hu
  unfold slotOf
  omega

theorem slotOf_surj {width height n : Nat} (h : n < width * height) :
    ∃ v u, v < height ∧ u < width ∧ slotOf width v u = n := by
  have hw : 0 < width := by
    rcases Nat.eq_zero_or_pos width with h0 | h0
    · rw [h0, Nat.zero_mul] at h; omega
    · exact h0
  refine ⟨n / width, n % width, ?_, Nat.mod_lt _ hw, ?_⟩
  · exact Nat.div_lt_of_lt_mul h
  · unfold slotOf
    rw [Nat.mul_comm]
    exact Nat.div_add_mod n width

theorem slots_perm (image : Observation) :
    List.Perm ((pixelOrder image).map (fun p => slotOf image.cols p.2 p.1))
      (List.range (image.cols * image.rows)) := by
  have hnd : (pixelOrder image).Nodup :=
    List.Nodup.product (List.nodup_range _) (List.nodup_range _)
  have hnm : ((pixelOrder image).map (fun p => slotOf image.cols p.2 p.1)).Nodup := by
    refine List.Nodup.map_on ?_ hnd
    intro p hp q hq hpq
    obtain ⟨u, v⟩ := p
    obtain ⟨u', v'⟩ := q
    have h1 := (mem_pixelOrder image u v).1 hp
    have h2 := (mem_pixelOrder image u' v').1 hq
    have := slot_inj h1.1 h2.1 hpq
    simp only [Prod.mk.injEq]
    exact ⟨this.2, this.1⟩
  refine (List.perm_ext_iff_of_nodup hnm (List.nodup_range _)).2 ?_
  intro n
  simp only [List.mem_map, List.mem_range, Prod.exists]
  constructor
  · rintro ⟨u, v, hp, rfl⟩
    have h1 := (mem_pixelOrder image u v).1 hp
    exact slotOf_lt h1.2 h1.1
  · intro hn
    obtain ⟨v, u, hv, hu, e⟩ := slotOf_surj hn
    exact ⟨u, v, (mem_pixelOrder image u v).2 ⟨hu, hv⟩, e⟩

/-! ## Steady state -/

theorem partitionsInstalled_append (a b : List ObjectEvent) :
    partitionsInstalled (a ++ b) = partitionsInstalled a ++ partitionsInstalled b := by
  induction a with
  | nil => rfl
  | cons e es ih => cases e <;> simp [partitionsInstalled, ih]

theorem partitionsInstalled_stageEvents (image : Observation) (count : Nat) :
    ∀ pops, partitionsInstalled (stageEvents image count pops) = [] := by
  intro pops
  induction pops with
  | nil => rfl
  | cons p ps ih => simp [stageEvents, partitionsInstalled, ih]

/-- The partitions `MultiObjectTracker::Initialize` hands to the filter: the configured one
to the constructor, the single block for the staging, the configured one at the end. -/
theorem object_Initialize_partitions {σ : Type} (E : ObjectEnv σ) (P : ObjectParams)
    (T T1 : MultiObjectTracker σ) (seeds : List StateVec) (im : Image) (K : Matrix3d)
    ( state_is_partial : Bool) (ev : List ObjectEvent)
    (h : T.Initialize E P seeds im K state_is_partial = Except.ok (T1, ev)) :
    partitionsInstalled ev =
        [P.sampling_blocks, dependentSamplingBlocks T.object_names_.length,
          P.sampling_blocks] ∧
      activeBlocks none ev = some P.sampling_blocks := by
  obtain ⟨om, target, S, -, -, hp, hf, -, hev⟩ :=
    object_Initialize_inv E P T T1 seeds im K state_is_partial ev h
  constructor
  · cases state_is_partial
    · rw [hev, hf rfl]
      rfl
    · obtain ⟨pops, -, hex, -⟩ := stagedLoop_shape E _ _ seeds _ _ S (hp rfl)
      rw [hev, hex, partitionsInstalled_append, partitionsInstalled_append,
        partitionsInstalled_stageEvents]
      rfl
  · rw [hev, activeBlocks_append]
    rfl

theorem robotObservationModel_cases (P : RobotParams) (cam : Matrix3d) (image : Observation)
    (n : Nat) :
    (shaderMissing P = true ∧
        robotObservationModel P cam image n = Except.error (Failure.exit (-1))) ∨
      (shaderMissing P = false ∧ ∃ om, robotObservationModel P cam image n = Except.ok om) := by
  unfold robotObservationModel shaderMissing
  cases P.use_gpu <;> cases P.BUILD_GPU <;> cases P.fragment_shader_exists <;>
    cases P.vertex_shader_exists <;> simp

theorem InitializeTrace_snd {σ : Type} (E : RobotEnv σ) (P : RobotParams) (T : RobotTracker σ)
    (samples : List StateVec) (im : Image) (K : Matrix3d) (nj : Nat) :
    (T.InitializeTrace E P samples im K nj).2 = T.Initialize E P samples im K nj := by
  unfold RobotTracker.InitializeTrace RobotTracker.Initialize
  cases hs : samples[0]? with
  | none => simp [hs, bind, Except.bind]
  | some s0 =>
    cases ho : robotObservationModel P (K.topLeftCornerDiv (Scalar.ofInt T.downsampling_factor_))
        (toMeters T.data_in_meters_ (E.Ros2Eigen im T.downsampling_factor_)) samples.length with
    | error e => simp [hs, ho, bind, Except.bind]
    | ok om =>
      by_cases hn : nj = P.joint_sigmas.length
      · cases ht : sampleTarget T.evaluation_count_ P.sampling_blocks with
        | error e => simp [hs, ho, hn, ht, bind, Except.bind]
        | ok target => simp [hs, ho, hn, ht, bind, Except.bind, pure, Except.pure]
      · simp [hs, ho, hn, bind, Except.bind]

/-- The outcome of `RobotTracker::Initialize` and the stages it completed, case by case. -/
theorem InitializeTrace_cases {σ : Type} (E : RobotEnv σ) (P : RobotParams) (T : RobotTracker σ)
    (samples : List StateVec) (im : Image) (K : Matrix3d) (nj : Nat) :
    (samples = [] ∧ T.InitializeTrace E P samples im K nj = ([], Except.error Failure.undefined))
    ∨ (samples ≠ [] ∧ shaderMissing P = true ∧
        T.InitializeTrace E P samples im K nj
          = ([InitStep.renderFirst], Except.error (Failure.exit (-1))))
    ∨ (samples ≠ [] ∧ shaderMissing P = false ∧ nj ≠ P.joint_sigmas.length ∧
        T.InitializeTrace E P samples im K nj
          = ([InitStep.renderFirst, InitStep.observationModel],
              Except.error (Failure.exit (-1))))
    ∨ (samples ≠ [] ∧ shaderMissing P = false ∧ nj = P.joint_sigmas.length ∧
        P.sampling_blocks = [] ∧
        T.InitializeTrace E P samples im K nj
          = ([InitStep.renderFirst, InitStep.observationModel, InitStep.processModel,
              InitStep.filterConstructed, InitStep.samplesSet, InitStep.samplesEvaluated],
              Except.error Failure.undefined))
    ∨ (samples ≠ [] ∧ shaderMissing P = false ∧ nj = P.joint_sigmas.length ∧
        P.sampling_blocks ≠ [] ∧
        ∃ r, T.InitializeTrace E P samples im K nj
          = ([InitStep.renderFirst, InitStep.observationModel, InitStep.processModel,
              InitStep.filterConstructed, InitStep.samplesSet, InitStep.samplesEvaluated,
              InitStep.resampled], Except.ok r)) := by
  unfold RobotTracker.InitializeTrace
  cases samples with
  | nil => left; simp
  | cons s0 rest =>
    right
    have hne : s0 :: rest ≠ [] := List.cons_ne_nil _ _
    rcases robotObservationModel_cases P (K.topLeftCornerDiv (Scalar.ofInt T.downsampling_factor_))
        (toMeters T.data_in_meters_ (E.Ros2Eigen im T.downsampling_factor_))
        (rest.length + 1) with ⟨hm, ho⟩ | ⟨hm, om, ho⟩
    · left
      exact ⟨hne, hm, by simp [ho]⟩
    · right
      by_cases hn : nj = P.joint_sigmas.length
      · right
        cases hb : P.sampling_blocks with
        | nil =>
          left
          refine ⟨hne, hm, hn, rfl, ?_⟩
          simp [ho, hn, sampleTarget, hb]
        | cons b bs =>
          right
          refine ⟨hne, hm, hn, List.cons_ne_nil _ _, ?_⟩
          simp [ho, hn, sampleTarget, hb]
      · left
        exact ⟨hne, hm, hn, by simp [ho, hn]⟩

/-- C21 (counterexample): with a sigma vector whose length equals the joint count,
`RobotTracker::Initialize` still exits with code -1 when the GPU model is requested in a
build with `BUILD_GPU` and the shader files are missing. -/
theorem initialize_abort_counterexample :
    demoRobot.Initialize demoRobotEnv demoRobotParamsGpu [[Scalar.val 0]] (demoImage 0) demoK 1
        = Except.error (Failure.exit (-1)) ∧
      demoRobotParamsGpu.joint_sigmas.length = 1 :=
  ⟨rfl, rfl⟩

/-- C21 (amended): `RobotTracker::Initialize` exits, always with code -1, exactly when it
was given at least one sample and either the GPU model is requested in a build with
`BUILD_GPU` while a shader file is missing, or the length of `joint_sigmas` differs from
the joint count.  Whenever it exits, no process model and no filter has been constructed and
no sample has been set or evaluated; on the sigma exit the first sample has been rendered
and the observation model built.  When it returns, the joint count equals the length of
`joint_sigmas` and the covariance is built from the whole vector. -/
theorem initialize_abort_conditions {σ : Type} (E : RobotEnv σ) (P : RobotParams)
    (T : RobotTracker σ) (samples : List StateVec) (im : Image) (K : Matrix3d) (nj : Nat) :
    (T.InitializeTrace E P samples im K nj).2 = T.Initialize E P samples im K nj ∧
    (∀ c, T.Initialize E P samples im K nj = Except.error (Failure.exit c) ↔
      c = -1 ∧ samples ≠ [] ∧ (shaderMissing P = true ∨ nj ≠ P.joint_sigmas.length)) ∧
    (∀ c, T.Initialize E P samples im K nj = Except.error (Failure.exit c) →
      InitStep.processModel ∉ (T.InitializeTrace E P samples im K nj).1 ∧
      InitStep.filterConstructed ∉ (T.InitializeTrace E P samples im K nj).1 ∧
      InitStep.samplesSet ∉ (T.InitializeTrace E P samples im K nj).1 ∧
      InitStep.samplesEvaluated ∉ (T.InitializeTrace E P samples im K nj).1) ∧
    (samples ≠ [] → shaderMissing P = false → nj ≠ P.joint_sigmas.length →
      T.InitializeTrace E P samples im K nj
        = ([InitStep.renderFirst, InitStep.observationModel],
            Except.error (Failure.exit (-1)))) ∧
    (∀ T1 ev, T.Initialize E P samples im K nj = Except.ok (T1, ev) →
      nj = P.joint_sigmas.length ∧
      ∃ om target, T1.filter_ = some (E.Resample (E.Filter (E.Samples
        (E.create
          { dimension := P.joint_sigmas.length, damping := P.damping,
            joint_covariance := jointCovariance P.joint_sigmas.length P.joint_sigmas }
          om P.sampling_blocks P.max_kl_divergence) samples)
        (toMeters T.data_in_meters_ (E.Ros2Eigen im T.downsampling_factor_)) (Scalar.val 0)
        (zeroVec P.joint_sigmas.length)) target)) := by
  have hsnd := InitializeTrace_snd E P T samples im K nj
  refine ⟨hsnd, ?_, ?_, ?_, ?_⟩
  · intro c
    rw [← hsnd]
    rcases InitializeTrace_cases E P T samples im K nj with
      ⟨h1, ht⟩ | ⟨h1, h2, ht⟩ | ⟨h1, h2, h3, ht⟩ | ⟨h1, h2, h3, h4, ht⟩ | ⟨h1, h2, h3, h4, r, ht⟩
    · rw [ht]; simp [h1]
    · rw [ht]; simp [h1, h2, eq_comm]
    · rw [ht]; simp [h1, h2, h3, eq_comm]
    · rw [ht]; simp [h1, h2, h3]
    · rw [ht]; simp [h1, h2, h3]
  · intro c hc
    rw [← hsnd] at hc
    rcases InitializeTrace_cases E P T samples im K nj with
      ⟨h1, ht⟩ | ⟨h1, h2, ht⟩ | ⟨h1, h2, h3, ht⟩ | ⟨h1, h2, h3, h4, ht⟩ | ⟨h1, h2, h3, h4, r, ht⟩
    · rw [ht] at hc; cases hc
    · rw [ht]; simp
    · rw [ht]; simp
    · rw [ht] at hc; cases hc
    · rw [ht] at hc; cases hc
  · intro h1 h2 h3
    rcases InitializeTrace_cases E P T samples im K nj with
      ⟨g1, _⟩ | ⟨_, g2, _⟩ | ⟨_, _, _, ht⟩ | ⟨_, _, g3, _⟩ | ⟨_, _, g3, _⟩
    · exact absurd g1 h1
    · rw [h2] at g2; cases g2
    · exact ht
    · exact absurd g3 h3
    · exact absurd g3 h3
  · intro T1 ev hI
    obtain ⟨_, om, target, -, -, hn, -, -, hfil⟩ := Initialize_inv E P T T1 samples im K nj ev hI
    refine ⟨hn, om, target, ?_⟩
    rw [hfil, hn]

/-- Witness of C21 (amended): a single joint with two sigmas configured. -/
theorem initialize_abort_conditions_witness :
    demoRobot.InitializeTrace demoRobotEnv demoRobotParamsLong [[Scalar.val 0]] (demoImage 0)
        demoK 1
      = ([InitStep.renderFirst, InitStep.observationModel],
          Except.error (Failure.exit (-1))) :=
  (initialize_abort_conditions demoRobotEnv demoRobotParamsLong demoRobot [[Scalar.val 0]]
    (demoImage 0) demoK 1).2.2.2.1 (by simp) rfl (by decide)

/-! ## Sampling blocks are not validated -/

theorem dependentSamplingBlocks_isPartition (count : Nat) :
    IsPartition (dependentSamplingBlocks count) (count * 6) := by
  rw [dependentSamplingBlocks_eq]
  refine ⟨List.pairwise_singleton _ _, ?_, ?_⟩
  · intro block hb i hi
    rw [List.mem_singleton] at hb
    subst hb
    exact List.mem_range.1 hi
  · intro i hi
    exact ⟨_, List.mem_singleton.2 rfl, hi⟩

/-- C22 (counterexample): the object tracker configured with the blocks `[[0, 1], [1, 12]]`,
which overlap, leave indices out and name an index outside `[0, 12)`, initializes without
complaint, hands these blocks to the filter constructor and leaves them active. -/
theorem partition_unchecked_counterexample :
    ¬ IsPartition demoObjectParamsBad.sampling_blocks (2 * 6) ∧
      ∃ r, demoObjectTracker.Initialize demoObjectEnv demoObjectParamsBad [demoSeed]
          (demoImage 0) demoK true = Except.ok r ∧
        partitionsInstalled r.2 =
          [[[0, 1], [1, 12]], dependentSamplingBlocks 2, [[0, 1], [1, 12]]] ∧
        activeBlocks none r.2 = some [[0, 1], [1, 12]] :=
  ⟨by decide, _, rfl, rfl, rfl⟩

/-- C22 (amended): the trackers install partitions without checking them.  Whenever
`MultiObjectTracker::Initialize` returns, it has handed the configured blocks unchanged to
the filter constructor, then the single staging block, then the configured blocks again,
which are the active ones afterwards; whenever `RobotTracker::Initialize` returns, it has
constructed the filter with the configured blocks unchanged.  Only the staging block, built
by the tracker itself, is guaranteed to be a partition, of `[0, 6 N)`. -/
theorem partition_passed_unchecked {σ τ : Type} (E : ObjectEnv σ) (P : ObjectParams)
    (T T1 : MultiObjectTracker σ) (seeds : List StateVec) (im : Image) (K : Matrix3d)
    ( state_is_partial : Bool) (ev : List ObjectEvent)
    (hinit : T.Initialize E P seeds im K state_is_partial = Except.ok (T1, ev))
    (E' : RobotEnv τ) (P' : RobotParams) (R : RobotTracker τ) (samples : List StateVec)
    (im' : Image) (K' : Matrix3d) (nj : Nat) :
    IsPartition (dependentSamplingBlocks T.object_names_.length) (T.object_names_.length * 6) ∧
    partitionsInstalled ev =
      [P.sampling_blocks, dependentSamplingBlocks T.object_names_.length,
        P.sampling_blocks] ∧
    activeBlocks none ev = some P.sampling_blocks ∧
    (∃ f, T1.filter_ = some (E.SamplingBlocks f P.sampling_blocks)) ∧
    (∀ R1 ev', R.Initialize E' P' samples im' K' nj = Except.ok (R1, ev') →
      ∃ process om target, R1.filter_ = some (E'.Resample (E'.Filter (E'.Samples
        (E'.create process om P'.sampling_blocks P'.max_kl_divergence) samples)
        (toMeters R.data_in_meters_ (E'.Ros2Eigen im' R.downsampling_factor_)) (Scalar.val 0)
        (zeroVec nj)) target)) := by
  obtain ⟨hparts, hact⟩ :=
    object_Initialize_partitions E P T T1 seeds im K state_is_partial ev hinit
  obtain ⟨om, target, S, -, -, -, -, hT, -⟩ :=
    object_Initialize_inv E P T T1 seeds im K state_is_partial ev hinit
  refine ⟨dependentSamplingBlocks_isPartition _, hparts, hact, ⟨_, by rw [hT]⟩, ?_⟩
  · intro R1 ev' hI
    obtain ⟨_, om', target', -, -, -, -, -, hfil⟩ :=
      Initialize_inv E' P' R R1 samples im' K' nj ev' hI
    exact ⟨_, om', target', hfil⟩

/-- Witness of C22 (amended): the two-object tracker with the overlapping blocks. -/
theorem partition_passed_unchecked_witness :
    ∃ r, demoObjectTracker.Initialize demoObjectEnv demoObjectParamsBad [demoSeed]
        (demoImage 0) demoK true = Except.ok r ∧
      activeBlocks none r.2 = some demoObjectParamsBad.sampling_blocks :=
  let h : demoObjectTracker.Initialize demoObjectEnv demoObjectParamsBad [demoSeed]
      (demoImage 0) demoK true = Except.ok _ := rfl
  let t := partition_passed_unchecked demoObjectEnv demoObjectParamsBad demoObjectTracker _
    [demoSeed] (demoImage 0) demoK true _ h demoRobotEnv
    { demoRobotParams with sampling_blocks := [[0], [0]] } demoRobot [[Scalar.val 0]]
    (demoImage 0) demoK 1
  ⟨_, h, t.2.2.1⟩

/-! ## The elapsed time after a second initialization -/

theorem objectObservationModel_cases (P : ObjectParams) (cam : Matrix3d) (image : Observation)
    (n : Nat) (dt : Scalar) :
    (objectShaderMissing P = true ∧
        objectObservationModel P cam image n dt = Except.error (Failure.exit (-1))) ∨
      (objectShaderMissing P = false ∧
        ∃ om, objectObservationModel P cam image n dt = Except.ok om) := by
  unfold objectObservationModel objectShaderMissing
  cases P.use_gpu <;> cases P.BUILD_GPU <;> cases P.fragment_shader_exists <;>
    cases P.vertex_shader_exists <;> simp

theorem stage_error {σ : Type} (E : ObjectEnv σ) (image : Observation) (count : Nat)
    (seeds : List StateVec) (S : Staging σ) (b : Nat) (e : Failure)
    (h : stage E image count seeds S b = Except.error e) : e = Failure.undefined := by
  unfold stage at h
  cases ho : overwriteBody E.BODY_SIZE b seeds S.multi_body_samples with
  | error e' =>
    simp only [ho, bind, Except.bind] at h
    cases h
    exact overwrite_fold_error E.BODY_SIZE b seeds _ _ _ ho
  | ok pop =>
    simp only [ho, bind, Except.bind, pure, Except.pure] at h
    cases h

theorem stagedLoop_error {σ : Type} (E : ObjectEnv σ) (image : Observation) (count : Nat)
    (seeds : List StateVec) :
    ∀ (bodies : List Nat) (S : Staging σ) (e : Failure),
      stagedLoop E image count seeds bodies S = Except.error e → e = Failure.undefined := by
  intro bodies
  induction bodies with
  | nil => intro S e h; cases h
  | cons b bs ih =>
    intro S e h
    unfold stagedLoop at h
    rw [List.foldlM_cons] at h
    cases hs : stage E image count seeds S b with
    | error e' =>
      simp only [hs, bind, Except.bind] at h
      cases h
      exact stage_error E image count seeds S b _ hs
    | ok S1 =>
      simp only [hs, bind, Except.bind] at h
      exact ih S1 e h

/-- The fatal exits of `MultiObjectTracker::Initialize` are those of its shader checks. -/
theorem object_Initialize_exit {σ : Type} (E : ObjectEnv σ) (P : ObjectParams)
    (T : MultiObjectTracker σ) (seeds : List StateVec) (im : Image) (K : Matrix3d)
    ( state_is_partial : Bool) (c : Int) :
    T.Initialize E P seeds im K state_is_partial = Except.error (Failure.exit c) ↔
      c = -1 ∧ objectShaderMissing P = true := by
  unfold MultiObjectTracker.Initialize
  rcases objectObservationModel_cases P
      (K.topLeftCornerDiv (Scalar.ofInt T.downsampling_factor_))
      (E.Ros2Eigen im T.downsampling_factor_) seeds.length (Scalar.val (33 / 1000)) with
    ⟨hm, ho⟩ | ⟨hm, om, ho⟩
  · simp [ho, hm, bind, Except.bind, eq_comm]
  · cases state_is_partial
    · cases ht : sampleTarget P.evaluation_count P.sampling_blocks with
      | error e =>
        have he : e = Failure.undefined := by
          unfold sampleTarget at ht
          split at ht
          · cases ht; rfl
          · cases ht
        simp [ho, hm, ht, he, bind, Except.bind, pure, Except.pure]
      | ok n => simp [ho, hm, ht, bind, Except.bind, pure, Except.pure]
    · simp only [ho, hm, bind, Except.bind, if_true, Bool.false_eq_true, and_false, iff_false]
      intro h
      split at h
      · next e hs =>
        cases h
        have := stagedLoop_error E _ _ seeds _ _ _ hs
        cases this
      · next S hs =>
        cases ht : sampleTarget P.evaluation_count P.sampling_blocks with
        | error e =>
          have he : e = Failure.undefined := by
            unfold sampleTarget at ht
            split at ht
            · cases ht; rfl
            · cases ht
          simp [ht, he, bind, Except.bind] at h
        | ok n => simp [ht, bind, Except.bind, pure, Except.pure] at h

theorem setPosition_length (BS : Nat) (s : StateVec) (i : Nat) (x y z : Scalar) :
    (setPosition BS s i x y z).length = s.length := by
  simp [setPosition]

theorem defaultState_length (BS count : Nat) :
    (defaultState BS count).length = count * BS := by
  unfold defaultState
  have h : ∀ (l : List Nat) (s : StateVec),
      (l.foldl (fun default_state object_index =>
        setPosition BS default_state object_index
          (Scalar.val 0) (Scalar.val 0) (Scalar.val (3 / 2))) s).length = s.length := by
    intro l
    induction l with
    | nil => intro s; rfl
    | cons a l ih => intro s; rw [List.foldl_cons, ih, setPosition_length]
  rw [h]
  simp [zeroVec]

/-- C20 (amended): `MultiObjectTracker::Initialize` with `state_is_partial` true makes no
check of the seed dimension and raises no configuration error: its only exits are those of
the shader checks, with code -1, exactly when the GPU model is selected and a shader file is
missing, whatever the seeds.  With at least one body and no such exit, a seed whose size
differs from one body's block reaches the block assignment of stage 0 unchecked; that
assignment breaks the size precondition of Eigen, so from there the outcome of `Initialize`
is not defined by the tracker.  With at least one body and every seed of the size of one
body's block, the assignments of stage 0 are all defined. -/
theorem seed_dimension_unchecked {σ : Type} (E : ObjectEnv σ) (P : ObjectParams)
    (T : MultiObjectTracker σ) (seeds : List StateVec) (im : Image) (K : Matrix3d) :
    (∀ c, T.Initialize E P seeds im K true = Except.error (Failure.exit c) ↔
      c = -1 ∧ objectShaderMissing P = true) ∧
    (T.object_names_ ≠ [] →
      (objectShaderMissing P = false → (∃ seed ∈ seeds, seed.length ≠ E.BODY_SIZE) →
        overwriteBody E.BODY_SIZE 0 seeds
            (initialPopulation E.BODY_SIZE T.object_names_.length seeds)
          = Except.error Failure.undefined ∧
        T.Initialize E P seeds im K true = Except.error Failure.undefined) ∧
      ((∀ seed ∈ seeds, seed.length = E.BODY_SIZE) →
        ∃ pop, overwriteBody E.BODY_SIZE 0 seeds
            (initialPopulation E.BODY_SIZE T.object_names_.length seeds) = Except.ok pop)) := by
  refine ⟨fun c => object_Initialize_exit E P T seeds im K true c, fun hbody => ?_⟩
  obtain ⟨n, hn⟩ : ∃ n, T.object_names_.length = n + 1 :=
    ⟨T.object_names_.length - 1, by
      have : 0 < T.object_names_.length := List.length_pos.2 hbody
      omega⟩
  have hK : (initialPopulation E.BODY_SIZE T.object_names_.length seeds).length
      = seeds.length := by
    rw [initialPopulation_eq, List.length_replicate]
  refine ⟨?_, ?_⟩
  · intro hm ⟨seed, hmem, hbad⟩
    obtain ⟨om, ho⟩ : ∃ om, objectObservationModel P
        (K.topLeftCornerDiv (Scalar.ofInt T.downsampling_factor_))
        (E.Ros2Eigen im T.downsampling_factor_) seeds.length (Scalar.val (33 / 1000))
          = Except.ok om := by
      rcases objectObservationModel_cases P
          (K.topLeftCornerDiv (Scalar.ofInt T.downsampling_factor_))
          (E.Ros2Eigen im T.downsampling_factor_) seeds.length (Scalar.val (33 / 1000)) with
        ⟨g, _⟩ | ⟨_, om, ho⟩
      · rw [hm] at g; cases g
      · exact ⟨om, ho⟩
    obtain ⟨k, hk, hget⟩ := List.getElem_of_mem hmem
    have hseed : seeds[k]? = some seed := by rw [List.getElem?_eq_getElem hk, hget]
    refine ⟨overwriteBody_bad_seed (by rw [hK]; exact hk) hseed hbad, ?_⟩
    unfold MultiObjectTracker.Initialize
    simp only [ho, bind, Except.bind, if_true]
    rw [hn, stagedLoop_range_succ,
      stage_bad_seed E _ _ seeds _ 0 k seed (by rw [← hn, hK]; exact hk) hseed hbad]
  · intro hall
    have hwf : ∀ (k : Nat) (s : StateVec),
        (initialPopulation E.BODY_SIZE T.object_names_.length seeds)[k]? = some s →
        (0 + 1) * E.BODY_SIZE ≤ s.length ∧
          ∃ seed, seeds[k]? = some seed ∧ seed.length = E.BODY_SIZE := by
      intro k s hs
      have hk : k < seeds.length := by
        rw [← hK]
        by_contra hc
        rw [List.getElem?_eq_none (by omega)] at hs
        cases hs
      have hsd : s = defaultState E.BODY_SIZE T.object_names_.length := by
        rw [initialPopulation_eq, List.getElem?_replicate] at hs
        simp only [hk, if_true, Option.some.injEq] at hs
        exact hs.symm
      refine ⟨?_, seeds[k], List.getElem?_eq_getElem hk,
        hall _ (List.getElem_mem hk)⟩
      rw [hsd, defaultState_length, hn, Nat.zero_add, Nat.one_mul]
      exact Nat.le_mul_of_pos_left _ (Nat.succ_pos n)
    exact overwrite_fold_total E.BODY_SIZE 0 seeds _ hwf _ (Nat.le_refl _)

/-- Witness of C20 (amended): the two-object tracker given one seed of dimension 1. -/
theorem seed_dimension_unchecked_witness :
    demoObjectTracker.object_names_ ≠ [] ∧
    objectShaderMissing demoObjectParams = false ∧
    demoObjectTracker.Initialize demoObjectEnv demoObjectParams [[Scalar.val 0]]
      (demoImage 0) demoK true = Except.error Failure.undefined :=
  ⟨by decide, rfl,
    (((seed_dimension_unchecked demoObjectEnv demoObjectParams demoObjectTracker
      [[Scalar.val 0]] (demoImage 0) demoK).2 (by decide)).1 rfl
        ⟨[Scalar.val 0], List.mem_cons_self _ _, by decide⟩).2⟩

/-! ## The cloud in machine arithmetic -/

theorem uint32_of_lt {n : Nat} (h : n < 2 ^ 32) : uint32 n = n :=
  Nat.mod_eq_of_lt h

theorem size_t_of_lt {n : Nat} (h : n < 2 ^ 64) : size_t n = n :=
  Nat.mod_eq_of_lt h

theorem foldlM_congr_mem {α β : Type} (f g : β → α → Option β) :
    ∀ (l : List α), (∀ a ∈ l, ∀ b, f b a = g b a) → ∀ b, l.foldlM f b = l.foldlM g b := by
  intro l
  induction l with
  | nil => intro _ b; rfl
  | cons a l ih =>
    intro h b
    rw [List.foldlM_cons, List.foldlM_cons, h a (List.mem_cons_self _ _) b]
    congr 1
    funext b'
    exact ih (fun x hx => h x (List.mem_cons_of_mem _ hx)) b'

/-- The header and the buffer of a cloud that fits the 32-bit size fields. -/
theorem machine_emptyCloud_spec (image : Observation) (stamp : ℚ)
    (h1 : 12 * image.cols < 2 ^ 32) (h2 : image.rows < 2 ^ 32)
    (h3 : image.cols * image.rows * 12 < 2 ^ 32) :
    Machine.emptyCloud image stamp =
      { stamp := stamp, width := image.cols, height := image.rows, is_dense := false,
        is_bigendian := false, fields := (initFields ["x", "y", "z"]).1, point_step := 12,
        row_step := 12 * image.cols,
        data := List.replicate (image.cols * image.rows * 12) Byte.zero } := by
  have hc : image.cols < 2 ^ 32 := by omega
  have hwh : image.cols * image.rows < 2 ^ 32 := by omega
  unfold Machine.emptyCloud
  simp only [initFields_xyz, uint32_of_lt hc, uint32_of_lt h2,
    uint32_of_lt (show (12 : Nat) < 2 ^ 32 by norm_num), uint32_of_lt h1, uint32_of_lt hwh,
    uint32_of_lt h3]

theorem machine_writePoint_eq_write3 (A : Arith) (cam : Matrix3d) (image : Observation)
    (width : Nat) (data : List Byte) (v u : Nat)
    (h : 12 * (v * width + u) + 12 ≤ 2 ^ 64) :
    Machine.writePoint A cam image (initFields ["x", "y", "z"]).1 12 (12 * width) data v u
      = write3 data (12 * (v * width + u)) (Machine.pointAt A cam image v u) := by
  have hb : v * (12 * width) + u * 12 = 12 * (v * width + u) := by ring
  have e0 : size_t (12 * (v * width + u)) = 12 * (v * width + u) :=
    size_t_of_lt (by omega)
  have e1 : size_t (12 * (v * width + u) + 4) = 12 * (v * width + u) + 4 :=
    size_t_of_lt (by omega)
  have e2 : size_t (12 * (v * width + u) + 8) = 12 * (v * width + u) + 8 :=
    size_t_of_lt (by omega)
  rw [initFields_xyz]
  unfold Machine.writePoint Machine.pointAt write3
  by_cases hn : (A.toFloat (image.coeff v u)).isnan = true
  · simp [hn, fieldOffset, hb, e0, e1, e2]
  · simp [hn, fieldOffset, hb, e0, e1, e2]

/-- A cloud that fits the 32-bit size fields is built; its header is as declared and, for
every pixel inside the image, the three floats at the pixel's slot are the values the loop
body stores. -/
theorem machine_publishPointCloud_spec (A : Arith) (cam : Matrix3d) (image : Observation)
    (stamp : ℚ) (h1 : 12 * image.cols < 2 ^ 32) (h2 : image.rows < 2 ^ 32)
    (h3 : image.cols * image.rows * 12 < 2 ^ 32) :
    ∃ pc, Machine.publishPointCloud A cam image stamp = some pc ∧
      pc.stamp = stamp ∧ pc.width = image.cols ∧ pc.height = image.rows ∧
      pc.point_step = 12 ∧ pc.row_step = 12 * image.cols ∧
      pc.fields = (initFields ["x", "y", "z"]).1 ∧
      pc.data.length = image.cols * image.rows * 12 ∧
      (pixelOrder image).foldlM
        (fun data p =>
          Machine.writePoint A cam image pc.fields pc.point_step pc.row_step data p.2 p.1)
        (List.replicate (pc.width * pc.height * pc.point_step) Byte.zero) = some pc.data ∧
      ∀ v u, v < image.rows → u < image.cols →
        read3 pc.data (12 * (v * image.cols + u)) =
          (some (Machine.pointAt A cam image v u).1, some (Machine.pointAt A cam image v u).2.1,
            some (Machine.pointAt A cam image v u).2.2) := by
  have hnd : ((pixelOrder image).map (fun p => p.2 * image.cols + p.1)).Nodup := by
    apply List.Nodup.map_on
    · rintro ⟨u, v⟩ hp ⟨u', v'⟩ hp' h
      rw [mem_pixelOrder] at hp hp'
      obtain ⟨h1, h2⟩ := slot_inj hp.1 hp'.1 h
      simp only at h1 h2
      rw [h1, h2]
    · exact List.Nodup.product (List.nodup_range _) (List.nodup_range _)
  obtain ⟨d, hfold, hlen, hread, -⟩ :=
    foldlM_write3
      (fun data (p : Nat × Nat) =>
        write3 data (12 * (p.2 * image.cols + p.1)) (Machine.pointAt A cam image p.2 p.1))
      (fun p => p.2 * image.cols + p.1) (fun p => Machine.pointAt A cam image p.2 p.1)
      (fun _ _ => rfl)
      (pixelOrder image)
      (List.replicate (image.cols * image.rows * 12) Byte.zero)
      hnd
      (by
        rintro ⟨u, v⟩ hp
        rw [mem_pixelOrder] at hp
        rw [List.length_replicate]
        exact slot_lt hp.2 hp.1)
  have hcongr : (pixelOrder image).foldlM
      (fun data (p : Nat × Nat) =>
        Machine.writePoint A cam image (initFields ["x", "y", "z"]).1 12 (12 * image.cols)
          data p.2 p.1)
      (List.replicate (image.cols * image.rows * 12) Byte.zero) = some d := by
    rw [← hfold]
    apply foldlM_congr_mem
    rintro ⟨u, v⟩ hp data
    rw [mem_pixelOrder] at hp
    have := slot_lt hp.2 hp.1
    exact machine_writePoint_eq_write3 A cam image image.cols data v u (by omega)
  have hnest := foldlM_nested
    (fun data u v =>
      Machine.writePoint A cam image (initFields ["x", "y", "z"]).1 12 (12 * image.cols)
        data v u)
    (List.range image.cols) (List.range image.rows)
    (List.replicate (image.cols * image.rows * 12) Byte.zero)
  have hpub : Machine.publishPointCloud A cam image stamp = some
      { stamp := stamp, width := image.cols, height := image.rows, is_dense := false,
        is_bigendian := false, fields := (initFields ["x", "y", "z"]).1,
        point_step := 12, row_step := 12 * image.cols, data := d } := by
    unfold Machine.publishPointCloud
    simp only [machine_emptyCloud_spec image stamp h1 h2 h3]
    rw [hnest]
    unfold pixelOrder at hcongr
    rw [hcongr]
    rfl
  refine ⟨_, hpub, rfl, rfl, rfl, rfl, rfl, rfl, ?_, hcongr, ?_⟩
  · rw [hlen, List.length_replicate]
  · intro v u hv hu
    exact hread (u, v) ((mem_pixelOrder image u v).2 ⟨hu, hv⟩)

theorem foldlM_range_succ_none {β : Type} (f : β → Nat → Option β) (n : Nat) (b : β)
    (h : f b 0 = none) : (List.range (n + 1)).foldlM f b = none := by
  rw [List.range_succ_eq_map, List.foldlM_cons, h]
  rfl

/-- A frame of one row and 357913942 columns: its cloud needs `12 * 357913942 = 2 ^ 32 + 8`
bytes, the 32-bit sizes hold 8, and the third `memcpy` of the first pixel falls outside the
buffer. -/
theorem machine_overflow_frame (A : Arith) (cam : Matrix3d) (coeff : Nat → Nat → Scalar)
    (stamp : ℚ) :
    (Machine.emptyCloud ⟨1, 357913942, coeff⟩ stamp).width = 357913942 ∧
    (Machine.emptyCloud ⟨1, 357913942, coeff⟩ stamp).height = 1 ∧
    (Machine.emptyCloud ⟨1, 357913942, coeff⟩ stamp).point_step = 12 ∧
    (Machine.emptyCloud ⟨1, 357913942, coeff⟩ stamp).row_step = 8 ∧
    (Machine.emptyCloud ⟨1, 357913942, coeff⟩ stamp).fields = (initFields ["x", "y", "z"]).1 ∧
    (Machine.emptyCloud ⟨1, 357913942, coeff⟩ stamp).data = List.replicate 8 Byte.zero ∧
    Machine.publishPointCloud A cam ⟨1, 357913942, coeff⟩ stamp = none := by
  have he : Machine.emptyCloud ⟨1, 357913942, coeff⟩ stamp =
      { stamp := stamp, width := 357913942, height := 1, is_dense := false,
        is_bigendian := false, fields := (initFields ["x", "y", "z"]).1, point_step := 12,
        row_step := 8, data := List.replicate 8 Byte.zero } := by
    unfold Machine.emptyCloud
    simp only [initFields_xyz, uint32]
    norm_num
  refine ⟨by rw [he], by rw [he], by rw [he], by rw [he], by rw [he], by rw [he], ?_⟩
  unfold Machine.publishPointCloud
  simp only [he]
  have hw : ∀ d : List Byte, d.length = 8 → ∀ x y z : Scalar,
      ((memcpyFloat d (size_t (0 * 8 + 0 * 12 + 0)) x).bind fun d0 =>
        (memcpyFloat d0 (size_t (0 * 8 + 0 * 12 + 4)) y).bind fun d1 =>
          memcpyFloat d1 (size_t (0 * 8 + 0 * 12 + 8)) z) = none := by
    intro d hd x y z
    simp [memcpyFloat, size_t, hd]
  have hstep : (List.range 1).foldlM
      (fun data v =>
        Machine.writePoint A cam ⟨1, 357913942, coeff⟩ (initFields ["x", "y", "z"]).1 12 8
          data v 0)
      (List.replicate 8 Byte.zero) = none := by
    have h1 : List.range 1 = [0] := rfl
    rw [h1, List.foldlM_cons]
    have hwp : Machine.writePoint A cam ⟨1, 357913942, coeff⟩ (initFields ["x", "y", "z"]).1
        12 8 (List.replicate 8 Byte.zero) 0 0 = none := by
      unfold Machine.writePoint
      rw [initFields_xyz]
      simp only [fieldOffset, List.getElem?_cons_zero, List.getElem?_cons_succ]
      split
      · exact hw _ (List.length_replicate _ _) _ _ _
      · exact hw _ (List.length_replicate _ _) _ _ _
    rw [hwp]
    rfl
  have hout := foldlM_range_succ_none
    (fun data u =>
      (List.range 1).foldlM
        (fun data v =>
          Machine.writePoint A cam ⟨1, 357913942, coeff⟩ (initFields ["x", "y", "z"]).1 12 8
            data v u) data)
    357913941 (List.replicate 8 Byte.zero) hstep
  have hn : (357913941 : Nat) + 1 = 357913942 := by norm_num
  rw [hn] at hout
  simp only [hout]
  rfl

/-! ## Layout and slots of the cloud -/

/-- C3 (as stated) fails: for a frame of one row and 357913942 columns the message declares
`row_step = 8`, not `12 * width`, and allocates 8 bytes, not `width * height * 12`; the
pixel loop then stores outside the buffer and no cloud is built. -/
theorem publishPointCloud_layout_counterexample :
    (Machine.emptyCloud ⟨1, 357913942, fun _ _ => Scalar.val 1⟩ 0).width = 357913942 ∧
    (Machine.emptyCloud ⟨1, 357913942, fun _ _ => Scalar.val 1⟩ 0).row_step = 8 ∧
    (Machine.emptyCloud ⟨1, 357913942, fun _ _ => Scalar.val 1⟩ 0).row_step
      ≠ 12 * (Machine.emptyCloud ⟨1, 357913942, fun _ _ => Scalar.val 1⟩ 0).width ∧
    (Machine.emptyCloud ⟨1, 357913942, fun _ _ => Scalar.val 1⟩ 0).data.length = 8 ∧
    Machine.publishPointCloud ieeeArith demoK ⟨1, 357913942, fun _ _ => Scalar.val 1⟩ 0
      = none := by
  obtain ⟨hw, -, -, hrs, -, hd, hp⟩ :=
    machine_overflow_frame ieeeArith demoK (fun _ _ => Scalar.val 1) 0
  refine ⟨hw, hrs, ?_, ?_, hp⟩
  · rw [hrs, hw]; norm_num
  · rw [hd]; rfl

/-- C3 (amended): for a frame whose cloud fits the 32-bit size fields of the message
(`12 * cols`, `rows` and `cols * rows * 12` below `2 ^ 32`), in any floating-point
arithmetic, the cloud built by `publishPointCloud` declares `width = cols`, `height = rows`,
`point_step = 12`, `row_step = 12 * width`, field offsets 0, 4, 8 and a buffer of
`width * height * 12` bytes; the loops visit exactly the pixels with `u < width` and
`v < height`; and the point of pixel (row `v`, column `u`) lies row-major at point index
`v * width + u`, its x, y, z at byte offsets `v * row_step + u * point_step + 0, 4, 8`. -/
theorem publishPointCloud_layout (A : Arith) (cam : Matrix3d) (image : Observation)
    (stamp : ℚ) (h1 : 12 * image.cols < 2 ^ 32) (h2 : image.rows < 2 ^ 32)
    (h3 : image.cols * image.rows * 12 < 2 ^ 32) :
    ∃ pc, Machine.publishPointCloud A cam image stamp = some pc ∧
      pc.width = image.cols ∧ pc.height = image.rows ∧
      pc.point_step = 12 ∧ pc.row_step = 12 * pc.width ∧
      fieldOffset pc.fields 0 = 0 ∧ fieldOffset pc.fields 1 = 4 ∧ fieldOffset pc.fields 2 = 8 ∧
      pc.data.length = pc.width * pc.height * pc.point_step ∧
      (pixelOrder image).foldlM
        (fun data p =>
          Machine.writePoint A cam image pc.fields pc.point_step pc.row_step data p.2 p.1)
        (List.replicate (pc.width * pc.height * pc.point_step) Byte.zero) = some pc.data ∧
      (∀ u v, (u, v) ∈ pixelOrder image ↔ u < pc.width ∧ v < pc.height) ∧
      ∀ v u, v < pc.height → u < pc.width →
        v * pc.row_step + u * pc.point_step = (v * pc.width + u) * pc.point_step ∧
        size_t (v * pc.row_step + u * pc.point_step) = v * pc.row_step + u * pc.point_step ∧
        readFloat pc.data (v * pc.row_step + u * pc.point_step + 0)
          = some (Machine.pointAt A cam image v u).1 ∧
        readFloat pc.data (v * pc.row_step + u * pc.point_step + 4)
          = some (Machine.pointAt A cam image v u).2.1 ∧
        readFloat pc.data (v * pc.row_step + u * pc.point_step + 8)
          = some (Machine.pointAt A cam image v u).2.2 := by
  obtain ⟨pc, hpc, -, hw, hh, hps, hrs, hf, hlen, hfold, hread⟩ :=
    machine_publishPointCloud_spec A cam image stamp h1 h2 h3
  refine ⟨pc, hpc, hw, hh, hps, by rw [hrs, hw], ?_, ?_, ?_, ?_, hfold, ?_, ?_⟩
  · rw [hf, initFields_xyz]; rfl
  · rw [hf, initFields_xyz]; rfl
  · rw [hf, initFields_xyz]; rfl
  · rw [hlen, hw, hh, hps]
  · intro u v; rw [hw, hh]; exact mem_pixelOrder image u v
  · intro v u hv hu
    rw [hh] at hv
    rw [hw] at hu
    have hr := hread v u hv hu
    have hb : v * (12 * image.cols) + u * 12 = 12 * (v * image.cols + u) := by ring
    have hs := slot_lt hv hu
    simp only [read3, Prod.mk.injEq] at hr
    rw [hps, hrs, hw, hb]
    exact ⟨by ring, size_t_of_lt (by omega), hr.1, hr.2.1, hr.2.2⟩

/-- Witness of C3 (amended): a frame of 1 x 2 pixels in IEEE arithmetic. -/
theorem publishPointCloud_layout_witness :
    ∃ pc, Machine.publishPointCloud ieeeArith demoK ⟨1, 2, fun _ _ => Scalar.val 3⟩ 0
        = some pc ∧
      pc.width = 2 ∧ pc.height = 1 ∧ pc.row_step = 12 * pc.width ∧ pc.data.length = 24 :=
  let ⟨pc, h, hw, hh, hp, hr, _, _, _, hl, _⟩ := publishPointCloud_layout ieeeArith demoK
    ⟨1, 2, fun _ _ => Scalar.val 3⟩ 0 (by norm_num) (by norm_num) (by norm_num)
  ⟨pc, h, hw, hh, hr, by rw [hl, hw, hh, hp]; rfl⟩

theorem machine_bytesWritten_eq (cols v u : Nat) (h : 12 * (v * cols + u) + 12 ≤ 2 ^ 64) :
    Machine.bytesWritten (initFields ["x", "y", "z"]).1 12 (12 * cols) v u =
      (List.range 12).map (fun k => 12 * slotOf cols v u + k) := by
  have h3 : List.range 3 = [0, 1, 2] := rfl
  have h4 : List.range 4 = [0, 1, 2, 3] := rfl
  have h12 : List.range 12 = [0, 1, 2, 3, 4, 5, 6, 7, 8, 9, 10, 11] := rfl
  have hb : v * (12 * cols) + u * 12 = 12 * slotOf cols v u := by
    unfold slotOf; ring
  have hs : 12 * slotOf cols v u + 12 ≤ 2 ^ 64 := h
  have e0 : size_t (12 * slotOf cols v u) = 12 * slotOf cols v u := size_t_of_lt (by omega)
  have e1 : size_t (12 * slotOf cols v u + 4) = 12 * slotOf cols v u + 4 :=
    size_t_of_lt (by omega)
  have e2 : size_t (12 * slotOf cols v u + 8) = 12 * slotOf cols v u + 8 :=
    size_t_of_lt (by omega)
  rw [initFields_xyz]
  simp only [Machine.bytesWritten, h3, h4, h12, List.flatMap_cons, List.flatMap_nil,
    List.map_cons, List.map_nil, List.append_nil, List.cons_append, List.nil_append, fieldOffset,
    hb, List.getElem?_cons_zero, List.getElem?_cons_succ, Nat.add_zero, e0, e1, e2,
    Nat.add_assoc]

/-- C26 (as stated) fails: for a frame of one row and 357913942 columns the buffer has 8
bytes, the stores of the first pixel touch the bytes 8 to 11, and the call ends in this
out-of-range store. -/
theorem cloud_slots_counterexample :
    (Machine.emptyCloud ⟨1, 357913942, fun _ _ => Scalar.val 1⟩ 0).data.length = 8 ∧
    8 ∈ Machine.bytesWritten
      (Machine.emptyCloud ⟨1, 357913942, fun _ _ => Scalar.val 1⟩ 0).fields
      (Machine.emptyCloud ⟨1, 357913942, fun _ _ => Scalar.val 1⟩ 0).point_step
      (Machine.emptyCloud ⟨1, 357913942, fun _ _ => Scalar.val 1⟩ 0).row_step 0 0 ∧
    Machine.publishPointCloud exactArith demoK ⟨1, 357913942, fun _ _ => Scalar.val 1⟩ 0
      = none := by
  obtain ⟨-, -, hps, hrs, hf, hd, hp⟩ :=
    machine_overflow_frame exactArith demoK (fun _ _ => Scalar.val 1) 0
  refine ⟨by rw [hd]; rfl, ?_, hp⟩
  rw [hps, hrs, hf, initFields_xyz]
  decide

/-- C26 (amended): for a frame with `rows >= 1`, `cols >= 1` and a cloud that fits the
32-bit size fields (`cols * rows * 12 < 2 ^ 32`), in any floating-point arithmetic,
`publishPointCloud` completes with every `memcpy` inside the buffer of
`width * height * point_step` bytes; the twelve bytes written for pixel `(v, u)` are those
of the slot `v * width + u`; and the pixels of the frame correspond one to one to the
`width * height` slots: two pixels never share a slot, every slot belongs to a pixel, the
loops visit every slot exactly once, and every slot holds the point of its pixel. -/
theorem cloud_slots_bijection (A : Arith) (cam : Matrix3d) (image : Observation) (stamp : ℚ)
    (hr : 1 ≤ image.rows) (hc : 1 ≤ image.cols)
    (hb : image.cols * image.rows * 12 < 2 ^ 32) :
    ∃ pc, Machine.publishPointCloud A cam image stamp = some pc ∧
      pc.data.length = pc.width * pc.height * pc.point_step ∧
      (pixelOrder image).foldlM
        (fun data p =>
          Machine.writePoint A cam image pc.fields pc.point_step pc.row_step data p.2 p.1)
        (List.replicate (pc.width * pc.height * pc.point_step) Byte.zero) = some pc.data ∧
      (∀ v u, v < image.rows → u < image.cols →
        Machine.bytesWritten pc.fields pc.point_step pc.row_step v u
          = (List.range 12).map (fun k => 12 * slotOf pc.width v u + k) ∧
        (∀ b ∈ Machine.bytesWritten pc.fields pc.point_step pc.row_step v u,
          b < pc.data.length) ∧
        slotOf pc.width v u < pc.width * pc.height ∧
        read3 pc.data (12 * slotOf pc.width v u) =
          (some (Machine.pointAt A cam image v u).1, some (Machine.pointAt A cam image v u).2.1,
            some (Machine.pointAt A cam image v u).2.2)) ∧
      (∀ v u v' u', v < image.rows → u < image.cols → v' < image.rows → u' < image.cols →
        slotOf pc.width v u = slotOf pc.width v' u' → v = v' ∧ u = u') ∧
      (∀ n, n < pc.width * pc.height →
        ∃ v u, v < image.rows ∧ u < image.cols ∧ slotOf pc.width v u = n) ∧
      List.Perm ((pixelOrder image).map (fun p => slotOf pc.width p.2 p.1))
        (List.range (pc.width * pc.height)) := by
  have hcr : image.cols ≤ image.cols * image.rows := Nat.le_mul_of_pos_right _ hr
  have hrc : image.rows ≤ image.cols * image.rows := Nat.le_mul_of_pos_left _ hc
  obtain ⟨pc, hpc, -, hw, hh, hps, hrs, hf, hlen, hfold, hread⟩ :=
    machine_publishPointCloud_spec A cam image stamp (by omega) (by omega) hb
  refine ⟨pc, hpc, ?_, hfold, ?_, ?_, ?_, ?_⟩
  · rw [hlen, hw, hh, hps]
  · intro v u hv hu
    have hs := slot_lt hv hu
    have hbw : Machine.bytesWritten pc.fields pc.point_step pc.row_step v u
        = (List.range 12).map (fun k => 12 * slotOf pc.width v u + k) := by
      rw [hf, hps, hrs, hw]
      exact machine_bytesWritten_eq image.cols v u (by omega)
    refine ⟨hbw, ?_, ?_, ?_⟩
    · intro b hb'
      rw [hbw] at hb'
      obtain ⟨k, hk, rfl⟩ := List.mem_map.1 hb'
      have hk' := List.mem_range.1 hk
      rw [hlen, hw]
      unfold slotOf
      omega
    · rw [hw, hh]; exact slotOf_lt hv hu
    · rw [hw]; exact hread v u hv hu
  · intro v u v' u' _ hu _ hu' h
    rw [hw] at h
    exact slot_inj hu hu' h
  · intro n hn
    rw [hw, hh] at hn
    rw [hw]
    exact slotOf_surj hn
  · rw [hw, hh]
    exact slots_perm image

/-- Witness of C26 (amended): a frame of 2 x 3 pixels in IEEE arithmetic. -/
theorem cloud_slots_bijection_witness :
    ∃ pc, Machine.publishPointCloud ieeeArith demoK ⟨2, 3, fun _ _ => Scalar.val 1⟩ 0
        = some pc ∧
      List.Perm ((pixelOrder ⟨2, 3, fun _ _ => Scalar.val 1⟩).map
          (fun p => slotOf pc.width p.2 p.1)) (List.range (pc.width * pc.height)) :=
  let ⟨pc, h, _, _, _, _, _, hp⟩ := cloud_slots_bijection ieeeArith demoK
    ⟨2, 3, fun _ _ => Scalar.val 1⟩ 0 (by norm_num) (by norm_num) (by norm_num)
  ⟨pc, h, hp⟩

/-! ## Rounding -/

theorem int_log_two_eq {q : ℚ} (hq : 0 < q) (l : ℤ) (h1 : (2 : ℚ) ^ l ≤ q)
    (h2 : q < (2 : ℚ) ^ (l + 1)) : Int.log 2 q = l := by
  have a := (Int.zpow_le_iff_le_log (b := 2) (by norm_num) hq).1 (by exact_mod_cast h1)
  have b := (Int.lt_zpow_iff_log_lt (b := 2) (by norm_num) hq).1 (by exact_mod_cast h2)
  omega

theorem roundHalfEven_down (x : ℚ) (f : ℤ) (h1 : (f : ℚ) ≤ x) (h2 : x < f + 1 / 2) :
    roundHalfEven x = f := by
  have hf : ⌊x⌋ = f := Int.floor_eq_iff.2 ⟨h1, by linarith⟩
  unfold roundHalfEven
  rw [hf, if_pos (by linarith)]

theorem roundHalfEven_up (x : ℚ) (f : ℤ) (h1 : (f : ℚ) + 1 / 2 < x) (h2 : x < f + 1) :
    roundHalfEven x = f + 1 := by
  have hf : ⌊x⌋ = f := Int.floor_eq_iff.2 ⟨by linarith, h2⟩
  unfold roundHalfEven
  rw [hf, if_neg (by linarith), if_pos (by linarith)]

/-- The rounding of `q` once its binade `2 ^ l ≤ |q| < 2 ^ (l + 1)` and the rounding of its
significand are known. -/
theorem roundToPrecision_eval (p : ℕ) (q : ℚ) (l : ℤ) (m : ℤ) (hq : q ≠ 0)
    (h1 : (2 : ℚ) ^ l ≤ |q|) (h2 : |q| < (2 : ℚ) ^ (l + 1))
    (hm : roundHalfEven (q / 2 ^ (l - (p - 1))) = m) :
    roundToPrecision p q = m * 2 ^ (l - (p - 1)) := by
  have hl : Int.log 2 |q| = l := int_log_two_eq (abs_pos.2 hq) l h1 h2
  unfold roundToPrecision
  rw [if_neg hq, hl, hm]

/-- The `double` nearest to 0.1 is `3602879701896397 / 2 ^ 55`. -/
theorem double_tenth :
    roundToPrecision 53 (1 / 10) = 3602879701896397 / 36028797018963968 := by
  rw [roundToPrecision_eval 53 _ (-4) 7205759403792794 (by norm_num)
    (by norm_num [abs_of_pos]) (by norm_num [abs_of_pos])
    (roundHalfEven_up _ 7205759403792793 (by norm_num) (by norm_num))]
  norm_num

/-- The `float` nearest to the `double` nearest to 0.1 is `13421773 / 2 ^ 27`. -/
theorem float_double_tenth :
    roundToPrecision 24 (3602879701896397 / 36028797018963968) = 13421773 / 134217728 := by
  rw [roundToPrecision_eval 24 _ (-4) 13421773 (by norm_num)
    (by norm_num [abs_of_pos]) (by norm_num [abs_of_pos])
    (roundHalfEven_up _ 13421772 (by norm_num) (by norm_num))]
  norm_num

theorem ieee_toFloat_val (a c : ℚ) (h : roundToPrecision 24 a = c) :
    ieeeArith.toFloat (Scalar.val a) = Scalar.val c := by
  simp [ieeeArith, Scalar.round, h]

/-! ## A pixel of finite depth -/

theorem round24_3 :
    roundToPrecision 24 3 = 3 := by
  rw [roundToPrecision_eval 24 _ 1 12582912 (by norm_num)
    (by norm_num [abs_of_pos]) (by norm_num [abs_of_pos])
    (roundHalfEven_down _ 12582912 (by norm_num) (by norm_num))]
  norm_num

/-- C2 (as stated) fails: in IEEE arithmetic, a pixel whose depth is the `double` nearest
to 0.1 gets the z value `13421773 / 2 ^ 27`, the nearest `float`, which is not the depth;
and in a frame of 1 x 357913942 pixels, whose cloud does not fit the 32-bit sizes of the
message, the point of the valid pixel `(0,0)` is not written: the call ends in a store
outside the buffer. -/
theorem publishPointCloud_valid_pixel_counterexample :
    (roundToPrecision 53 (1 / 10) = 3602879701896397 / 36028797018963968 ∧
      (0 : ℚ) < 3602879701896397 / 36028797018963968 ∧
      ∃ pc, Machine.publishPointCloud ieeeArith demoK
          ⟨1, 1, fun _ _ => Scalar.val (3602879701896397 / 36028797018963968)⟩ 0 = some pc ∧
        readFloat pc.data (0 * pc.row_step + 0 * pc.point_step + fieldOffset pc.fields 2)
          = some (Scalar.val (13421773 / 134217728)) ∧
        Scalar.val (13421773 / 134217728)
          ≠ Scalar.val (3602879701896397 / 36028797018963968)) ∧
    Machine.publishPointCloud ieeeArith demoK ⟨1, 357913942, fun _ _ => Scalar.val 1⟩ 0
      = none := by
  refine ⟨⟨double_tenth, by norm_num, ?_⟩,
    (machine_overflow_frame ieeeArith demoK (fun _ _ => Scalar.val 1) 0).2.2.2.2.2.2⟩
  obtain ⟨pc, hpc, -, -, -, hps, hrs, hf, -, -, hread⟩ :=
    machine_publishPointCloud_spec ieeeArith demoK
      ⟨1, 1, fun _ _ => Scalar.val (3602879701896397 / 36028797018963968)⟩ 0
      (by norm_num) (by norm_num) (by norm_num)
  refine ⟨pc, hpc, ?_, ?_⟩
  · have hr := hread 0 0 (by norm_num) (by norm_num)
    simp only [read3, Prod.mk.injEq] at hr
    have hz := hr.2.2
    rw [hps, hrs, hf, initFields_xyz]
    simp only [fieldOffset, List.getElem?_cons_zero, List.getElem?_cons_succ, Nat.zero_mul,
      Nat.mul_zero, Nat.zero_add, Nat.add_zero] at hz ⊢
    rw [hz]
    simp only [Machine.pointAt, ieeeArith, Scalar.round, Scalar.isnan, Bool.false_eq_true,
      if_false, float_double_tenth]
  · intro h
    injection h with h'
    norm_num at h'

/-- C2 (amended): for a frame whose cloud fits the 32-bit size field of the message,
intrinsics with `fx`, `fy` non-zero and a pixel `(v,u)` whose depth, narrowed to `float`, is
not NaN, `publishPointCloud` writes `x = (float)(((float)u - cx) * (float)d / fx)`,
`y = (float)(((float)v - cy) * (float)d / fy)` and `z = (float)d`, the operations being
those of the `double` arithmetic; `z` is the depth `d` itself when the narrowing leaves `d`
unchanged; and in exact arithmetic, for a finite depth and finite intrinsics, the point is
`x = (u - cx) * d / fx`, `y = (v - cy) * d / fy`, `z = d`. -/
theorem publishPointCloud_valid_pixel (A : Arith) (cam : Matrix3d) (image : Observation)
    (stamp : ℚ) (v u : Nat) (hsize : image.cols * image.rows * 12 < 2 ^ 32)
    (hfx : cam.m00 ≠ Scalar.val 0) (hfy : cam.m11 ≠ Scalar.val 0)
    (hv : v < image.rows) (hu : u < image.cols)
    (hd : (A.toFloat (image.coeff v u)).isnan = false) :
    ∃ pc, Machine.publishPointCloud A cam image stamp = some pc ∧
      readFloat pc.data (v * pc.row_step + u * pc.point_step + fieldOffset pc.fields 0)
        = some (A.toFloat (A.div (A.mul (A.sub (A.toFloat (Scalar.ofNat u)) cam.m02)
            (A.toFloat (image.coeff v u))) cam.m00)) ∧
      readFloat pc.data (v * pc.row_step + u * pc.point_step + fieldOffset pc.fields 1)
        = some (A.toFloat (A.div (A.mul (A.sub (A.toFloat (Scalar.ofNat v)) cam.m12)
            (A.toFloat (image.coeff v u))) cam.m11)) ∧
      readFloat pc.data (v * pc.row_step + u * pc.point_step + fieldOffset pc.fields 2)
        = some (A.toFloat (image.coeff v u)) ∧
      (A.toFloat (image.coeff v u) = image.coeff v u →
        readFloat pc.data (v * pc.row_step + u * pc.point_step + fieldOffset pc.fields 2)
          = some (image.coeff v u)) ∧
      (A = exactArith → ∀ d fx fy cx cy : ℚ, image.coeff v u = Scalar.val d →
        cam.m00 = Scalar.val fx → cam.m11 = Scalar.val fy →
        cam.m02 = Scalar.val cx → cam.m12 = Scalar.val cy →
        readFloat pc.data (v * pc.row_step + u * pc.point_step + fieldOffset pc.fields 0)
          = some (Scalar.val (((u : ℚ) - cx) * d / fx)) ∧
        readFloat pc.data (v * pc.row_step + u * pc.point_step + fieldOffset pc.fields 1)
          = some (Scalar.val (((v : ℚ) - cy) * d / fy)) ∧
        readFloat pc.data (v * pc.row_step + u * pc.point_step + fieldOffset pc.fields 2)
          = some (Scalar.val d)) := by
  have hrow : 1 ≤ image.rows := Nat.succ_le_of_lt (Nat.lt_of_le_of_lt (Nat.zero_le v) hv)
  have hcol : 1 ≤ image.cols := Nat.succ_le_of_lt (Nat.lt_of_le_of_lt (Nat.zero_le u) hu)
  have h1 : 12 * image.cols < 2 ^ 32 := by
    have := Nat.mul_le_mul_left image.cols hrow
    nlinarith
  have h2 : image.rows < 2 ^ 32 := by
    have := Nat.mul_le_mul_right image.rows hcol
    nlinarith
  obtain ⟨pc, hpc, -, -, -, hps, hrs, hf, -, -, hread⟩ :=
    machine_publishPointCloud_spec A cam image stamp h1 h2 hsize
  have hr := hread v u hv hu
  have hb : v * (12 * image.cols) + u * 12 = 12 * (v * image.cols + u) := by ring
  simp only [read3, Machine.pointAt, hd, Bool.false_eq_true, if_false, Prod.mk.injEq] at hr
  have hx : readFloat pc.data (v * pc.row_step + u * pc.point_step + fieldOffset pc.fields 0)
      = some (A.toFloat (A.div (A.mul (A.sub (A.toFloat (Scalar.ofNat u)) cam.m02)
          (A.toFloat (image.coeff v u))) cam.m00)) := by
    rw [hps, hrs, hf, initFields_xyz, hb]; simpa [fieldOffset] using hr.1
  have hy : readFloat pc.data (v * pc.row_step + u * pc.point_step + fieldOffset pc.fields 1)
      = some (A.toFloat (A.div (A.mul (A.sub (A.toFloat (Scalar.ofNat v)) cam.m12)
          (A.toFloat (image.coeff v u))) cam.m11)) := by
    rw [hps, hrs, hf, initFields_xyz, hb]; simpa [fieldOffset] using hr.2.1
  have hz : readFloat pc.data (v * pc.row_step + u * pc.point_step + fieldOffset pc.fields 2)
      = some (A.toFloat (image.coeff v u)) := by
    rw [hps, hrs, hf, initFields_xyz, hb]; simpa [fieldOffset] using hr.2.2
  refine ⟨pc, hpc, hx, hy, hz, ?_, ?_⟩
  · intro he
    rw [hz, he]
  · intro hA d fx fy cx cy hdv h00 h11 h02 h12
    subst hA
    have hfx0 : fx ≠ 0 := fun h => hfx (by rw [h00, h])
    have hfy0 : fy ≠ 0 := fun h => hfy (by rw [h11, h])
    rw [hx, hy, hz, hdv, h00, h11, h02, h12]
    simp [exactArith, Scalar.ofNat, Scalar.sub, Scalar.mul, Scalar.div, hfx0, hfy0]

/-- Witness of C2 (amended): pixel `(0,1)` of a 1 x 2 frame of depth 3 in IEEE arithmetic,
with `fx = fy = 2`; the depth 3 is a `float`, and the z value stored is 3. -/
theorem publishPointCloud_valid_pixel_witness :
    ∃ pc, Machine.publishPointCloud ieeeArith demoK ⟨1, 2, fun _ _ => Scalar.val 3⟩ 0
        = some pc ∧
      readFloat pc.data (0 * pc.row_step + 1 * pc.point_step + fieldOffset pc.fields 2)
        = some (Scalar.val 3) :=
  let ⟨pc, h, _, _, _, hz, _⟩ := publishPointCloud_valid_pixel ieeeArith demoK
    ⟨1, 2, fun _ _ => Scalar.val 3⟩ 0 0 1 (by norm_num)
    (by simp [demoK]) (by simp [demoK]) (by norm_num) (by norm_num)
    (by rw [ieee_toFloat_val 3 3 round24_3]; rfl)
  ⟨pc, h, hz (ieee_toFloat_val 3 3 round24_3)⟩

end DbotRos
